import Mathlib

/-! Setup menu of the N64brew game-jam template (`setup.c`).

A shallow embedding of the menu state machine of `setup.c` and the proofs of
its specification.

Modelling conventions.

* `float` values are exact rationals (`ℚ`); `int` values are integers (`ℤ`)
  without wrap-around.  A `float` stored into an `int` field is truncated
  toward zero (`f2i`), as C does.  Where the rounding of binary32 decides a
  property, the operations are rounded by `f32` (`lerp_f32`, `deglerp_f32`).
* The file-scope globals of `setup.c` are the fields of `State`, under their
  source names.  The two configuration sinks `core_set_playercount` and
  `core_set_aidifficulty` append to the trace `State.sink_calls`.
* A read of the local array `btns[4]` outside `0..3` is a fault: the step
  returns `none`.
* The transcendental functions of `<math.h>` are parameters (`Libm`).
* Render calls have no effect on the state and are left out; what
  `setup_draw` and `drawbox` write to the globals is kept.  `drawfade` is
  modelled by the rectangles it fills, and a division by zero is a fault.
-/

namespace Setup

/-! ## Data model -/

/-- The enum `CurrentMenu` of `setup.c`. -/
inductive CurrentMenu where
  | MENU_START
  | MENU_MODE
  | MENU_PLAYERS
  | MENU_GAMESETUP
  | MENU_DONE
  deriving DecidableEq, Repr

/-- The enum `Transition` of `setup.c`. -/
inductive Transition where
  | TRANS_NONE
  | TRANS_FORWARD
  | TRANS_BACKWARD
  deriving DecidableEq, Repr

open CurrentMenu Transition

/-- The buttons of a `joypad_buttons_t` sample that `setup.c` reads. -/
structure joypad_buttons_t where
  a : Bool
  start : Bool
  d_up : Bool
  d_down : Bool
  d_left : Bool
  d_right : Bool
  c_up : Bool
  c_down : Bool
  c_left : Bool
  c_right : Bool
  deriving DecidableEq, Repr

/-- The zero sample `{0}`: no button set. -/
def joypad_buttons_t.zero : joypad_buttons_t :=
  ⟨false, false, false, false, false, false, false, false, false, false⟩

/-- The geometry fields of a `BoxDef` (the sprite skin is render-only). -/
structure BoxDef where
  w : Int
  h : Int
  x : Int
  y : Int
  deriving DecidableEq, Repr

/-- A call to one of the two configuration sinks of `core.h`. -/
inductive SinkCall where
  | core_set_playercount (count : Int)
  | core_set_aidifficulty (level : Int)
  deriving DecidableEq, Repr

/-- Number of player slots.  `core.h` is not among the sources; the value is
the one that the 4-entry arrays `btns` and `plyclrs`, both indexed by
`i < MAXPLAYERS`, are sized for. -/
def MAXPLAYERS : Nat := 4

/-- The file-scope globals of `setup.c` that the frame loop reads or writes,
and the trace of sink calls. -/
structure State where
  global_transition : Transition
  global_curmenu : CurrentMenu
  global_firstport : Int
  global_selection : Int
  global_playerjoined : Nat → Bool
  global_readyprog : ℚ
  global_cursoractive : Bool
  global_cursory : ℚ
  global_showsecond : Bool
  global_cfg_points : Int
  global_cfg_nextround : Int
  global_backtime : ℚ
  global_rotsel1 : ℚ
  global_rotsel2 : ℚ
  global_rotcursor : ℚ
  bdef_backbox_mode : BoxDef
  bdef_backbox_plycount : BoxDef
  bdef_backbox_aidiff : BoxDef
  bdef_backbox_gameconfig : BoxDef
  bdef_backbox_blacklist : BoxDef
  bdef_button_freeplay : BoxDef
  bdef_button_compete : BoxDef
  sink_calls : List SinkCall

/-- What the input collaborator answers during one frame:
`joypad_get_buttons_pressed(port)` and `joypad_get_buttons(port)`. -/
structure Input where
  joypad_get_buttons_pressed : Int → joypad_buttons_t
  joypad_get_buttons : Int → joypad_buttons_t

/-- The functions and constants of `<math.h>` used by `setup.c`. -/
structure Libm where
  pow : ℚ → ℚ → ℚ
  sin : ℚ → ℚ
  cos : ℚ → ℚ
  sqrt : ℚ → ℚ
  M_PI : ℚ

/-- The constant `POPTIME` (`0.4f`). -/
def POPTIME : ℚ := 2 / 5

/-- Conversion of a `float` to `int`: truncation toward zero. -/
def f2i (q : ℚ) : Int := Int.tdiv q.num (q.den : Int)

/-! ## Interpolation helpers -/

/-- The function `lerp`. -/
def lerp (from_ to_ frac : ℚ) : ℚ := from_ + (to_ - from_) * frac

/-- The function `elasticlerp`. -/
def elasticlerp (m : Libm) (from_ to_ frac : ℚ) : ℚ :=
  let c4 : ℚ := (2 * m.M_PI) / 3
  if frac ≤ 0 then from_
  else if frac ≥ 1 then to_
  else
    let ease : ℚ := m.pow 2 (-8 * frac) * m.sin ((frac * 8 - 3 / 4) * c4) + 1
    from_ + (to_ - from_) * ease

/-- The function `deglerp`. -/
def deglerp (from_ to_ frac : ℚ) : ℚ :=
  let delta : ℚ := to_ - from_
  let from_ : ℚ :=
    if delta > 180 then from_ + 360
    else if delta < -180 then from_ - 360
    else from_
  let from_ : ℚ := lerp from_ to_ frac
  if from_ < 0 then from_ + 360 else from_

/-- The function `is_menuvisible`. -/
def is_menuvisible (s : State) (menu : CurrentMenu) : Bool :=
  match menu with
  | MENU_MODE =>
    s.global_curmenu = MENU_START || s.global_curmenu = MENU_MODE ||
      (s.global_curmenu = MENU_PLAYERS && s.global_transition = TRANS_FORWARD)
  | MENU_PLAYERS =>
    s.global_curmenu = MENU_PLAYERS ||
      (s.global_curmenu = MENU_MODE && s.global_transition = TRANS_BACKWARD) ||
      (s.global_curmenu = MENU_GAMESETUP && s.global_transition = TRANS_FORWARD)
  | MENU_GAMESETUP =>
    s.global_curmenu = MENU_GAMESETUP ||
      (s.global_curmenu = MENU_PLAYERS && s.global_transition = TRANS_BACKWARD) ||
      (s.global_curmenu = MENU_DONE && s.global_transition = TRANS_FORWARD)
  | _ => false

/-! ## `setup_init` -/

/-- The function `setup_init`.  `joypad_is_connected` is the collaborator's
answer per port.  Two things are not written by `setup_init` and are
arguments: the `x`/`y` fields of the two buttons keep whatever `malloc`
returned (`fx fy cx cy`), and the static `global_showsecond` keeps the value
it had (`showsecond`; false the first time, being zero-initialised). -/
def setup_init (joypad_is_connected : Int → Bool) (showsecond : Bool) (fx fy cx cy : Int) :
    State :=
  { global_selection := 0
    global_transition := TRANS_FORWARD
    global_curmenu := MENU_START
    global_cursoractive := false
    global_firstport :=
      (List.range MAXPLAYERS).foldl
        (fun fp i => if fp = -1 ∧ joypad_is_connected (i : Int) = true then (i : Int) else fp)
        (-1)
    global_playerjoined := fun _ => false
    global_backtime := 0
    global_cursory := 0
    global_rotsel1 := 0
    global_rotsel2 := 0
    global_rotcursor := 0
    global_readyprog := 0
    global_showsecond := showsecond
    global_cfg_points := 5
    global_cfg_nextround := 0
    bdef_backbox_mode := { w := 0, h := 0, x := 320 / 2, y := 240 / 2 }
    bdef_backbox_plycount := { w := 280, h := 200, x := 280 * 2, y := 240 / 2 }
    bdef_backbox_aidiff := { w := 0, h := 0, x := 320 / 2, y := 240 / 2 }
    bdef_backbox_gameconfig := { w := 280, h := 200, x := 280 * 2, y := 240 / 2 }
    bdef_backbox_blacklist := { w := 0, h := 0, x := 320 / 2, y := 240 / 2 }
    bdef_button_freeplay := { w := 128, h := 40, x := fx, y := fy }
    bdef_button_compete := { w := 128, h := 40, x := cx, y := cy }
    sink_calls := [] }

/-! ## `setup_loop` -/

/-- Content of the local array `btns[4]` after the sampling loop: entry `i` is
`joypad_get_buttons_pressed(i)` for `i < MAXPLAYERS`, and stays `{0}` above. -/
def btns_array (inp : Input) (i : Nat) : joypad_buttons_t :=
  if i < MAXPLAYERS then inp.joypad_get_buttons_pressed (i : Int) else joypad_buttons_t.zero

/-- A read `btns[i]` with an `int` index: a fault outside the 4 entries. -/
def btns (inp : Input) (i : Int) : Option joypad_buttons_t :=
  if 0 ≤ i ∧ i < 4 then some (btns_array inp i.toNat) else none

/-- The join/quit loop of `MENU_PLAYERS`:
`for i < MAXPLAYERS: if (btns[i].start) joined[i] = !joined[i]`. -/
def toggle_joined (inp : Input) (joined : Nat → Bool) : Nat → Bool :=
  (List.range MAXPLAYERS).foldl
    (fun j i => if (btns_array inp i).start = true then Function.update j i (!(j i)) else j)
    joined

/-- The loop computing `firstcont`:
`for i < MAXPLAYERS: if (joined[i] && firstcont == -1) firstcont = i`. -/
def firstcont_of (joined : Nat → Bool) : Int :=
  (List.range MAXPLAYERS).foldl
    (fun fc i => if joined i = true ∧ fc = -1 then (i : Int) else fc)
    (-1)

/-- The loop computing `count`: `for i < MAXPLAYERS: if (joined[i]) count++`. -/
def count_joined (joined : Nat → Bool) : Int :=
  (List.range MAXPLAYERS).foldl
    (fun c i => if joined i = true then c + 1 else c)
    0

/-- The `gotonext` block at the end of the `MENU_PLAYERS` case. -/
def players_gotonext (s : State) : State :=
  { s with
    global_readyprog := 0
    global_curmenu := MENU_GAMESETUP
    global_transition := TRANS_FORWARD
    global_cursoractive := false }

/-- The body of `if (global_cursoractive)` in the `MENU_PLAYERS` case. -/
def players_active (s : State) (inp : Input) (deltatime : ℚ) : Option State :=
  let joined : Nat → Bool :=
    if s.global_showsecond = false then toggle_joined inp s.global_playerjoined
    else s.global_playerjoined
  let firstcont : Int := firstcont_of joined
  let s : State := { s with global_playerjoined := joined }
  if s.global_showsecond = false then
    if firstcont ≠ -1 ∧ (inp.joypad_get_buttons firstcont).a = true then
      let s : State := { s with global_readyprog := s.global_readyprog + deltatime }
      if s.global_readyprog ≥ 1 then
        let s : State := { s with global_firstport := firstcont }
        if joined (MAXPLAYERS - 1) = false then
          some { s with
            global_showsecond := true
            global_cursoractive := false
            global_selection := 1
            sink_calls := s.sink_calls ++ [SinkCall.core_set_playercount (count_joined joined)] }
        else
          some (players_gotonext { s with
            sink_calls := s.sink_calls ++ [SinkCall.core_set_playercount (count_joined joined)] })
      else
        some s
    else
      some { s with global_readyprog := 0 }
  else
    (btns inp s.global_firstport).map fun b =>
      if b.a = true then
        players_gotonext { s with
          sink_calls := s.sink_calls ++ [SinkCall.core_set_aidifficulty s.global_selection] }
      else s

/-- The opening gate of the `MENU_PLAYERS` case: the box has slid in. -/
def players_gate (s : State) : State :=
  if s.global_transition = TRANS_FORWARD ∧ s.bdef_backbox_plycount.x ≤ 170 then
    { s with global_cursoractive := true, global_transition := TRANS_NONE }
  else s

/-- The `MENU_PLAYERS` case of the switch. -/
def menu_players (s : State) (inp : Input) (deltatime : ℚ) : Option State :=
  let s : State := players_gate s
  if s.global_cursoractive = true then players_active s inp deltatime else some s

/-- The increment branch of the `MENU_GAMESETUP` case
(`a`, `d_right` or `c_right` pressed). -/
def gamesetup_increment (s : State) : State :=
  if s.global_selection = 0 then
    let s : State := { s with global_cfg_points := s.global_cfg_points + 1 }
    if s.global_cfg_points > 10 then { s with global_cfg_points := 1 } else s
  else if s.global_selection = 1 then
    let s : State := { s with global_cfg_nextround := s.global_cfg_nextround + 1 }
    if s.global_cfg_nextround > 3 then { s with global_cfg_nextround := 0 } else s
  else if s.global_selection = 2 then s
  else s

/-- The decrement branch of the `MENU_GAMESETUP` case
(`d_left` or `c_left` pressed, no increment button). -/
def gamesetup_decrement (s : State) : State :=
  if s.global_selection = 0 then
    let s : State := { s with global_cfg_points := s.global_cfg_points - 1 }
    if s.global_cfg_points < 1 then { s with global_cfg_points := 10 } else s
  else if s.global_selection = 1 then
    if s.global_cfg_nextround = 0 then { s with global_cfg_nextround := 3 }
    else { s with global_cfg_nextround := s.global_cfg_nextround - 1 }
  else if s.global_selection = 2 then s
  else s

/-- The field edit of the `MENU_GAMESETUP` case, for the sample `b` read from
`btns[global_firstport]`. -/
def gamesetup_edit (s : State) (b : joypad_buttons_t) : State :=
  if b.a = true ∨ b.d_right = true ∨ b.c_right = true then gamesetup_increment s
  else if b.d_left = true ∨ b.c_left = true then gamesetup_decrement s
  else s

/-- The Start-hold gesture at the end of the `MENU_GAMESETUP` case. -/
def gamesetup_hold (s : State) (inp : Input) (deltatime : ℚ) : State :=
  if (inp.joypad_get_buttons s.global_firstport).start = true then
    let s : State := { s with global_readyprog := s.global_readyprog + deltatime }
    if s.global_readyprog ≥ 1 then
      { s with
        global_readyprog := 0
        global_curmenu := MENU_DONE
        global_transition := TRANS_FORWARD
        global_cursoractive := false }
    else s
  else
    { s with global_readyprog := 0 }

/-- The opening gate of the `MENU_GAMESETUP` case: the box has slid in. -/
def gamesetup_gate (s : State) : State :=
  if s.global_transition = TRANS_FORWARD ∧ s.bdef_backbox_gameconfig.x ≤ 170 then
    { s with global_selection := 0, global_cursoractive := true, global_transition := TRANS_NONE }
  else s

/-- The `MENU_GAMESETUP` case of the switch. -/
def menu_gamesetup (s : State) (inp : Input) (deltatime : ℚ) : Option State :=
  let s : State := gamesetup_gate s
  if s.global_cursoractive = true then
    (btns inp s.global_firstport).map fun b =>
      gamesetup_hold (gamesetup_edit s b) inp deltatime
  else some s

/-- The `MENU_MODE` case with the cursor active, for the sample `b` read from
`btns[global_firstport]`. -/
def mode_press (s : State) (b : joypad_buttons_t) : State :=
  if b.a = true then
    { s with
      global_selection := 0
      global_curmenu := MENU_PLAYERS
      global_transition := TRANS_FORWARD
      global_cursoractive := false
      global_showsecond := false }
  else s

/-- The switch of `setup_loop` ("Handle controls"); returns the new globals and
the local `maxselect`. -/
def handle_controls (s : State) (inp : Input) (deltatime : ℚ) : Option (State × Int) :=
  match s.global_curmenu with
  | MENU_START =>
    if s.global_transition = TRANS_FORWARD ∧ s.bdef_backbox_mode.w ≥ 270 then
      some ({ s with
        global_selection := 0
        global_transition := TRANS_NONE
        global_curmenu := MENU_MODE
        global_cursory := ((s.bdef_button_freeplay.y - 12 : Int) : ℚ)
        global_cursoractive := true }, 0)
    else some (s, 0)
  | MENU_MODE =>
    if s.global_cursoractive = true then
      (btns inp s.global_firstport).map fun b => (mode_press s b, 2)
    else some (s, 2)
  | MENU_PLAYERS => (menu_players s inp deltatime).map fun s => (s, 0)
  | MENU_GAMESETUP => (menu_gamesetup s inp deltatime).map fun s => (s, 3)
  | MENU_DONE => some (s, 0)

/-- The block "Handle animations and transitions" of `setup_loop`, for the
`MENU_MODE` widgets. -/
def animate_mode (m : Libm) (s : State) (deltatime : ℚ) : State :=
  if is_menuvisible s MENU_MODE = true then
    let s : State := { s with bdef_backbox_mode :=
      { s.bdef_backbox_mode with w := f2i (elasticlerp m 0 280 (s.global_backtime - POPTIME)) } }
    let s : State := { s with bdef_backbox_mode :=
      { s.bdef_backbox_mode with h := f2i (elasticlerp m 0 200 (s.global_backtime - POPTIME)) } }
    let s : State :=
      if s.global_curmenu = MENU_PLAYERS ∧ s.global_transition = TRANS_FORWARD then
        { s with bdef_backbox_mode :=
          { s.bdef_backbox_mode with
            x := f2i (lerp s.bdef_backbox_mode.x (-s.bdef_backbox_mode.w : Int) (7 * deltatime)) } }
      else s
    if s.global_selection = 0 then
      { s with
        global_rotsel1 := lerp s.global_rotsel1 (m.sin (s.global_backtime * 2) / 3) (10 * deltatime)
        global_rotsel2 := lerp s.global_rotsel2 0 (10 * deltatime)
        global_cursory :=
          lerp s.global_cursory ((s.bdef_button_freeplay.y - 12 : Int) : ℚ) (10 * deltatime) }
    else
      { s with
        global_rotsel1 := lerp s.global_rotsel1 0 (10 * deltatime)
        global_rotsel2 := lerp s.global_rotsel2 (m.sin (s.global_backtime * 2) / 3) (10 * deltatime)
        global_cursory :=
          lerp s.global_cursory ((s.bdef_button_compete.y - 12 : Int) : ℚ) (10 * deltatime) }
  else s

/-- The block "Handle animations and transitions" of `setup_loop`, for the
`MENU_PLAYERS` widgets; may raise the local `maxselect` to 3. -/
def animate_players (s : State) (maxselect : Int) (deltatime : ℚ) : State × Int :=
  if is_menuvisible s MENU_PLAYERS = true then
    let s : State :=
      if s.global_curmenu = MENU_PLAYERS ∧ s.global_transition ≠ TRANS_BACKWARD then
        { s with bdef_backbox_plycount :=
          { s.bdef_backbox_plycount with
            x := f2i (lerp s.bdef_backbox_plycount.x ((320 / 2 : Int) : ℚ) (7 * deltatime)) } }
      else if s.global_curmenu = MENU_MODE ∧ s.global_transition = TRANS_BACKWARD then
        { s with bdef_backbox_plycount :=
          { s.bdef_backbox_plycount with
            x := f2i (lerp s.bdef_backbox_plycount.x (320 + s.bdef_backbox_mode.w : Int)
              (7 * deltatime)) } }
      else if s.global_curmenu = MENU_GAMESETUP ∧ s.global_transition = TRANS_FORWARD then
        { s with bdef_backbox_plycount :=
          { s.bdef_backbox_plycount with
            x := f2i (lerp s.bdef_backbox_plycount.x (-s.bdef_backbox_mode.w : Int)
              (7 * deltatime)) } }
      else s
    if s.global_showsecond = true then
      let s : State := { s with bdef_backbox_aidiff :=
        { s.bdef_backbox_aidiff with w := f2i (lerp s.bdef_backbox_aidiff.w 128 (10 * deltatime)) } }
      let s : State := { s with bdef_backbox_aidiff :=
        { s.bdef_backbox_aidiff with h := f2i (lerp s.bdef_backbox_aidiff.h 128 (10 * deltatime)) } }
      if s.bdef_backbox_aidiff.w > 100 ∧ s.global_transition = TRANS_NONE then
        ({ s with global_cursoractive := true }, 3)
      else (s, maxselect)
    else (s, maxselect)
  else (s, maxselect)

/-- The block "Handle animations and transitions" of `setup_loop`, for the
`MENU_GAMESETUP` widgets (`0.8f` is taken as 4/5). -/
def animate_gamesetup (s : State) (deltatime : ℚ) : State :=
  if is_menuvisible s MENU_GAMESETUP = true then
    if s.global_curmenu = MENU_GAMESETUP ∧ s.global_transition ≠ TRANS_BACKWARD then
      { s with bdef_backbox_gameconfig :=
        { s.bdef_backbox_gameconfig with
          x := f2i (lerp s.bdef_backbox_gameconfig.x ((320 / 2 : Int) : ℚ) (7 * deltatime)) } }
    else if s.global_curmenu = MENU_PLAYERS ∧ s.global_transition = TRANS_BACKWARD then
      { s with bdef_backbox_gameconfig :=
        { s.bdef_backbox_gameconfig with
          x := f2i (lerp s.bdef_backbox_gameconfig.x (320 + s.bdef_backbox_mode.w : Int)
            (7 * deltatime)) } }
    else if s.global_curmenu = MENU_DONE ∧ s.global_transition = TRANS_FORWARD then
      let s : State := { s with bdef_backbox_gameconfig :=
        { s.bdef_backbox_gameconfig with
          w := f2i (lerp s.bdef_backbox_gameconfig.w 0 (1 * deltatime)) } }
      { s with bdef_backbox_gameconfig :=
        { s.bdef_backbox_gameconfig with
          h := f2i (lerp s.bdef_backbox_gameconfig.h 0 ((4 / 5) * deltatime)) } }
    else s
  else s

/-- The block "Handle parenting of objects to the main backbox". -/
def handle_parenting (s : State) : State :=
  let s : State := { s with bdef_button_freeplay :=
    { s.bdef_button_freeplay with x := s.bdef_backbox_mode.x, y := s.bdef_backbox_mode.y - 26 } }
  let s : State := { s with bdef_button_compete :=
    { s.bdef_button_compete with x := s.bdef_backbox_mode.x, y := s.bdef_backbox_mode.y + 26 } }
  { s with bdef_backbox_aidiff :=
    { s.bdef_backbox_aidiff with x := s.bdef_backbox_plycount.x, y := s.bdef_backbox_plycount.y } }

/-- The selection change of the cursor block, for the sample `b` read from
`btns[global_firstport]`. -/
def cursor_move (s : State) (b : joypad_buttons_t) (maxselect : Int) : State :=
  if b.d_down = true ∨ b.c_down = true then
    let s : State := { s with global_selection := s.global_selection + 1 }
    if s.global_selection ≥ maxselect then { s with global_selection := 0 } else s
  else if b.d_up = true ∨ b.c_up = true then
    let s : State := { s with global_selection := s.global_selection - 1 }
    if s.global_selection < 0 then { s with global_selection := maxselect - 1 } else s
  else s

/-- The block "Handle cursor selection change" of `setup_loop`. -/
def handle_cursor (s : State) (inp : Input) (maxselect : Int) : Option State :=
  if s.global_cursoractive = true then
    (btns inp s.global_firstport).map fun b => cursor_move s b maxselect
  else some s

/-- What `drawbox` writes to its box: `w` and `h` are raised to 32. -/
def drawbox (bd : BoxDef) : BoxDef :=
  let bd : BoxDef := if bd.w < 32 then { bd with w := 32 } else bd
  if bd.h < 32 then { bd with h := 32 } else bd

/-- What `setup_draw` writes to the globals: the background time, the boxes
passed to `drawbox`, and the pointer rotation. -/
def setup_draw (m : Libm) (s : State) (deltatime : ℚ) : State :=
  let s : State := { s with global_backtime := s.global_backtime + deltatime }
  let s : State :=
    if is_menuvisible s MENU_MODE = true then
      { s with
        bdef_backbox_mode := drawbox s.bdef_backbox_mode
        bdef_button_freeplay := drawbox s.bdef_button_freeplay
        bdef_button_compete := drawbox s.bdef_button_compete }
    else s
  let s : State :=
    if is_menuvisible s MENU_PLAYERS = true then
      let s : State := { s with bdef_backbox_plycount := drawbox s.bdef_backbox_plycount }
      if s.global_showsecond = true then
        { s with bdef_backbox_aidiff := drawbox s.bdef_backbox_aidiff }
      else s
    else s
  let s : State :=
    if is_menuvisible s MENU_GAMESETUP = true then
      { s with bdef_backbox_gameconfig := drawbox s.bdef_backbox_gameconfig }
    else s
  if s.global_cursoractive = true then
    { s with
      global_rotcursor :=
        lerp s.global_rotcursor (m.cos (s.global_backtime * 4) * 8) (10 * deltatime) }
  else s

/-- The block "Handle animations and transitions" of `setup_loop`, followed by
the parenting block; returns the globals and the local `maxselect`. -/
def handle_animations (m : Libm) (s : State) (maxselect : Int) (deltatime : ℚ) : State × Int :=
  let s : State := animate_mode m s deltatime
  let r : State × Int := animate_players s maxselect deltatime
  let s : State := animate_gamesetup r.1 deltatime
  (handle_parenting s, r.2)

/-- The function `setup_loop`: one frame of the menu. -/
def setup_loop (m : Libm) (s : State) (inp : Input) (deltatime : ℚ) : Option State :=
  (handle_controls s inp deltatime).bind fun r =>
    let r2 : State × Int := handle_animations m r.1 r.2 deltatime
    (handle_cursor r2.1 inp r2.2).map fun s => setup_draw m s deltatime

/-- One frame as the caller sees it: the collaborator's answers and the
`deltatime` argument. -/
structure Frame where
  input : Input
  deltatime : ℚ

/-- Successive calls of `setup_loop`, one per frame of the list. -/
def run (m : Libm) (s : State) : List Frame → Option State
  | [] => some s
  | f :: fs => (setup_loop m s f.input f.deltatime).bind fun s => run m s fs

/-! ## `actor.h` -/

/-- The type `Vector3` (declared outside `actor.h`): three floats. -/
structure Vector3 where
  x : ℚ
  y : ℚ
  z : ℚ
  deriving DecidableEq, Repr

/-- The fields of `RigidBody` (declared outside `actor.h`) that `actor.h`
names. -/
structure RigidBody where
  position : Vector3
  velocity : Vector3
  rotation : Vector3
  deriving DecidableEq, Repr

/-- The struct `ActorSettings`. -/
structure ActorSettings where
  idle_acceleration_rate : ℚ
  walk_acceleration_rate : ℚ
  run_acceleration_rate : ℚ
  roll_acceleration_rate : ℚ
  roll_acceleration_grip_rate : ℚ
  jump_acceleration_rate : ℚ
  aerial_control_rate : ℚ
  walk_target_speed : ℚ
  run_target_speed : ℚ
  sprint_target_speed : ℚ
  idle_to_roll_target_speed : ℚ
  idle_to_roll_grip_target_speed : ℚ
  walk_to_roll_target_speed : ℚ
  run_to_roll_target_speed : ℚ
  sprint_to_roll_target_speed : ℚ
  jump_target_speed : ℚ
  jump_timer_max : ℚ
  fall_max_speed : ℚ
  jump_max_speed : ℚ
  jump_horizontal_boost : ℚ
  jump_max_height : ℚ

/-- The struct `Actorinput`. -/
structure Actorinput where
  stick_magnitude : ℚ
  stick_x : ℚ
  stick_y : ℚ
  jump_time_held : ℚ
  jump_time_buffer : ℚ
  jump_hold : Bool
  jump_released : Bool

/-- The struct `ActorAnimation`; the two `AnimationSet`s are library handles. -/
structure ActorAnimation where
  previous : Nat
  current : Nat
  main : Nat
  blend : Nat
  change_delay : Nat
  blending_ratio : ℚ
  speed_rate : ℚ
  synced : Bool

/-- The struct `Actor`.  Pointers to library objects (`dl`, `model`, the
skeletons of `armature`) are handles; `modelMat` is the content of the matrix
pointed to, as the list of its entries; `uint8_t` fields are naturals. -/
structure Actor where
  id : Nat
  dl : Nat
  modelMat : List ℚ
  model : Nat
  scale : Vector3
  model_path : Nat
  armature : Nat × Nat
  animation : ActorAnimation
  body : RigidBody
  target_yaw : ℚ
  horizontal_target_speed : ℚ
  target_velocity : Vector3
  horizontal_speed : ℚ
  grounded : Bool
  grounding_height : ℚ
  hasCollided : Bool
  locomotion_state : Nat
  previous_state : Nat
  state : Nat
  home : Vector3
  settings : ActorSettings
  input : Actorinput
  colorID : Int

/-- What `actor.h` uses of the T3D library and of the macro `rad`:
`t3d_mat4fp_from_srt_euler` gives the matrix for a scale, a rotation and a
position. -/
structure T3D where
  t3d_mat4fp_from_srt_euler : Vector3 → Vector3 → Vector3 → List ℚ
  rad : ℚ → ℚ

/-- The function `actor_updateMat`. -/
def actor_updateMat (lib : T3D) (actor : Actor) : Actor :=
  if actor.state = 9 then actor
  else
    { actor with
      modelMat := lib.t3d_mat4fp_from_srt_euler
        ⟨actor.scale.x, actor.scale.y, actor.scale.z⟩
        ⟨lib.rad actor.body.rotation.x, lib.rad actor.body.rotation.y,
          lib.rad actor.body.rotation.z⟩
        ⟨actor.body.position.x, actor.body.position.y, actor.body.position.z⟩ }

/-- The loop of `actor_draw` from the value `i` of its `uint8_t` counter, with
the calls `rspq_block_run(dl)` made so far.  `ACTOR_COUNT` is defined outside
the sources and is an argument.  The result is `none` when the fuel runs out
or `actor[i]` is read outside the array. -/
def actor_draw_loop (ACTOR_COUNT : Nat) (actor : List Actor) :
    Nat → Nat → List Nat → Option (List Nat)
  | 0, _, _ => none
  | fuel + 1, i, calls =>
    if i < ACTOR_COUNT then
      match actor.get? i with
      | none => none
      | some a =>
        if a.state = 9 then actor_draw_loop ACTOR_COUNT actor fuel ((i + 1) % 256) calls
        else actor_draw_loop ACTOR_COUNT actor fuel ((i + 1) % 256) (calls ++ [a.dl])
    else some calls

/-- The function `actor_draw`: the display lists it runs, in order. -/
def actor_draw (ACTOR_COUNT : Nat) (actor : List Actor) (fuel : Nat) : Option (List Nat) :=
  actor_draw_loop ACTOR_COUNT actor fuel 0 []

/-! ## Colour helpers and `drawfade` -/

/-- The function `clamp`. -/
def clamp (val min max : ℚ) : ℚ :=
  if val < min then min
  else if val > max then max
  else val

/-- The struct `color_t` of the graphics library: four `uint8_t` channels. -/
structure color_t where
  r : Int
  g : Int
  b : Int
  a : Int
  deriving DecidableEq, Repr

/-- The struct `hsv_t`: hue in degrees, saturation and value. -/
structure hsv_t where
  h : ℚ
  s : ℚ
  v : ℚ
  deriving DecidableEq

/-- Conversion of a `float` to `uint8_t`: truncation toward zero.  C leaves
the conversion undefined outside `0..255`; the model wraps modulo 256. -/
def f2u8 (q : ℚ) : Int := f2i q % 256

/-- The function `rgb2hsv`.  The locals keep their source names; `fmaxf` and
`fminf` are the maximum and the minimum. -/
def rgb2hsv (rgb : color_t) : hsv_t :=
  let r : ℚ := (rgb.r : ℚ) / 255
  let g : ℚ := (rgb.g : ℚ) / 255
  let b : ℚ := (rgb.b : ℚ) / 255
  let max : ℚ := Max.max (Max.max r g) b
  let min : ℚ := Min.min (Min.min r g) b
  let c : ℚ := max - min
  let v : ℚ := max
  let s : ℚ := if v ≠ 0 then c / max else 0
  let h : ℚ :=
    if c ≠ 0 then
      let h : ℚ :=
        if max = r then ((g - b) / c) + 0
        else if max = g then ((b - r) / c) + 2
        else ((r - g) / c) + 4
      let h : ℚ := h * 60
      if h < 0 then h + 360 else h
    else 0
  ⟨h, s, v⟩

/-- The function `hsv2rgb`.  The `switch (i % 6)` is the chain of tests on the
C remainder `Int.tmod i 6`, the last branch being `default`. -/
def hsv2rgb (hsv : hsv_t) : color_t :=
  let h : ℚ := hsv.h / 360
  let i : Int := f2i (h * 6)
  let f : ℚ := h * 6 - (i : ℚ)
  let p : ℚ := hsv.v * (1 - hsv.s)
  let q : ℚ := hsv.v * (1 - f * hsv.s)
  let t : ℚ := hsv.v * (1 - (1 - f) * hsv.s)
  let rgb : ℚ × ℚ × ℚ :=
    if Int.tmod i 6 = 0 then (hsv.v, t, p)
    else if Int.tmod i 6 = 1 then (q, hsv.v, p)
    else if Int.tmod i 6 = 2 then (p, hsv.v, t)
    else if Int.tmod i 6 = 3 then (p, q, hsv.v)
    else if Int.tmod i 6 = 4 then (t, p, hsv.v)
    else (hsv.v, p, q)
  ⟨f2u8 (rgb.1 * 255), f2u8 (rgb.2.1 * 255), f2u8 (rgb.2.2 * 255), 255⟩

/-- The function `lerpcolor`. -/
def lerpcolor (from_ to_ : color_t) (frac : ℚ) : color_t :=
  let hsv_from : hsv_t := rgb2hsv from_
  let hsv_to : hsv_t := rgb2hsv to_
  hsv2rgb
    ⟨deglerp hsv_from.h hsv_to.h frac, lerp hsv_from.s hsv_to.s frac,
      lerp hsv_from.v hsv_to.v frac⟩

/-- The macro `BLOCKSIZE`. -/
def BLOCKSIZE : Int := 16

/-- The macro `BLOCKSW` (`320/BLOCKSIZE`). -/
def BLOCKSW : Nat := 320 / 16

/-- The macro `BLOCKSH` (`240/BLOCKSIZE`). -/
def BLOCKSH : Nat := 240 / 16

/-- The macro `RECTCORNERDIST` (`BLOCKSIZE/1.41421356237`). -/
def RECTCORNERDIST : ℚ := (BLOCKSIZE : ℚ) / (141421356237 / 100000000000)

/-- A call `rdpq_fill_rectangle(x0, y0, x1, y1)`. -/
structure FillRect where
  x0 : ℚ
  y0 : ℚ
  x1 : ℚ
  y1 : ℚ
  deriving DecidableEq

/-- The local `perpendicularx1` of `drawfade`. -/
def perpendicularx1 (time : ℚ) : ℚ := clamp (time - 1 / 2) 0 (1 / 2) * 2 * 320

/-- The local `perpendicularx2` of `drawfade`. -/
def perpendicularx2 (time : ℚ) : ℚ := clamp time 0 (1 / 2) * 2 * 320

/-- The local `perpendiculary1` of `drawfade`. -/
def perpendiculary1 (time : ℚ) : ℚ := clamp time 0 (1 / 2) * 2 * 240

/-- The local `perpendiculary2` of `drawfade`. -/
def perpendiculary2 (time : ℚ) : ℚ := clamp (time - 1 / 2) 0 (1 / 2) * 2 * 240

/-- The argument of `sqrt` in the block loop of `drawfade`. -/
def drawfade_squares (time : ℚ) : ℚ :=
  (-perpendiculary2 time + perpendiculary1 time) * (-perpendiculary2 time + perpendiculary1 time) +
    (perpendicularx2 time - perpendicularx1 time) * (perpendicularx2 time - perpendicularx1 time)

/-- The body of the block loop of `drawfade` for the block `(x, y)`: the
rectangles it fills.  The division `distpointraw/sqrt(...)` by zero is a
fault. -/
def drawfade_block (m : Libm) (time : ℚ) (x y : Int) : Option (List FillRect) :=
  let cornerdist : ℚ := RECTCORNERDIST * 3
  let blockx : ℚ := ((x * BLOCKSIZE + BLOCKSIZE / 2 : Int) : ℚ)
  let blocky : ℚ := ((y * BLOCKSIZE + BLOCKSIZE / 2 : Int) : ℚ)
  let distpointraw : ℚ :=
    (blockx - perpendicularx1 time) * (-perpendiculary2 time + perpendiculary1 time) +
      (blocky - perpendiculary1 time) * (perpendicularx2 time - perpendicularx1 time)
  let divisor : ℚ := m.sqrt (drawfade_squares time)
  if divisor = 0 then none
  else
    let distpoint : ℚ := distpointraw / divisor
    if distpoint > -cornerdist then
      let blocksize : ℚ := clamp (-distpoint) (-cornerdist) cornerdist / cornerdist
      let blocksize : ℚ := ((1 - blocksize) / 2) * (BLOCKSIZE : ℚ)
      some [⟨blockx - blocksize / 2, blocky - blocksize / 2, blockx + blocksize / 2,
        blocky + blocksize / 2⟩]
    else some []

/-- The two nested `for` loops of `drawfade`, over the blocks still to draw in
row order; a fault in one block is a fault of the loop. -/
def drawfade_blocks (m : Libm) (time : ℚ) : List (Nat × Nat) → Option (List FillRect)
  | [] => some []
  | (x, y) :: rest =>
    (drawfade_block m time (x : Int) (y : Int)).bind fun r =>
      (drawfade_blocks m time rest).map fun l => r ++ l

/-- The blocks in the order the loops of `drawfade` visit them:
`for y < BLOCKSH: for x < BLOCKSW`. -/
def drawfade_order : List (Nat × Nat) :=
  (List.range BLOCKSH).flatMap fun y => (List.range BLOCKSW).map fun x => (x, y)

/-- The function `drawfade`: the rectangles it fills, in order.  The mode and
colour calls are left out. -/
def drawfade (m : Libm) (time : ℚ) : Option (List FillRect) :=
  if time > 1 then some []
  else if time < 0 then some [⟨0, 0, 320, 240⟩]
  else drawfade_blocks m time drawfade_order

/-! ## The interpolation helpers in binary32 -/

/-- Position of the leading bit of `n`: the `e` with `2^e ≤ n < 2^(e+1)` when
`n ≥ 1`, found by halving at most `fuel` times. -/
def leading_bit : Nat → Nat → Nat
  | 0, _ => 0
  | fuel + 1, n => if n < 2 then 0 else leading_bit fuel (n / 2) + 1

/-- The power `2^e` for an integer exponent. -/
def pow2 (e : Int) : ℚ :=
  if 0 ≤ e then ((2 ^ e.toNat : Nat) : ℚ) else 1 / ((2 ^ (-e).toNat : Nat) : ℚ)

/-- The binary exponent of a positive rational `a`: the `e` with
`2^e ≤ a < 2^(e+1)`. -/
def binary_exponent (a : ℚ) : Int :=
  let e : Int :=
    (leading_bit a.num.natAbs a.num.natAbs : Int) - (leading_bit a.den a.den : Int)
  if pow2 e ≤ a then e else e - 1

/-- Rounding to the nearest integer, a tie going to the even one. -/
def round_even (q : ℚ) : Int :=
  let n : Int := Rat.floor q
  let r : ℚ := q - (n : ℚ)
  if r < 1 / 2 then n
  else if r > 1 / 2 then n + 1
  else if n % 2 = 0 then n
  else n + 1

/-- The result of a binary32 operation whose exact result is `q`: the nearest
value with 24 significant bits, a tie going to the even significand; below the
exponent -126 the spacing stays that of the subnormals.  Overflow to infinity
is not modelled. -/
def f32 (q : ℚ) : ℚ :=
  if q = 0 then 0
  else
    let a : ℚ := if q < 0 then -q else q
    let e : Int := Max.max (binary_exponent a) (-126)
    let ulp : ℚ := pow2 (e - 23)
    (round_even (q / ulp) : ℚ) * ulp

/-- The function `lerp` on `float` operands: each of the three operations
rounds to binary32. -/
def lerp_f32 (from_ to_ frac : ℚ) : ℚ :=
  f32 (from_ + f32 (f32 (to_ - from_) * frac))

/-- The function `deglerp` on `float` operands: each operation rounds to
binary32. -/
def deglerp_f32 (from_ to_ frac : ℚ) : ℚ :=
  let delta : ℚ := f32 (to_ - from_)
  let from_ : ℚ :=
    if delta > 180 then f32 (from_ + 360)
    else if delta < -180 then f32 (from_ - 360)
    else from_
  let from_ : ℚ := lerp_f32 from_ to_ frac
  if from_ < 0 then f32 (from_ + 360) else from_

/-! ## Auxiliary definitions -/

/-- The integer value of a `CurrentMenu` enumerator. -/
def menu_index : CurrentMenu → Nat
  | MENU_START => 0
  | MENU_MODE => 1
  | MENU_PLAYERS => 2
  | MENU_GAMESETUP => 3
  | MENU_DONE => 4

/-- The port read by `btns[global_firstport]` is one of the 4 entries. -/
def valid_port (s : State) : Prop := 0 ≤ s.global_firstport ∧ s.global_firstport < 4

instance (s : State) : Decidable (valid_port s) :=
  inferInstanceAs (Decidable (0 ≤ s.global_firstport ∧ s.global_firstport < 4))

/-- The states the menu can be in: what successive `setup_loop` frames make of
a state left by `setup_init`. -/
def Reachable (m : Libm) (s : State) : Prop :=
  ∃ (joypad_is_connected : Int → Bool) (showsecond : Bool) (fx fy cx cy : Int)
    (frames : List Frame),
    run m (setup_init joypad_is_connected showsecond fx fy cx cy) frames = some s

/-- An invariant of the frame loop: an active cursor means no transition is
running, the two configuration fields are in range, and past `MENU_START` the
controlling port is inside `btns`. -/
structure Inv (s : State) : Prop where
  cursor_none : s.global_cursoractive = true → s.global_transition = TRANS_NONE
  points : 1 ≤ s.global_cfg_points ∧ s.global_cfg_points ≤ 10
  nextround : 0 ≤ s.global_cfg_nextround ∧ s.global_cfg_nextround ≤ 3
  port : s.global_curmenu ≠ MENU_START → valid_port s

/-- The table `options` of `setup_draw`, indexed by `global_cfg_nextround`. -/
def options : List String :=
  ["    Least Points", "    Round Robin", "    Random Player", "    Fully Random"]

/-- The read `options[i]` with an `int` index: a fault outside the 4 entries. -/
def options_read (i : Int) : Option String :=
  if 0 ≤ i ∧ i < 4 then options.get? i.toNat else none

/-- An increment press of `MENU_GAMESETUP`: `a`, `d_right` or `c_right`. -/
def increment_press (b : joypad_buttons_t) : Prop :=
  b.a = true ∨ b.d_right = true ∨ b.c_right = true

/-- A decrement press of `MENU_GAMESETUP`: `d_left` or `c_left`, and no
increment press. -/
def decrement_press (b : joypad_buttons_t) : Prop :=
  ¬ increment_press b ∧ (b.d_left = true ∨ b.c_left = true)

instance (b : joypad_buttons_t) : Decidable (increment_press b) :=
  inferInstanceAs (Decidable (b.a = true ∨ b.d_right = true ∨ b.c_right = true))

instance (b : joypad_buttons_t) : Decidable (decrement_press b) :=
  inferInstanceAs (Decidable (¬ increment_press b ∧ (b.d_left = true ∨ b.c_left = true)))

/-- The phase-1 hold of `MENU_PLAYERS` has fired: the menu is in phase 2 or in
a later menu. -/
def confirmed (s : State) : Prop :=
  (s.global_curmenu = MENU_PLAYERS ∧ s.global_showsecond = true) ∨
    s.global_curmenu = MENU_GAMESETUP ∨ s.global_curmenu = MENU_DONE

instance (s : State) : Decidable (confirmed s) :=
  inferInstanceAs (Decidable ((s.global_curmenu = MENU_PLAYERS ∧ s.global_showsecond = true) ∨
    s.global_curmenu = MENU_GAMESETUP ∨ s.global_curmenu = MENU_DONE))

/-- The arguments of the calls to `core_set_playercount` in a trace, in order. -/
def playercount_args (calls : List SinkCall) : List Int :=
  calls.filterMap fun c =>
    match c with
    | SinkCall.core_set_playercount n => some n
    | SinkCall.core_set_aidifficulty _ => none

/-- The arguments of the calls to `core_set_aidifficulty` in a trace, in order. -/
def aidifficulty_args (calls : List SinkCall) : List Int :=
  calls.filterMap fun c =>
    match c with
    | SinkCall.core_set_playercount _ => none
    | SinkCall.core_set_aidifficulty l => some l

/-- The joined slots, by index. -/
def joined_slots (joined : Nat → Bool) : List Nat :=
  (List.range MAXPLAYERS).filter fun i => joined i

/-- An invariant of the frame loop on the sinks: nothing is called before the
phase-1 hold fires; from then on the join set is frozen, the controlling port
is its first joined slot, the trace starts with the one `core_set_playercount`
call, whose argument is the count of the join set, and is followed by at most
one `core_set_aidifficulty` call, made on leaving phase 2. -/
structure SinkInv (s : State) : Prop where
  before : ¬ confirmed s → s.sink_calls = []
  port : confirmed s → firstcont_of s.global_playerjoined ≠ -1 ∧
    s.global_firstport = firstcont_of s.global_playerjoined
  after : confirmed s →
    s.sink_calls = [SinkCall.core_set_playercount (count_joined s.global_playerjoined)] ∨
    ∃ l, s.sink_calls = [SinkCall.core_set_playercount (count_joined s.global_playerjoined),
      SinkCall.core_set_aidifficulty l]
  phase2 : s.global_curmenu = MENU_PLAYERS → s.global_showsecond = true →
    s.sink_calls = [SinkCall.core_set_playercount (count_joined s.global_playerjoined)]

/-- The `MENU_MODE` block of `setup_draw`, as a function of the globals. -/
def draw_mode (s : State) : State :=
  if is_menuvisible s MENU_MODE = true then
    { s with
      bdef_backbox_mode := drawbox s.bdef_backbox_mode
      bdef_button_freeplay := drawbox s.bdef_button_freeplay
      bdef_button_compete := drawbox s.bdef_button_compete }
  else s

/-- The `MENU_PLAYERS` block of `setup_draw`, as a function of the globals. -/
def draw_players (s : State) : State :=
  if is_menuvisible s MENU_PLAYERS = true then
    let s : State := { s with bdef_backbox_plycount := drawbox s.bdef_backbox_plycount }
    if s.global_showsecond = true then
      { s with bdef_backbox_aidiff := drawbox s.bdef_backbox_aidiff }
    else s
  else s

/-- The `MENU_GAMESETUP` block of `setup_draw`, as a function of the globals. -/
def draw_gamesetup (s : State) : State :=
  if is_menuvisible s MENU_GAMESETUP = true then
    { s with bdef_backbox_gameconfig := drawbox s.bdef_backbox_gameconfig }
  else s

/-- The pointer block of `setup_draw`, as a function of the globals. -/
def draw_pointer (m : Libm) (s : State) (deltatime : ℚ) : State :=
  if s.global_cursoractive = true then
    { s with
      global_rotcursor :=
        lerp s.global_rotcursor (m.cos (s.global_backtime * 4) * 8) (10 * deltatime) }
  else s

/-- A frame whose interpolation fraction `10*deltatime` lies in `[0, 1]`. -/
def slow_frame (deltatime : ℚ) : Prop := 0 ≤ 10 * deltatime ∧ 10 * deltatime ≤ 1

instance (deltatime : ℚ) : Decidable (slow_frame deltatime) :=
  inferInstanceAs (Decidable (0 ≤ 10 * deltatime ∧ 10 * deltatime ≤ 1))

/-- An invariant of the frame loop under `slow_frame` frames: the levels passed
to `core_set_aidifficulty` are 0, 1 or 2; the width of the AI-difficulty box
stays in `0..128`; and in phase 2 of `MENU_PLAYERS` no transition is running,
the selection is in `0..2`, and an active cursor means the box is wider than
100, so that the animation block of the next frame sets `maxselect` to 3. -/
structure AiInv (s : State) : Prop where
  levels : ∀ l ∈ aidifficulty_args s.sink_calls, 0 ≤ l ∧ l ≤ 2
  width : 0 ≤ s.bdef_backbox_aidiff.w ∧ s.bdef_backbox_aidiff.w ≤ 128
  idle : s.global_curmenu = MENU_PLAYERS → s.global_showsecond = true →
    s.global_transition = TRANS_NONE
  selection : s.global_curmenu = MENU_PLAYERS → s.global_showsecond = true →
    0 ≤ s.global_selection ∧ s.global_selection ≤ 2
  wide : s.global_curmenu = MENU_PLAYERS → s.global_showsecond = true →
    s.global_cursoractive = true → 100 < s.bdef_backbox_aidiff.w

/-- The body of `rgb2hsv` once the three channels are converted to `float`
and divided by 255. -/
def rgb2hsv_float (r g b : ℚ) : hsv_t :=
  let max : ℚ := Max.max (Max.max r g) b
  let min : ℚ := Min.min (Min.min r g) b
  let c : ℚ := max - min
  let v : ℚ := max
  let s : ℚ := if v ≠ 0 then c / max else 0
  let h : ℚ :=
    if c ≠ 0 then
      let h : ℚ :=
        if max = r then ((g - b) / c) + 0
        else if max = g then ((b - r) / c) + 2
        else ((r - g) / c) + 4
      let h : ℚ := h * 60
      if h < 0 then h + 360 else h
    else 0
  ⟨h, s, v⟩

/-- The locals `r`, `g`, `b` of `hsv2rgb` after the `switch`, for given values
of the locals `i` and `f`. -/
def hsv2rgb_float (hsv : hsv_t) (i : Int) (f : ℚ) : ℚ × ℚ × ℚ :=
  let p : ℚ := hsv.v * (1 - hsv.s)
  let q : ℚ := hsv.v * (1 - f * hsv.s)
  let t : ℚ := hsv.v * (1 - (1 - f) * hsv.s)
  if Int.tmod i 6 = 0 then (hsv.v, t, p)
  else if Int.tmod i 6 = 1 then (q, hsv.v, p)
  else if Int.tmod i 6 = 2 then (p, hsv.v, t)
  else if Int.tmod i 6 = 3 then (p, q, hsv.v)
  else if Int.tmod i 6 = 4 then (t, p, hsv.v)
  else (hsv.v, p, q)

/-- A colour whose channels are `uint8_t` values. -/
def color_t.valid (c : color_t) : Prop :=
  (0 ≤ c.r ∧ c.r ≤ 255) ∧ (0 ≤ c.g ∧ c.g ≤ 255) ∧ (0 ≤ c.b ∧ c.b ≤ 255)

instance (c : color_t) : Decidable c.valid :=
  inferInstanceAs (Decidable ((0 ≤ c.r ∧ c.r ≤ 255) ∧ (0 ≤ c.g ∧ c.g ≤ 255) ∧
    (0 ≤ c.b ∧ c.b ≤ 255)))

/-! ## Concrete inputs and states -/

/-- A `Libm` with constant functions, for evaluating concrete frames.  The
frames evaluated with it last long enough for `elasticlerp` to be at one of
its two ends, and what remains of `sin` and `cos` are the rotations of the
sprites. -/
def libm_example : Libm := ⟨fun _ _ => 1, fun _ => 0, fun _ => 1, fun _ => 0, 22 / 7⟩

/-- The sample with only `a` set. -/
def btn_a : joypad_buttons_t := { joypad_buttons_t.zero with a := true }

/-- The sample with only `start` set. -/
def btn_start : joypad_buttons_t := { joypad_buttons_t.zero with start := true }

/-- The sample with only cursor-down (`d_down`) set. -/
def btn_d_down : joypad_buttons_t := { joypad_buttons_t.zero with d_down := true }

/-- The sample with only cursor-up (`d_up`) set. -/
def btn_d_up : joypad_buttons_t := { joypad_buttons_t.zero with d_up := true }

/-- The sample with only `d_right` set. -/
def btn_d_right : joypad_buttons_t := { joypad_buttons_t.zero with d_right := true }

/-- The sample with only `d_left` set. -/
def btn_d_left : joypad_buttons_t := { joypad_buttons_t.zero with d_left := true }

/-- An input snapshot with no button down on any port. -/
def input_idle : Input := ⟨fun _ => joypad_buttons_t.zero, fun _ => joypad_buttons_t.zero⟩

/-- An input snapshot in which every port reports the pressed sample `p` and
the held sample `h`. -/
def input_all (p h : joypad_buttons_t) : Input := ⟨fun _ => p, fun _ => h⟩

/-- An input snapshot in which port 0 reports the pressed sample `p` and the
held sample `h`, and the other ports nothing. -/
def input_port0 (p h : joypad_buttons_t) : Input :=
  ⟨fun i => if i = 0 then p else joypad_buttons_t.zero,
    fun i => if i = 0 then h else joypad_buttons_t.zero⟩

/-- A frame with no button down, lasting `deltatime`. -/
def frame_idle (deltatime : ℚ) : Frame := ⟨input_idle, deltatime⟩

/-- A frame of `deltatime` seconds on which every port holds Start and nothing
is newly pressed. -/
def frame_hold_start (deltatime : ℚ) : Frame :=
  ⟨input_all joypad_buttons_t.zero btn_start, deltatime⟩

/-- The state `setup_init` leaves on first entry when every port is connected. -/
def state_init : State := setup_init (fun _ => true) false 0 0 0 0

/-- A state in phase 1 of `MENU_PLAYERS`: the cursor is active, port 0 has
joined, the last slot is free. -/
def state_players : State :=
  { state_init with
    global_curmenu := MENU_PLAYERS
    global_transition := TRANS_NONE
    global_cursoractive := true
    global_playerjoined := fun i => decide (i = 0) }

/-- A state of `MENU_GAMESETUP` with the cursor active, as left by the opening
gate. -/
def state_gamesetup : State :=
  { state_init with
    global_curmenu := MENU_GAMESETUP
    global_transition := TRANS_NONE
    global_cursoractive := true
    global_playerjoined := fun i => decide (i = 0) }

/-- Six frames of two seconds from `state_init` into `MENU_GAMESETUP`: three
idle frames open the mode box and enter `MENU_MODE`, an A press enters
`MENU_PLAYERS`, Start pressed and A held on all ports joins all four slots and
fires the hold, and a cursor-down press in `MENU_GAMESETUP` selects field 1. -/
def frames_to_gamesetup : List Frame :=
  [frame_idle 2, frame_idle 2, frame_idle 2,
    ⟨input_all btn_a joypad_buttons_t.zero, 2⟩,
    ⟨input_all btn_start btn_a, 2⟩,
    ⟨input_all btn_d_down joypad_buttons_t.zero, 2⟩]

/-- Six frames from `state_init` into phase 2 of `MENU_PLAYERS`: three idle
frames of two seconds open the mode box and enter `MENU_MODE`, an A press on
port 0 enters `MENU_PLAYERS`, then port 0 presses Start (joins) and holds A
for two frames of half a second. -/
def frames_to_phase2 : List Frame :=
  [frame_idle 2, frame_idle 2, frame_idle 2,
    ⟨input_port0 btn_a joypad_buttons_t.zero, 2⟩,
    ⟨input_port0 btn_start btn_a, 1 / 2⟩,
    ⟨input_port0 joypad_buttons_t.zero btn_a, 1 / 2⟩]

/-- The state after `frames_to_gamesetup`. -/
def state_reached : State :=
  (run libm_example state_init frames_to_gamesetup).getD state_init

/-- An actor at the origin with display list `dl` and state `state`. -/
def actor_example (dl state : Nat) : Actor :=
  { id := 0
    dl := dl
    modelMat := []
    model := 0
    scale := ⟨1, 1, 1⟩
    model_path := 0
    armature := (0, 0)
    animation := ⟨0, 0, 0, 0, 0, 0, 0, false⟩
    body := ⟨⟨0, 0, 0⟩, ⟨0, 0, 0⟩, ⟨0, 0, 0⟩⟩
    target_yaw := 0
    horizontal_target_speed := 0
    target_velocity := ⟨0, 0, 0⟩
    horizontal_speed := 0
    grounded := false
    grounding_height := 0
    hasCollided := false
    locomotion_state := state
    previous_state := state
    state := state
    home := ⟨0, 0, 0⟩
    settings := ⟨0, 0, 0, 0, 0, 0, 0, 0, 0, 0, 0, 0, 0, 0, 0, 0, 0, 0, 0, 0, 0⟩
    input := ⟨0, 0, 0, 0, 0, false, false⟩
    colorID := 0 }

/-- A library whose matrix lists the scale, the rotation and the position. -/
def t3d_example : T3D :=
  ⟨fun sc r p => [sc.x, sc.y, sc.z, r.x, r.y, r.z, p.x, p.y, p.z], fun d => d⟩

/-- Twelve frames of a tenth of a second from `state_init` into phase 1 of
`MENU_PLAYERS`: seven idle frames open the mode box and enter `MENU_MODE`, an
A press on port 0 enters `MENU_PLAYERS`, three idle frames slide the player
box in and let the opening gate activate the cursor, and on the next frame
port 0 presses cursor-up. -/
def frames_cursor_up : List Frame :=
  List.replicate 7 (frame_idle (1 / 10)) ++
    [⟨input_port0 btn_a joypad_buttons_t.zero, 1 / 10⟩] ++
    List.replicate 3 (frame_idle (1 / 10)) ++
    [⟨input_port0 btn_d_up joypad_buttons_t.zero, 1 / 10⟩]

/-- The frames of a whole visit to phase 2 of `MENU_PLAYERS`, none longer
than a tenth of a second: as `frames_cursor_up` up to the activation of the
cursor, then port 0 presses Start (joins) and holds A for nine frames of a
tenth and two of a twentieth of a second, which fires the hold; two idle
frames let the AI-difficulty box widen past 100; a cursor-down press selects
Hard and an A press confirms it. -/
def frames_slow : List Frame :=
  List.replicate 7 (frame_idle (1 / 10)) ++
    [⟨input_port0 btn_a joypad_buttons_t.zero, 1 / 10⟩] ++
    List.replicate 3 (frame_idle (1 / 10)) ++
    [⟨input_port0 btn_start btn_a, 1 / 10⟩] ++
    List.replicate 8 ⟨input_port0 joypad_buttons_t.zero btn_a, 1 / 10⟩ ++
    List.replicate 2 ⟨input_port0 joypad_buttons_t.zero btn_a, 1 / 20⟩ ++
    List.replicate 2 (frame_idle (1 / 20)) ++
    [⟨input_port0 btn_d_down joypad_buttons_t.zero, 1 / 20⟩,
      ⟨input_port0 btn_a joypad_buttons_t.zero, 1 / 20⟩]

/-- The state after `frames_slow`. -/
def state_slow : State :=
  (run libm_example state_init frames_slow).getD state_init

/-! ## Lemmas shared by the claims -/

/-! ### Fields left alone by the blocks of a frame -/

@[simp]
theorem animate_mode_frame (m : Libm) (s : State) (deltatime : ℚ) :
    (animate_mode m s deltatime).global_transition = s.global_transition ∧
    (animate_mode m s deltatime).global_curmenu = s.global_curmenu ∧
    (animate_mode m s deltatime).global_firstport = s.global_firstport ∧
    (animate_mode m s deltatime).global_selection = s.global_selection ∧
    (animate_mode m s deltatime).global_playerjoined = s.global_playerjoined ∧
    (animate_mode m s deltatime).global_readyprog = s.global_readyprog ∧
    (animate_mode m s deltatime).global_cursoractive = s.global_cursoractive ∧
    (animate_mode m s deltatime).global_showsecond = s.global_showsecond ∧
    (animate_mode m s deltatime).global_cfg_points = s.global_cfg_points ∧
    (animate_mode m s deltatime).global_cfg_nextround = s.global_cfg_nextround ∧
    (animate_mode m s deltatime).sink_calls = s.sink_calls := by
  simp only [animate_mode]
  split_ifs <;> simp

@[simp]
theorem animate_players_frame (s : State) (maxselect : Int) (deltatime : ℚ) :
    (animate_players s maxselect deltatime).1.global_transition = s.global_transition ∧
    (animate_players s maxselect deltatime).1.global_curmenu = s.global_curmenu ∧
    (animate_players s maxselect deltatime).1.global_firstport = s.global_firstport ∧
    (animate_players s maxselect deltatime).1.global_selection = s.global_selection ∧
    (animate_players s maxselect deltatime).1.global_playerjoined = s.global_playerjoined ∧
    (animate_players s maxselect deltatime).1.global_readyprog = s.global_readyprog ∧
    (animate_players s maxselect deltatime).1.global_showsecond = s.global_showsecond ∧
    (animate_players s maxselect deltatime).1.global_cfg_points = s.global_cfg_points ∧
    (animate_players s maxselect deltatime).1.global_cfg_nextround = s.global_cfg_nextround ∧
    (animate_players s maxselect deltatime).1.sink_calls = s.sink_calls := by
  simp only [animate_players]
  split_ifs <;> simp

@[simp]
theorem animate_gamesetup_frame (s : State) (deltatime : ℚ) :
    (animate_gamesetup s deltatime).global_transition = s.global_transition ∧
    (animate_gamesetup s deltatime).global_curmenu = s.global_curmenu ∧
    (animate_gamesetup s deltatime).global_firstport = s.global_firstport ∧
    (animate_gamesetup s deltatime).global_selection = s.global_selection ∧
    (animate_gamesetup s deltatime).global_playerjoined = s.global_playerjoined ∧
    (animate_gamesetup s deltatime).global_readyprog = s.global_readyprog ∧
    (animate_gamesetup s deltatime).global_cursoractive = s.global_cursoractive ∧
    (animate_gamesetup s deltatime).global_showsecond = s.global_showsecond ∧
    (animate_gamesetup s deltatime).global_cfg_points = s.global_cfg_points ∧
    (animate_gamesetup s deltatime).global_cfg_nextround = s.global_cfg_nextround ∧
    (animate_gamesetup s deltatime).sink_calls = s.sink_calls := by
  simp only [animate_gamesetup]
  split_ifs <;> simp

@[simp]
theorem handle_parenting_frame (s : State) :
    (handle_parenting s).global_transition = s.global_transition ∧
    (handle_parenting s).global_curmenu = s.global_curmenu ∧
    (handle_parenting s).global_firstport = s.global_firstport ∧
    (handle_parenting s).global_selection = s.global_selection ∧
    (handle_parenting s).global_playerjoined = s.global_playerjoined ∧
    (handle_parenting s).global_readyprog = s.global_readyprog ∧
    (handle_parenting s).global_cursoractive = s.global_cursoractive ∧
    (handle_parenting s).global_showsecond = s.global_showsecond ∧
    (handle_parenting s).global_cfg_points = s.global_cfg_points ∧
    (handle_parenting s).global_cfg_nextround = s.global_cfg_nextround ∧
    (handle_parenting s).sink_calls = s.sink_calls := by
  simp [handle_parenting]

@[simp]
theorem cursor_move_frame (s : State) (b : joypad_buttons_t) (maxselect : Int) :
    (cursor_move s b maxselect).global_transition = s.global_transition ∧
    (cursor_move s b maxselect).global_curmenu = s.global_curmenu ∧
    (cursor_move s b maxselect).global_firstport = s.global_firstport ∧
    (cursor_move s b maxselect).global_playerjoined = s.global_playerjoined ∧
    (cursor_move s b maxselect).global_readyprog = s.global_readyprog ∧
    (cursor_move s b maxselect).global_cursoractive = s.global_cursoractive ∧
    (cursor_move s b maxselect).global_showsecond = s.global_showsecond ∧
    (cursor_move s b maxselect).global_cfg_points = s.global_cfg_points ∧
    (cursor_move s b maxselect).global_cfg_nextround = s.global_cfg_nextround ∧
    (cursor_move s b maxselect).sink_calls = s.sink_calls := by
  simp only [cursor_move]
  split_ifs <;> simp

@[simp]
theorem setup_draw_frame (m : Libm) (s : State) (deltatime : ℚ) :
    (setup_draw m s deltatime).global_transition = s.global_transition ∧
    (setup_draw m s deltatime).global_curmenu = s.global_curmenu ∧
    (setup_draw m s deltatime).global_firstport = s.global_firstport ∧
    (setup_draw m s deltatime).global_selection = s.global_selection ∧
    (setup_draw m s deltatime).global_playerjoined = s.global_playerjoined ∧
    (setup_draw m s deltatime).global_readyprog = s.global_readyprog ∧
    (setup_draw m s deltatime).global_cursoractive = s.global_cursoractive ∧
    (setup_draw m s deltatime).global_showsecond = s.global_showsecond ∧
    (setup_draw m s deltatime).global_cfg_points = s.global_cfg_points ∧
    (setup_draw m s deltatime).global_cfg_nextround = s.global_cfg_nextround ∧
    (setup_draw m s deltatime).sink_calls = s.sink_calls := by
  simp only [setup_draw]
  split_ifs <;> simp

@[simp]
theorem gamesetup_increment_frame (s : State) :
    (gamesetup_increment s).global_transition = s.global_transition ∧
    (gamesetup_increment s).global_curmenu = s.global_curmenu ∧
    (gamesetup_increment s).global_firstport = s.global_firstport ∧
    (gamesetup_increment s).global_selection = s.global_selection ∧
    (gamesetup_increment s).global_playerjoined = s.global_playerjoined ∧
    (gamesetup_increment s).global_readyprog = s.global_readyprog ∧
    (gamesetup_increment s).global_cursoractive = s.global_cursoractive ∧
    (gamesetup_increment s).global_showsecond = s.global_showsecond ∧
    (gamesetup_increment s).sink_calls = s.sink_calls := by
  simp only [gamesetup_increment]
  split_ifs <;> simp

@[simp]
theorem gamesetup_decrement_frame (s : State) :
    (gamesetup_decrement s).global_transition = s.global_transition ∧
    (gamesetup_decrement s).global_curmenu = s.global_curmenu ∧
    (gamesetup_decrement s).global_firstport = s.global_firstport ∧
    (gamesetup_decrement s).global_selection = s.global_selection ∧
    (gamesetup_decrement s).global_playerjoined = s.global_playerjoined ∧
    (gamesetup_decrement s).global_readyprog = s.global_readyprog ∧
    (gamesetup_decrement s).global_cursoractive = s.global_cursoractive ∧
    (gamesetup_decrement s).global_showsecond = s.global_showsecond ∧
    (gamesetup_decrement s).sink_calls = s.sink_calls := by
  simp only [gamesetup_decrement]
  split_ifs <;> simp

@[simp]
theorem gamesetup_edit_frame (s : State) (b : joypad_buttons_t) :
    (gamesetup_edit s b).global_transition = s.global_transition ∧
    (gamesetup_edit s b).global_curmenu = s.global_curmenu ∧
    (gamesetup_edit s b).global_firstport = s.global_firstport ∧
    (gamesetup_edit s b).global_selection = s.global_selection ∧
    (gamesetup_edit s b).global_playerjoined = s.global_playerjoined ∧
    (gamesetup_edit s b).global_readyprog = s.global_readyprog ∧
    (gamesetup_edit s b).global_cursoractive = s.global_cursoractive ∧
    (gamesetup_edit s b).global_showsecond = s.global_showsecond ∧
    (gamesetup_edit s b).sink_calls = s.sink_calls := by
  simp only [gamesetup_edit]
  split_ifs <;> simp

@[simp]
theorem gamesetup_hold_frame (s : State) (inp : Input) (deltatime : ℚ) :
    (gamesetup_hold s inp deltatime).global_firstport = s.global_firstport ∧
    (gamesetup_hold s inp deltatime).global_selection = s.global_selection ∧
    (gamesetup_hold s inp deltatime).global_playerjoined = s.global_playerjoined ∧
    (gamesetup_hold s inp deltatime).global_showsecond = s.global_showsecond ∧
    (gamesetup_hold s inp deltatime).global_cfg_points = s.global_cfg_points ∧
    (gamesetup_hold s inp deltatime).global_cfg_nextround = s.global_cfg_nextround ∧
    (gamesetup_hold s inp deltatime).sink_calls = s.sink_calls := by
  simp only [gamesetup_hold]
  split_ifs <;> simp

@[simp]
theorem players_gate_frame (s : State) :
    (players_gate s).global_curmenu = s.global_curmenu ∧
    (players_gate s).global_firstport = s.global_firstport ∧
    (players_gate s).global_selection = s.global_selection ∧
    (players_gate s).global_playerjoined = s.global_playerjoined ∧
    (players_gate s).global_readyprog = s.global_readyprog ∧
    (players_gate s).global_showsecond = s.global_showsecond ∧
    (players_gate s).global_cfg_points = s.global_cfg_points ∧
    (players_gate s).global_cfg_nextround = s.global_cfg_nextround ∧
    (players_gate s).sink_calls = s.sink_calls := by
  simp only [players_gate]
  split_ifs <;> simp

@[simp]
theorem gamesetup_gate_frame (s : State) :
    (gamesetup_gate s).global_curmenu = s.global_curmenu ∧
    (gamesetup_gate s).global_firstport = s.global_firstport ∧
    (gamesetup_gate s).global_playerjoined = s.global_playerjoined ∧
    (gamesetup_gate s).global_readyprog = s.global_readyprog ∧
    (gamesetup_gate s).global_showsecond = s.global_showsecond ∧
    (gamesetup_gate s).global_cfg_points = s.global_cfg_points ∧
    (gamesetup_gate s).global_cfg_nextround = s.global_cfg_nextround ∧
    (gamesetup_gate s).sink_calls = s.sink_calls := by
  simp only [gamesetup_gate]
  split_ifs <;> simp

/-! ### Reading the controlling port -/

theorem btns_of_valid (inp : Input) (i : Int) (h0 : 0 ≤ i) (h4 : i < 4) :
    btns inp i = some (btns_array inp i.toNat) := by
  simp [btns, h0, h4]

theorem firstcont_of_range (joined : Nat → Bool) :
    -1 ≤ firstcont_of joined ∧ firstcont_of joined < 4 := by
  simp only [firstcont_of, MAXPLAYERS, List.range_succ, List.range_zero, List.nil_append,
    List.cons_append, List.foldl_cons, List.foldl_nil]
  split_ifs <;> simp_all

theorem players_active_menu (s s1 : State) (inp : Input) (deltatime : ℚ)
    (h : players_active s inp deltatime = some s1) :
    s1.global_curmenu = s.global_curmenu ∨ s1.global_curmenu = MENU_GAMESETUP := by
  simp only [players_active, players_gotonext] at h
  split_ifs at h
  all_goals first
    | (cases h; simp)
    | (obtain ⟨b, -, hb⟩ := Option.map_eq_some'.mp h
       split_ifs at hb <;> (subst hb; simp))

theorem gamesetup_hold_menu (s : State) (inp : Input) (deltatime : ℚ) :
    (gamesetup_hold s inp deltatime).global_curmenu = s.global_curmenu ∨
      (gamesetup_hold s inp deltatime).global_curmenu = MENU_DONE := by
  simp only [gamesetup_hold]
  split_ifs <;> simp

theorem handle_controls_menu (s : State) (inp : Input) (deltatime : ℚ) (r : State × Int)
    (h : handle_controls s inp deltatime = some r) :
    menu_index r.1.global_curmenu = menu_index s.global_curmenu ∨
      menu_index r.1.global_curmenu = menu_index s.global_curmenu + 1 := by
  unfold handle_controls at h
  cases hm : s.global_curmenu <;> simp only [hm] at h
  · split_ifs at h <;> (cases h; simp [menu_index, hm])
  · split_ifs at h
    · obtain ⟨b, -, hb⟩ := Option.map_eq_some'.mp h
      subst hb
      simp only [mode_press]
      split_ifs <;> simp [menu_index, hm]
    · cases h; simp [menu_index, hm]
  · obtain ⟨s1, h1, hb⟩ := Option.map_eq_some'.mp h
    subst hb
    simp only [menu_players] at h1
    split_ifs at h1
    · rcases players_active_menu _ _ _ _ h1 with h2 | h2 <;> simp [h2, menu_index, hm]
    · cases h1; simp [menu_index, hm]
  · obtain ⟨s1, h1, hb⟩ := Option.map_eq_some'.mp h
    subst hb
    simp only [menu_gamesetup] at h1
    split_ifs at h1
    · obtain ⟨b, -, hb⟩ := Option.map_eq_some'.mp h1
      subst hb
      rcases gamesetup_hold_menu (gamesetup_edit (gamesetup_gate s) b) inp deltatime with h2 | h2 <;>
        simp [h2, menu_index, hm]
    · cases h1; simp [menu_index, hm]
  · cases h; simp [menu_index, hm]

@[simp]
theorem handle_animations_frame (m : Libm) (s : State) (maxselect : Int) (deltatime : ℚ) :
    (handle_animations m s maxselect deltatime).1.global_transition = s.global_transition ∧
    (handle_animations m s maxselect deltatime).1.global_curmenu = s.global_curmenu ∧
    (handle_animations m s maxselect deltatime).1.global_firstport = s.global_firstport ∧
    (handle_animations m s maxselect deltatime).1.global_selection = s.global_selection ∧
    (handle_animations m s maxselect deltatime).1.global_playerjoined = s.global_playerjoined ∧
    (handle_animations m s maxselect deltatime).1.global_readyprog = s.global_readyprog ∧
    (handle_animations m s maxselect deltatime).1.global_showsecond = s.global_showsecond ∧
    (handle_animations m s maxselect deltatime).1.global_cfg_points = s.global_cfg_points ∧
    (handle_animations m s maxselect deltatime).1.global_cfg_nextround = s.global_cfg_nextround ∧
    (handle_animations m s maxselect deltatime).1.sink_calls = s.sink_calls := by
  simp [handle_animations]

/-- The cursor block changes nothing but the selection. -/
theorem handle_cursor_frame (s s2 : State) (inp : Input) (maxselect : Int)
    (h : handle_cursor s inp maxselect = some s2) :
    s2.global_transition = s.global_transition ∧
    s2.global_curmenu = s.global_curmenu ∧
    s2.global_firstport = s.global_firstport ∧
    s2.global_playerjoined = s.global_playerjoined ∧
    s2.global_readyprog = s.global_readyprog ∧
    s2.global_cursoractive = s.global_cursoractive ∧
    s2.global_showsecond = s.global_showsecond ∧
    s2.global_cfg_points = s.global_cfg_points ∧
    s2.global_cfg_nextround = s.global_cfg_nextround ∧
    s2.sink_calls = s.sink_calls := by
  simp only [handle_cursor] at h
  split_ifs at h
  · obtain ⟨b, -, hb⟩ := Option.map_eq_some'.mp h
    subst hb
    simp
  · cases h
    simp

/-- A frame that returns has run the switch, and what the switch wrote to the
logical globals (all but the cursor flag and the selection) is what the frame
leaves. -/
theorem setup_loop_frame (m : Libm) (s s' : State) (inp : Input) (deltatime : ℚ)
    (h : setup_loop m s inp deltatime = some s') :
    ∃ s1 maxselect, handle_controls s inp deltatime = some (s1, maxselect) ∧
      s'.global_transition = s1.global_transition ∧
      s'.global_curmenu = s1.global_curmenu ∧
      s'.global_firstport = s1.global_firstport ∧
      s'.global_playerjoined = s1.global_playerjoined ∧
      s'.global_readyprog = s1.global_readyprog ∧
      s'.global_showsecond = s1.global_showsecond ∧
      s'.global_cfg_points = s1.global_cfg_points ∧
      s'.global_cfg_nextround = s1.global_cfg_nextround ∧
      s'.sink_calls = s1.sink_calls ∧
      s'.global_cursoractive =
        (handle_animations m s1 maxselect deltatime).1.global_cursoractive ∧
      ((handle_animations m s1 maxselect deltatime).1.global_cursoractive = true →
        valid_port s1) := by
  simp only [setup_loop] at h
  obtain ⟨r, hr, h2⟩ := Option.bind_eq_some.mp h
  obtain ⟨s2, hs2, hd⟩ := Option.map_eq_some'.mp h2
  subst hd
  obtain ⟨a1, a2, a3, a4, a5, a6, a7, a8, a9, a10⟩ := handle_cursor_frame _ _ _ _ hs2
  refine ⟨r.1, r.2, hr, ?_⟩
  simp only [setup_draw_frame, a1, a2, a3, a4, a5, a6, a7, a8, a9, a10, handle_animations_frame,
    true_and]
  intro hact
  simp only [handle_cursor, hact, if_true] at hs2
  obtain ⟨b, hb, -⟩ := Option.map_eq_some'.mp hs2
  simp only [handle_animations_frame, btns] at hb
  split_ifs at hb with hv
  exact hv


theorem players_active_total (s : State) (inp : Input) (deltatime : ℚ) (hv : valid_port s) :
    ∃ s1, players_active s inp deltatime = some s1 ∧ valid_port s1 := by
  have hfc := firstcont_of_range (if s.global_showsecond = false
    then toggle_joined inp s.global_playerjoined else s.global_playerjoined)
  simp only [players_active, players_gotonext, btns_of_valid inp _ hv.1 hv.2, Option.map_some']
  split_ifs <;> simp_all [valid_port] <;> omega

theorem handle_controls_total (s : State) (inp : Input) (deltatime : ℚ) (hv : valid_port s) :
    ∃ r, handle_controls s inp deltatime = some r ∧ valid_port r.1 := by
  have hp : valid_port (players_gate s) := by simpa [valid_port] using hv
  have hg : valid_port (gamesetup_gate s) := by simpa [valid_port] using hv
  unfold handle_controls
  cases hm : s.global_curmenu <;> simp only []
  · split_ifs <;> simp_all [valid_port]
  · simp only [btns_of_valid inp _ hv.1 hv.2, Option.map_some', mode_press]
    split_ifs <;> simp_all [valid_port]
  · simp only [menu_players]
    split_ifs
    · obtain ⟨s1, h1, hv1⟩ := players_active_total _ inp deltatime hp
      exact ⟨(s1, 0), by simp [h1], hv1⟩
    · exact ⟨(players_gate s, 0), by simp, hp⟩
  · simp only [menu_gamesetup, btns_of_valid inp _ hg.1 hg.2, Option.map_some']
    split_ifs
    · refine ⟨(_, 3), rfl, ?_⟩
      simpa [valid_port] using hv
    · exact ⟨(gamesetup_gate s, 3), by simp, hg⟩
  · exact ⟨(s, 0), rfl, hv⟩

/-- With a controlling port inside the array, a frame returns. -/
theorem setup_loop_total (m : Libm) (s : State) (inp : Input) (deltatime : ℚ)
    (hv : valid_port s) :
    ∃ s', setup_loop m s inp deltatime = some s' ∧ valid_port s' := by
  obtain ⟨r, hr, hv1⟩ := handle_controls_total s inp deltatime hv
  have hv2 : valid_port (handle_animations m r.1 r.2 deltatime).1 := by
    simpa [valid_port] using hv1
  simp only [setup_loop, hr, Option.some_bind, handle_cursor,
    btns_of_valid inp _ hv2.1 hv2.2, Option.map_some']
  split_ifs
  · refine ⟨_, rfl, ?_⟩
    simpa [valid_port] using hv1
  · refine ⟨_, rfl, ?_⟩
    simpa [valid_port] using hv1

/-- With a controlling port inside the array, `btns[global_firstport]` is the
pressed sample of that port. -/
theorem btns_firstport (inp : Input) (s : State) (hv : valid_port s) :
    btns inp s.global_firstport = some (inp.joypad_get_buttons_pressed s.global_firstport) := by
  obtain ⟨h0, h4⟩ := hv
  have hn : ((s.global_firstport.toNat : Nat) : Int) = s.global_firstport := Int.toNat_of_nonneg h0
  have hlt : s.global_firstport.toNat < MAXPLAYERS := by
    simp only [MAXPLAYERS]
    omega
  simp [btns, h0, h4, btns_array, hlt, hn]

/-- The selection after the cursor block read the sample `b`. -/
theorem cursor_move_selection (s : State) (b : joypad_buttons_t) (maxselect : Int) :
    (cursor_move s b maxselect).global_selection =
      if b.d_down = true ∨ b.c_down = true then
        (if s.global_selection + 1 ≥ maxselect then 0 else s.global_selection + 1)
      else if b.d_up = true ∨ b.c_up = true then
        (if s.global_selection - 1 < 0 then maxselect - 1 else s.global_selection - 1)
      else s.global_selection := by
  simp only [cursor_move]
  split_ifs <;> rfl

/-! ### The cursor flag through the gates and the animation block -/

theorem players_gate_cursor (s : State) (h : s.global_cursoractive = true) :
    (players_gate s).global_cursoractive = true := by
  simp only [players_gate]
  split_ifs <;> simp [h]

theorem gamesetup_gate_cursor (s : State) (h : s.global_cursoractive = true) :
    (gamesetup_gate s).global_cursoractive = true := by
  simp only [gamesetup_gate]
  split_ifs <;> simp [h]

/-- The animation block raises the cursor flag only on the AI-difficulty box
of `MENU_PLAYERS`; otherwise the flag and `maxselect` pass through. -/
theorem handle_animations_cursor (m : Libm) (s : State) (maxselect : Int) (deltatime : ℚ) :
    (handle_animations m s maxselect deltatime).1.global_cursoractive =
        (if s.global_curmenu = MENU_PLAYERS ∧ s.global_showsecond = true ∧
            f2i (lerp s.bdef_backbox_aidiff.w 128 (10 * deltatime)) > 100 ∧
            s.global_transition = TRANS_NONE then true else s.global_cursoractive) ∧
      (handle_animations m s maxselect deltatime).2 =
        (if s.global_curmenu = MENU_PLAYERS ∧ s.global_showsecond = true ∧
            f2i (lerp s.bdef_backbox_aidiff.w 128 (10 * deltatime)) > 100 ∧
            s.global_transition = TRANS_NONE then 3 else maxselect) := by
  have hw : (animate_mode m s deltatime).bdef_backbox_aidiff = s.bdef_backbox_aidiff := by
    simp only [animate_mode]
    split_ifs <;> rfl
  have hv : is_menuvisible (animate_mode m s deltatime) MENU_PLAYERS = true →
      (animate_mode m s deltatime).global_transition = TRANS_NONE →
      s.global_curmenu = MENU_PLAYERS := by
    simp only [is_menuvisible, animate_mode_frame]
    intro h1 h2
    simp [h2] at h1
    exact h1
  simp only [handle_animations, handle_parenting_frame, animate_gamesetup_frame]
  simp only [animate_players, hw]
  simp only [animate_mode_frame] at hv ⊢
  by_cases hvis : is_menuvisible (animate_mode m s deltatime) MENU_PLAYERS = true
  · simp only [hvis, if_true]
    by_cases hs : s.global_showsecond = true
    · simp only [hs, if_true, true_and]
      by_cases hc : f2i (lerp s.bdef_backbox_aidiff.w 128 (10 * deltatime)) > 100 ∧
          s.global_transition = TRANS_NONE
      · have hm := hv hvis hc.2
        split_ifs <;> simp_all
      · split_ifs <;> simp_all
    · split_ifs <;> simp_all
  · have hnm : s.global_curmenu ≠ MENU_PLAYERS := by
      intro hm
      apply hvis
      simp [is_menuvisible, hm]
    simp [hvis, hnm]

/-- Once the switch has returned, the frame returns when the port it leaves is
inside `btns` or the cursor is inactive at the cursor block; the logical
globals are those of the switch, the cursor flag is that of the animation
block, and the selection is that of the cursor block. -/
theorem setup_loop_of_controls (m : Libm) (s s1 : State) (inp : Input) (deltatime : ℚ)
    (maxselect : Int) (hc : handle_controls s inp deltatime = some (s1, maxselect))
    (hok : valid_port s1 ∨
      (handle_animations m s1 maxselect deltatime).1.global_cursoractive = false) :
    ∃ s', setup_loop m s inp deltatime = some s' ∧
      s'.global_transition = s1.global_transition ∧
      s'.global_curmenu = s1.global_curmenu ∧
      s'.global_firstport = s1.global_firstport ∧
      s'.global_playerjoined = s1.global_playerjoined ∧
      s'.global_readyprog = s1.global_readyprog ∧
      s'.global_showsecond = s1.global_showsecond ∧
      s'.global_cfg_points = s1.global_cfg_points ∧
      s'.global_cfg_nextround = s1.global_cfg_nextround ∧
      s'.sink_calls = s1.sink_calls ∧
      s'.global_cursoractive =
        (handle_animations m s1 maxselect deltatime).1.global_cursoractive ∧
      s'.global_selection =
        (if (handle_animations m s1 maxselect deltatime).1.global_cursoractive = true then
          (cursor_move (handle_animations m s1 maxselect deltatime).1
            (inp.joypad_get_buttons_pressed s1.global_firstport)
            (handle_animations m s1 maxselect deltatime).2).global_selection
        else s1.global_selection) := by
  simp only [setup_loop, hc, Option.some_bind, handle_cursor]
  by_cases hact : (handle_animations m s1 maxselect deltatime).1.global_cursoractive = true
  · have hv : valid_port s1 := by
      rcases hok with h | h
      · exact h
      · rw [hact] at h
        cases h
    have hv2 : valid_port (handle_animations m s1 maxselect deltatime).1 := by
      simpa [valid_port] using hv
    have hb := btns_firstport inp _ hv2
    simp only [handle_animations_frame] at hb
    simp only [hact, if_true, handle_animations_frame, hb, Option.map_some']
    refine ⟨_, rfl, ?_⟩
    simp [hact]
  · simp only [hact, if_false, Option.map_some']
    refine ⟨_, rfl, ?_⟩
    simp [hact]

/-! ### The `MENU_PLAYERS` case -/

theorem handle_controls_players (s : State) (inp : Input) (deltatime : ℚ)
    (hm : s.global_curmenu = MENU_PLAYERS) (hact : s.global_cursoractive = true) :
    handle_controls s inp deltatime =
      (players_active (players_gate s) inp deltatime).map fun s => (s, 0) := by
  simp [handle_controls, hm, menu_players, players_gate_cursor s hact]

/-- Phase 1, the hold fires and the last slot is free: phase 2 is entered. -/
theorem players_active_fire_free (s : State) (inp : Input) (deltatime : ℚ)
    (hs : s.global_showsecond = false)
    (hfc : firstcont_of (toggle_joined inp s.global_playerjoined) ≠ -1)
    (ha : (inp.joypad_get_buttons
      (firstcont_of (toggle_joined inp s.global_playerjoined))).a = true)
    (hfire : s.global_readyprog + deltatime ≥ 1)
    (hlast : toggle_joined inp s.global_playerjoined (MAXPLAYERS - 1) = false) :
    players_active s inp deltatime = some { s with
      global_playerjoined := toggle_joined inp s.global_playerjoined
      global_readyprog := s.global_readyprog + deltatime
      global_firstport := firstcont_of (toggle_joined inp s.global_playerjoined)
      global_showsecond := true
      global_cursoractive := false
      global_selection := 1
      sink_calls := s.sink_calls ++ [SinkCall.core_set_playercount
        (count_joined (toggle_joined inp s.global_playerjoined))] } := by
  simp only [players_active, hs, if_true]
  rw [if_pos ⟨hfc, ha⟩, if_pos hfire, if_pos hlast]

/-- Phase 1, the hold fires and the last slot is joined: straight to
`MENU_GAMESETUP`. -/
theorem players_active_fire_full (s : State) (inp : Input) (deltatime : ℚ)
    (hs : s.global_showsecond = false)
    (hfc : firstcont_of (toggle_joined inp s.global_playerjoined) ≠ -1)
    (ha : (inp.joypad_get_buttons
      (firstcont_of (toggle_joined inp s.global_playerjoined))).a = true)
    (hfire : s.global_readyprog + deltatime ≥ 1)
    (hlast : toggle_joined inp s.global_playerjoined (MAXPLAYERS - 1) = true) :
    players_active s inp deltatime = some { s with
      global_playerjoined := toggle_joined inp s.global_playerjoined
      global_readyprog := 0
      global_firstport := firstcont_of (toggle_joined inp s.global_playerjoined)
      global_curmenu := MENU_GAMESETUP
      global_transition := TRANS_FORWARD
      global_cursoractive := false
      sink_calls := s.sink_calls ++ [SinkCall.core_set_playercount
        (count_joined (toggle_joined inp s.global_playerjoined))] } := by
  simp only [players_active, hs, if_true, players_gotonext]
  rw [if_pos ⟨hfc, ha⟩, if_pos hfire, if_neg (by simp [hlast])]

/-- Phase 1, the button is held and the progress stays below 1. -/
theorem players_active_hold (s : State) (inp : Input) (deltatime : ℚ)
    (hs : s.global_showsecond = false)
    (hfc : firstcont_of (toggle_joined inp s.global_playerjoined) ≠ -1)
    (ha : (inp.joypad_get_buttons
      (firstcont_of (toggle_joined inp s.global_playerjoined))).a = true)
    (hlow : s.global_readyprog + deltatime < 1) :
    players_active s inp deltatime = some { s with
      global_playerjoined := toggle_joined inp s.global_playerjoined
      global_readyprog := s.global_readyprog + deltatime } := by
  simp only [players_active, hs, if_true]
  rw [if_pos ⟨hfc, ha⟩, if_neg (not_le.mpr hlow)]

/-- Phase 1, nobody joined or the button of the first joined port not held. -/
theorem players_active_release (s : State) (inp : Input) (deltatime : ℚ)
    (hs : s.global_showsecond = false)
    (hrel : ¬ (firstcont_of (toggle_joined inp s.global_playerjoined) ≠ -1 ∧
      (inp.joypad_get_buttons
        (firstcont_of (toggle_joined inp s.global_playerjoined))).a = true)) :
    players_active s inp deltatime = some { s with
      global_playerjoined := toggle_joined inp s.global_playerjoined
      global_readyprog := 0 } := by
  simp only [players_active, hs, if_true]
  rw [if_neg hrel]

/-- Phase 2 with a controlling port inside `btns`: an A press calls
`core_set_aidifficulty` and runs the `gotonext` block. -/
theorem players_active_second (s : State) (inp : Input) (deltatime : ℚ)
    (hs : s.global_showsecond = true) (hv : valid_port s) :
    players_active s inp deltatime =
      some (if (inp.joypad_get_buttons_pressed s.global_firstport).a = true then
        players_gotonext { s with
          sink_calls := s.sink_calls ++ [SinkCall.core_set_aidifficulty s.global_selection] }
      else s) := by
  have hs' : ¬ (s.global_showsecond = false) := by simp [hs]
  simp only [players_active, if_neg hs', btns_firstport inp s hv, Option.map_some']

/-- The frame of phase 1 on which the hold fires with the last slot free. -/
theorem setup_loop_fire_free (m : Libm) (s : State) (inp : Input) (deltatime : ℚ)
    (hm : s.global_curmenu = MENU_PLAYERS) (hs : s.global_showsecond = false)
    (hact : s.global_cursoractive = true)
    (hfc : firstcont_of (toggle_joined inp s.global_playerjoined) ≠ -1)
    (ha : (inp.joypad_get_buttons
      (firstcont_of (toggle_joined inp s.global_playerjoined))).a = true)
    (hfire : s.global_readyprog + deltatime ≥ 1)
    (hlast : toggle_joined inp s.global_playerjoined (MAXPLAYERS - 1) = false) :
    ∃ s', setup_loop m s inp deltatime = some s' ∧
      s'.global_curmenu = MENU_PLAYERS ∧
      s'.global_showsecond = true ∧
      s'.global_readyprog = s.global_readyprog + deltatime ∧
      s'.global_firstport = firstcont_of (toggle_joined inp s.global_playerjoined) ∧
      s'.global_playerjoined = toggle_joined inp s.global_playerjoined ∧
      s'.sink_calls = s.sink_calls ++ [SinkCall.core_set_playercount
        (count_joined (toggle_joined inp s.global_playerjoined))] := by
  have hc := handle_controls_players s inp deltatime hm hact
  have hr := firstcont_of_range (toggle_joined inp s.global_playerjoined)
  rw [players_active_fire_free (players_gate s) inp deltatime (by simpa using hs)
    (by simpa using hfc) (by simpa using ha) (by simpa using hfire) (by simpa using hlast),
    Option.map_some'] at hc
  obtain ⟨s', hs', -, f2, f3, f4, f5, f6, -, -, f9, -, -⟩ :=
    setup_loop_of_controls m s _ inp deltatime 0 hc
      (Or.inl ⟨by simp only [players_gate_frame]; omega, by simp only [players_gate_frame]; omega⟩)
  simp only [players_gate_frame] at f2 f3 f4 f5 f6 f9
  exact ⟨s', hs', by rw [f2, hm], f6, f5, f3, f4, f9⟩

/-- The frame of phase 1 on which the hold fires with the last slot joined. -/
theorem setup_loop_fire_full (m : Libm) (s : State) (inp : Input) (deltatime : ℚ)
    (hm : s.global_curmenu = MENU_PLAYERS) (hs : s.global_showsecond = false)
    (hact : s.global_cursoractive = true)
    (hfc : firstcont_of (toggle_joined inp s.global_playerjoined) ≠ -1)
    (ha : (inp.joypad_get_buttons
      (firstcont_of (toggle_joined inp s.global_playerjoined))).a = true)
    (hfire : s.global_readyprog + deltatime ≥ 1)
    (hlast : toggle_joined inp s.global_playerjoined (MAXPLAYERS - 1) = true) :
    ∃ s', setup_loop m s inp deltatime = some s' ∧
      s'.global_curmenu = MENU_GAMESETUP ∧
      s'.global_transition = TRANS_FORWARD ∧
      s'.global_showsecond = false ∧
      s'.global_readyprog = 0 ∧
      s'.global_firstport = firstcont_of (toggle_joined inp s.global_playerjoined) ∧
      s'.global_playerjoined = toggle_joined inp s.global_playerjoined ∧
      s'.sink_calls = s.sink_calls ++ [SinkCall.core_set_playercount
        (count_joined (toggle_joined inp s.global_playerjoined))] := by
  have hc := handle_controls_players s inp deltatime hm hact
  have hr := firstcont_of_range (toggle_joined inp s.global_playerjoined)
  rw [players_active_fire_full (players_gate s) inp deltatime (by simpa using hs)
    (by simpa using hfc) (by simpa using ha) (by simpa using hfire) (by simpa using hlast),
    Option.map_some'] at hc
  obtain ⟨s', hs', f1, f2, f3, f4, f5, f6, -, -, f9, -, -⟩ :=
    setup_loop_of_controls m s _ inp deltatime 0 hc
      (Or.inl ⟨by simp only [players_gate_frame]; omega, by simp only [players_gate_frame]; omega⟩)
  simp only [players_gate_frame] at f1 f2 f3 f4 f5 f6 f9
  exact ⟨s', hs', f2, f1, by rw [f6, hs], f5, f3, f4, f9⟩

/-- The frame of phase 2 on which A is pressed on the controlling port. -/
theorem setup_loop_second_press (m : Libm) (s : State) (inp : Input) (deltatime : ℚ)
    (hm : s.global_curmenu = MENU_PLAYERS) (hs : s.global_showsecond = true)
    (hact : s.global_cursoractive = true) (hv : valid_port s)
    (ha : (inp.joypad_get_buttons_pressed s.global_firstport).a = true) :
    ∃ s', setup_loop m s inp deltatime = some s' ∧
      s'.global_curmenu = MENU_GAMESETUP ∧
      s'.global_transition = TRANS_FORWARD ∧
      s'.global_readyprog = 0 ∧
      s'.global_firstport = s.global_firstport ∧
      s'.sink_calls = s.sink_calls ++ [SinkCall.core_set_aidifficulty s.global_selection] := by
  have hc := handle_controls_players s inp deltatime hm hact
  have hvg : valid_port (players_gate s) := by simpa [valid_port] using hv
  rw [players_active_second (players_gate s) inp deltatime (by simpa using hs) hvg,
    Option.map_some'] at hc
  simp only [players_gate_frame, ha, if_true] at hc
  obtain ⟨s', hs', f1, f2, f3, -, f5, -, -, -, f9, -, -⟩ :=
    setup_loop_of_controls m s _ inp deltatime 0 hc
      (Or.inl (by simpa [valid_port, players_gotonext] using hv))
  simp only [players_gotonext, players_gate_frame] at f1 f2 f3 f5 f9
  exact ⟨s', hs', f2, f1, f5, f3, f9⟩

/-! ### The `MENU_GAMESETUP` case -/

theorem handle_controls_gamesetup (s : State) (inp : Input) (deltatime : ℚ)
    (hm : s.global_curmenu = MENU_GAMESETUP) (hact : s.global_cursoractive = true)
    (hv : valid_port s) :
    handle_controls s inp deltatime =
      some (gamesetup_hold (gamesetup_edit (gamesetup_gate s)
        (inp.joypad_get_buttons_pressed s.global_firstport)) inp deltatime, 3) := by
  have hvg : valid_port (gamesetup_gate s) := by simpa [valid_port] using hv
  have hb := btns_firstport inp _ hvg
  simp only [gamesetup_gate_frame] at hb
  simp [handle_controls, hm, menu_gamesetup, gamesetup_gate_cursor s hact, hb]

/-- The Start-hold fires: the menu is done and the progress is reset. -/
theorem gamesetup_hold_fire (s : State) (inp : Input) (deltatime : ℚ)
    (hh : (inp.joypad_get_buttons s.global_firstport).start = true)
    (hfire : s.global_readyprog + deltatime ≥ 1) :
    gamesetup_hold s inp deltatime = { s with
      global_readyprog := 0
      global_curmenu := MENU_DONE
      global_transition := TRANS_FORWARD
      global_cursoractive := false } := by
  simp only [gamesetup_hold]
  rw [if_pos hh, if_pos hfire]

/-- The Start-hold accumulates below 1. -/
theorem gamesetup_hold_hold (s : State) (inp : Input) (deltatime : ℚ)
    (hh : (inp.joypad_get_buttons s.global_firstport).start = true)
    (hlow : s.global_readyprog + deltatime < 1) :
    gamesetup_hold s inp deltatime =
      { s with global_readyprog := s.global_readyprog + deltatime } := by
  simp only [gamesetup_hold]
  rw [if_pos hh, if_neg (not_le.mpr hlow)]

/-- Start not held: the progress is reset. -/
theorem gamesetup_hold_release (s : State) (inp : Input) (deltatime : ℚ)
    (hh : (inp.joypad_get_buttons s.global_firstport).start = false) :
    gamesetup_hold s inp deltatime = { s with global_readyprog := 0 } := by
  simp only [gamesetup_hold]
  rw [if_neg (by simp [hh])]

/-- The frame of `MENU_GAMESETUP` on which the Start-hold fires. -/
theorem setup_loop_gamesetup_fire (m : Libm) (s : State) (inp : Input) (deltatime : ℚ)
    (hm : s.global_curmenu = MENU_GAMESETUP) (hact : s.global_cursoractive = true)
    (hv : valid_port s)
    (hh : (inp.joypad_get_buttons s.global_firstport).start = true)
    (hfire : s.global_readyprog + deltatime ≥ 1) :
    ∃ s', setup_loop m s inp deltatime = some s' ∧
      s'.global_curmenu = MENU_DONE ∧
      s'.global_transition = TRANS_FORWARD ∧
      s'.global_cursoractive = false ∧
      s'.global_readyprog = 0 ∧
      s'.global_firstport = s.global_firstport := by
  have hc := handle_controls_gamesetup s inp deltatime hm hact hv
  rw [gamesetup_hold_fire _ inp deltatime (by simpa using hh) (by simpa using hfire)] at hc
  obtain ⟨s', hs', f1, f2, f3, -, f5, -, -, -, -, f10, -⟩ :=
    setup_loop_of_controls m s _ inp deltatime 3 hc
      (Or.inl (by simpa [valid_port] using hv))
  rw [(handle_animations_cursor m _ 3 deltatime).1] at f10
  simp only [gamesetup_edit_frame, gamesetup_gate_frame] at f1 f2 f3 f5 f10
  simp at f10
  exact ⟨s', hs', f2, f1, f10, f5, f3⟩

/-- The selection after the opening gate of `MENU_GAMESETUP`. -/
theorem gamesetup_gate_selection (s : State) :
    (gamesetup_gate s).global_selection =
      if s.global_transition = TRANS_FORWARD ∧ s.bdef_backbox_gameconfig.x ≤ 170 then 0
      else s.global_selection := by
  simp only [gamesetup_gate]
  split_ifs <;> rfl

/-- The win-point threshold after the field edit. -/
theorem gamesetup_edit_points (s : State) (b : joypad_buttons_t) :
    (gamesetup_edit s b).global_cfg_points =
      if b.a = true ∨ b.d_right = true ∨ b.c_right = true then
        (if s.global_selection = 0 then
          (if s.global_cfg_points + 1 > 10 then 1 else s.global_cfg_points + 1)
        else s.global_cfg_points)
      else if b.d_left = true ∨ b.c_left = true then
        (if s.global_selection = 0 then
          (if s.global_cfg_points - 1 < 1 then 10 else s.global_cfg_points - 1)
        else s.global_cfg_points)
      else s.global_cfg_points := by
  simp only [gamesetup_edit, gamesetup_increment, gamesetup_decrement]
  split_ifs <;> rfl

/-- The round-selection policy after the field edit. -/
theorem gamesetup_edit_nextround (s : State) (b : joypad_buttons_t) :
    (gamesetup_edit s b).global_cfg_nextround =
      if b.a = true ∨ b.d_right = true ∨ b.c_right = true then
        (if s.global_selection = 1 then
          (if s.global_cfg_nextround + 1 > 3 then 0 else s.global_cfg_nextround + 1)
        else s.global_cfg_nextround)
      else if b.d_left = true ∨ b.c_left = true then
        (if s.global_selection = 1 then
          (if s.global_cfg_nextround = 0 then 3 else s.global_cfg_nextround - 1)
        else s.global_cfg_nextround)
      else s.global_cfg_nextround := by
  simp only [gamesetup_edit, gamesetup_increment, gamesetup_decrement]
  split_ifs <;> first | rfl | (exfalso; omega)

/-- A frame of `MENU_GAMESETUP` with the cursor active and the controlling port
inside `btns` returns, and its two configuration fields are those of the field
edit. -/
theorem setup_loop_gamesetup_edit (m : Libm) (s : State) (inp : Input) (deltatime : ℚ)
    (hm : s.global_curmenu = MENU_GAMESETUP) (hact : s.global_cursoractive = true)
    (hv : valid_port s) :
    ∃ s', setup_loop m s inp deltatime = some s' ∧
      s'.global_cfg_points = (gamesetup_edit (gamesetup_gate s)
        (inp.joypad_get_buttons_pressed s.global_firstport)).global_cfg_points ∧
      s'.global_cfg_nextround = (gamesetup_edit (gamesetup_gate s)
        (inp.joypad_get_buttons_pressed s.global_firstport)).global_cfg_nextround ∧
      s'.global_firstport = s.global_firstport := by
  have hc := handle_controls_gamesetup s inp deltatime hm hact hv
  obtain ⟨s', hs', -, -, f3, -, -, -, f7, f8, -⟩ :=
    setup_loop_of_controls m s _ inp deltatime 3 hc (Or.inl (by simpa [valid_port] using hv))
  simp only [gamesetup_hold_frame, gamesetup_edit_frame, gamesetup_gate_frame] at f3 f7 f8
  exact ⟨s', hs', f7, f8, f3⟩

/-! ### Invariants of the frame loop -/

/-- What the body of the `MENU_PLAYERS` case leaves of the fields the invariant
speaks of. -/
theorem players_active_inv (s s1 : State) (inp : Input) (deltatime : ℚ)
    (h : players_active s inp deltatime = some s1) :
    s1.global_cfg_points = s.global_cfg_points ∧
    s1.global_cfg_nextround = s.global_cfg_nextround ∧
    (s1.global_cursoractive = false ∨
      (s1.global_cursoractive = s.global_cursoractive ∧
        s1.global_transition = s.global_transition)) := by
  simp only [players_active, players_gotonext] at h
  split_ifs at h
  all_goals first
    | (cases h; simp)
    | (obtain ⟨b, -, hb⟩ := Option.map_eq_some'.mp h
       split_ifs at hb <;> (subst hb; simp))

theorem gamesetup_hold_inv (s : State) (inp : Input) (deltatime : ℚ) :
    (gamesetup_hold s inp deltatime).global_cursoractive = false ∨
      ((gamesetup_hold s inp deltatime).global_cursoractive = s.global_cursoractive ∧
        (gamesetup_hold s inp deltatime).global_transition = s.global_transition) := by
  simp only [gamesetup_hold]
  split_ifs <;> simp

theorem gate_inv (s : State) (h : s.global_cursoractive = true → s.global_transition = TRANS_NONE) :
    ((players_gate s).global_cursoractive = true →
        (players_gate s).global_transition = TRANS_NONE) ∧
      ((gamesetup_gate s).global_cursoractive = true →
        (gamesetup_gate s).global_transition = TRANS_NONE) := by
  simp only [players_gate, gamesetup_gate]
  constructor <;> split_ifs <;> first | exact h | simp

theorem gamesetup_edit_range (s : State) (b : joypad_buttons_t)
    (hp : 1 ≤ s.global_cfg_points ∧ s.global_cfg_points ≤ 10)
    (hn : 0 ≤ s.global_cfg_nextround ∧ s.global_cfg_nextround ≤ 3) :
    (1 ≤ (gamesetup_edit s b).global_cfg_points ∧ (gamesetup_edit s b).global_cfg_points ≤ 10) ∧
      (0 ≤ (gamesetup_edit s b).global_cfg_nextround ∧
        (gamesetup_edit s b).global_cfg_nextround ≤ 3) := by
  rw [gamesetup_edit_points, gamesetup_edit_nextround]
  constructor <;> constructor <;> split_ifs <;> omega

/-- The switch keeps the cursor and range parts of the invariant. -/
theorem handle_controls_inv (s : State) (inp : Input) (deltatime : ℚ) (r : State × Int)
    (hi : Inv s) (h : handle_controls s inp deltatime = some r) :
    (r.1.global_cursoractive = true → r.1.global_transition = TRANS_NONE) ∧
      (1 ≤ r.1.global_cfg_points ∧ r.1.global_cfg_points ≤ 10) ∧
      (0 ≤ r.1.global_cfg_nextround ∧ r.1.global_cfg_nextround ≤ 3) := by
  obtain ⟨hc, hp, hn, -⟩ := hi
  unfold handle_controls at h
  cases hm : s.global_curmenu <;> simp only [hm] at h
  · split_ifs at h <;> (cases h; simp [hp, hn]; try exact hc)
  · split_ifs at h
    · obtain ⟨b, -, hb⟩ := Option.map_eq_some'.mp h
      subst hb
      simp only [mode_press]
      split_ifs <;> simp [hp, hn]
      exact hc
    · cases h
      exact ⟨hc, hp, hn⟩
  · obtain ⟨s1, h1, hb⟩ := Option.map_eq_some'.mp h
    subst hb
    simp only [menu_players] at h1
    split_ifs at h1
    · obtain ⟨e1, e2, e3⟩ := players_active_inv _ _ _ _ h1
      simp only [players_gate_frame] at e1 e2
      refine ⟨?_, by rw [e1]; exact hp, by rw [e2]; exact hn⟩
      rcases e3 with e3 | ⟨e3, e4⟩
      · simp [e3]
      · rw [e3, e4]
        exact (gate_inv s hc).1
    · cases h1
      simp only [players_gate_frame]
      exact ⟨(gate_inv s hc).1, hp, hn⟩
  · obtain ⟨s1, h1, hb⟩ := Option.map_eq_some'.mp h
    subst hb
    simp only [menu_gamesetup] at h1
    have hr := fun b => gamesetup_edit_range (gamesetup_gate s) b
      (by simpa using hp) (by simpa using hn)
    split_ifs at h1
    · obtain ⟨b, -, hb⟩ := Option.map_eq_some'.mp h1
      subst hb
      simp only [gamesetup_hold_frame]
      refine ⟨?_, (hr b).1, (hr b).2⟩
      rcases gamesetup_hold_inv (gamesetup_edit (gamesetup_gate s) b) inp deltatime with e | ⟨e, e'⟩
      · simp [e]
      · rw [e, e']
        simp only [gamesetup_edit_frame]
        exact (gate_inv s hc).2
    · cases h1
      simp only [gamesetup_gate_frame]
      exact ⟨(gate_inv s hc).2, hp, hn⟩
  · cases h
    exact ⟨hc, hp, hn⟩

/-- The switch leaves `MENU_START` only with the cursor active. -/
theorem handle_controls_start (s : State) (inp : Input) (deltatime : ℚ) (r : State × Int)
    (hm : s.global_curmenu = MENU_START) (h : handle_controls s inp deltatime = some r) :
    r.1.global_curmenu = MENU_START ∨
      (r.1.global_curmenu = MENU_MODE ∧ r.1.global_cursoractive = true) := by
  simp only [handle_controls, hm] at h
  split_ifs at h <;> (cases h; simp [hm])

/-- One frame keeps the invariant. -/
theorem Inv_setup_loop (m : Libm) (s s' : State) (inp : Input) (deltatime : ℚ)
    (hi : Inv s) (h : setup_loop m s inp deltatime = some s') : Inv s' := by
  obtain ⟨s1, ms, hc, f1, f2, f3, -, -, -, f7, f8, -, f10, f11⟩ :=
    setup_loop_frame m s s' inp deltatime h
  obtain ⟨i1, i2, i3⟩ := handle_controls_inv s inp deltatime (s1, ms) hi hc
  have hcur := (handle_animations_cursor m s1 ms deltatime).1
  refine ⟨?_, by rw [f7]; exact i2, by rw [f8]; exact i3, ?_⟩
  · intro hact
    rw [f10, hcur] at hact
    rw [f1]
    split_ifs at hact with hcond
    · exact hcond.2.2.2
    · exact i1 hact
  · intro hne
    by_cases hm : s.global_curmenu = MENU_START
    · rcases handle_controls_start s inp deltatime (s1, ms) hm hc with e | ⟨e, e'⟩
      · rw [f2] at hne
        exact absurd e hne
      · have hv := f11 (by
          rw [hcur]
          split_ifs
          · rfl
          · exact e')
        simpa [valid_port, f3] using hv
    · obtain ⟨r, hr, hv⟩ := handle_controls_total s inp deltatime (hi.port hm)
      rw [hc] at hr
      cases hr
      simpa [valid_port, f3] using hv

/-- The state left by `setup_init` satisfies the invariant. -/
theorem Inv_setup_init (c : Int → Bool) (b : Bool) (fx fy cx cy : Int) :
    Inv (setup_init c b fx fy cx cy) :=
  ⟨by simp [setup_init], by simp [setup_init], by simp [setup_init], by simp [setup_init]⟩

/-- A run keeps the invariant. -/
theorem Inv_run (m : Libm) (frames : List Frame) (s s' : State) (hi : Inv s)
    (h : run m s frames = some s') : Inv s' := by
  induction frames generalizing s with
  | nil =>
    simp only [run] at h
    cases h
    exact hi
  | cons f fs ih =>
    simp only [run] at h
    obtain ⟨s1, h1, h2⟩ := Option.bind_eq_some.mp h
    exact ih s1 (Inv_setup_loop m s s1 f.input f.deltatime hi h1) h2

/-- Every reachable state satisfies the invariant. -/
theorem Inv_of_reachable (m : Libm) (s : State) (h : Reachable m s) : Inv s := by
  obtain ⟨c, b, fx, fy, cx, cy, frames, hr⟩ := h
  exact Inv_run m frames _ s (Inv_setup_init c b fx fy cx cy) hr

/-! ### Whole frames of `MENU_GAMESETUP`, `MENU_DONE` and phase 1 -/

/-- A frame of `MENU_GAMESETUP` with the cursor active and the controlling port
inside `btns`: the frame returns, and every logical global is given by the
field edit, the Start-hold and the cursor block. -/
theorem setup_loop_gamesetup (m : Libm) (s : State) (inp : Input) (deltatime : ℚ)
    (hm : s.global_curmenu = MENU_GAMESETUP) (hact : s.global_cursoractive = true)
    (hv : valid_port s) :
    ∃ s', setup_loop m s inp deltatime = some s' ∧
      s'.global_cfg_points = (gamesetup_edit (gamesetup_gate s)
        (inp.joypad_get_buttons_pressed s.global_firstport)).global_cfg_points ∧
      s'.global_cfg_nextround = (gamesetup_edit (gamesetup_gate s)
        (inp.joypad_get_buttons_pressed s.global_firstport)).global_cfg_nextround ∧
      s'.global_firstport = s.global_firstport ∧
      s'.global_curmenu = (gamesetup_hold (gamesetup_edit (gamesetup_gate s)
        (inp.joypad_get_buttons_pressed s.global_firstport)) inp deltatime).global_curmenu ∧
      s'.global_transition = (gamesetup_hold (gamesetup_edit (gamesetup_gate s)
        (inp.joypad_get_buttons_pressed s.global_firstport)) inp deltatime).global_transition ∧
      s'.global_readyprog = (gamesetup_hold (gamesetup_edit (gamesetup_gate s)
        (inp.joypad_get_buttons_pressed s.global_firstport)) inp deltatime).global_readyprog ∧
      s'.global_cursoractive = (gamesetup_hold (gamesetup_edit (gamesetup_gate s)
        (inp.joypad_get_buttons_pressed s.global_firstport)) inp deltatime).global_cursoractive ∧
      s'.global_selection =
        (if s'.global_cursoractive = true then
          (if (inp.joypad_get_buttons_pressed s.global_firstport).d_down = true ∨
              (inp.joypad_get_buttons_pressed s.global_firstport).c_down = true then
            (if (gamesetup_gate s).global_selection + 1 ≥ 3 then 0
              else (gamesetup_gate s).global_selection + 1)
          else if (inp.joypad_get_buttons_pressed s.global_firstport).d_up = true ∨
              (inp.joypad_get_buttons_pressed s.global_firstport).c_up = true then
            (if (gamesetup_gate s).global_selection - 1 < 0 then 3 - 1
              else (gamesetup_gate s).global_selection - 1)
          else (gamesetup_gate s).global_selection)
        else (gamesetup_gate s).global_selection) ∧
      s'.sink_calls = s.sink_calls ∧
      s'.global_showsecond = s.global_showsecond ∧
      s'.global_playerjoined = s.global_playerjoined := by
  have hc := handle_controls_gamesetup s inp deltatime hm hact hv
  obtain ⟨s', hs', f1, f2, f3, f4, f5, f6, f7, f8, f9, f10, f11⟩ :=
    setup_loop_of_controls m s _ inp deltatime 3 hc (Or.inl (by simpa [valid_port] using hv))
  have hcur := handle_animations_cursor m (gamesetup_hold (gamesetup_edit (gamesetup_gate s)
    (inp.joypad_get_buttons_pressed s.global_firstport)) inp deltatime) 3 deltatime
  have hnp : (gamesetup_hold (gamesetup_edit (gamesetup_gate s)
      (inp.joypad_get_buttons_pressed s.global_firstport)) inp deltatime).global_curmenu ≠
      MENU_PLAYERS := by
    rcases gamesetup_hold_menu (gamesetup_edit (gamesetup_gate s)
      (inp.joypad_get_buttons_pressed s.global_firstport)) inp deltatime with e | e
    · rw [e]
      simp [hm]
    · rw [e]
      simp
  simp only [hnp, false_and, if_false] at hcur
  rw [hcur.1] at f10
  rw [hcur.1, hcur.2, cursor_move_selection] at f11
  simp only [gamesetup_hold_frame, gamesetup_edit_frame, gamesetup_gate_frame,
    handle_animations_frame] at f3 f4 f6 f7 f8 f9 f11
  refine ⟨s', hs', f7, f8, f3, f2, f1, f5, f10, ?_, f9, f6, f4⟩
  rw [f11, f10]

/-- A frame of `MENU_DONE` with the cursor inactive returns and changes none
of the logical globals. -/
theorem setup_loop_done (m : Libm) (s : State) (inp : Input) (deltatime : ℚ)
    (hm : s.global_curmenu = MENU_DONE) (hact : s.global_cursoractive = false) :
    ∃ s', setup_loop m s inp deltatime = some s' ∧
      s'.global_curmenu = MENU_DONE ∧
      s'.global_transition = s.global_transition ∧
      s'.global_cursoractive = false ∧
      s'.global_readyprog = s.global_readyprog ∧
      s'.global_firstport = s.global_firstport ∧
      s'.sink_calls = s.sink_calls := by
  have hc : handle_controls s inp deltatime = some (s, 0) := by
    simp [handle_controls, hm]
  have hcur := (handle_animations_cursor m s 0 deltatime).1
  simp [hm, hact] at hcur
  obtain ⟨s', hs', f1, f2, f3, -, f5, -, -, -, f9, f10, -⟩ :=
    setup_loop_of_controls m s s inp deltatime 0 hc (Or.inr hcur)
  exact ⟨s', hs', by rw [f2, hm], f1, by rw [f10, hcur], f5, f3, f9⟩

/-- A frame of phase 1 that does not fire: the frame returns, the menu, the
phase and the cursor flag stay, and the progress is that of the switch. -/
theorem setup_loop_players_quiet (m : Libm) (s : State) (inp : Input) (deltatime : ℚ)
    (rp : ℚ) (hm : s.global_curmenu = MENU_PLAYERS) (hs : s.global_showsecond = false)
    (hact : s.global_cursoractive = true) (hv : valid_port s)
    (hp : players_active (players_gate s) inp deltatime = some { players_gate s with
      global_playerjoined := toggle_joined inp (players_gate s).global_playerjoined
      global_readyprog := rp }) :
    ∃ s', setup_loop m s inp deltatime = some s' ∧
      s'.global_curmenu = MENU_PLAYERS ∧
      s'.global_showsecond = false ∧
      s'.global_cursoractive = true ∧
      s'.global_readyprog = rp ∧
      s'.global_firstport = s.global_firstport ∧
      s'.global_playerjoined = toggle_joined inp s.global_playerjoined ∧
      s'.sink_calls = s.sink_calls := by
  have hc := handle_controls_players s inp deltatime hm hact
  rw [hp, Option.map_some'] at hc
  obtain ⟨s', hs', -, f2, f3, f4, f5, f6, -, -, f9, f10, -⟩ :=
    setup_loop_of_controls m s _ inp deltatime 0 hc (Or.inl (by simpa [valid_port] using hv))
  rw [(handle_animations_cursor m _ 0 deltatime).1] at f10
  simp only [players_gate_frame, hs, Bool.false_eq_true, false_and, and_false, if_false,
    players_gate_cursor s hact] at f2 f3 f4 f5 f6 f9 f10
  exact ⟨s', hs', by rw [f2, hm], f6, f10, f5, f3, f4, f9⟩

/-! ### A concrete run into `MENU_GAMESETUP` -/

theorem run_frames_to_gamesetup :
    run libm_example state_init frames_to_gamesetup = some state_reached := by
  have h : (run libm_example state_init frames_to_gamesetup).isSome = true := by decide!
  obtain ⟨s, hs⟩ := Option.isSome_iff_exists.mp h
  simp only [state_reached, hs, Option.getD_some]

theorem state_reached_reachable : Reachable libm_example state_reached :=
  ⟨fun _ => true, false, 0, 0, 0, 0, frames_to_gamesetup, run_frames_to_gamesetup⟩

theorem state_reached_fields :
    state_reached.global_curmenu = MENU_GAMESETUP ∧
      state_reached.global_cursoractive = true ∧
      state_reached.global_selection = 1 ∧
      state_reached.global_transition = TRANS_NONE ∧
      state_reached.global_firstport = 0 ∧
      state_reached.global_cfg_points = 5 ∧
      state_reached.global_cfg_nextround = 0 ∧
      state_reached.global_readyprog = 0 := by
  decide!

theorem options_read_isSome (i : Int) (h0 : 0 ≤ i) (h3 : i ≤ 3) :
    (options_read i).isSome = true := by
  interval_cases i <;> rfl

/-- A frame of `MENU_GAMESETUP` with Start held and the progress staying
below 1. -/
theorem setup_loop_gamesetup_hold (m : Libm) (s : State) (inp : Input) (deltatime : ℚ)
    (hm : s.global_curmenu = MENU_GAMESETUP) (hact : s.global_cursoractive = true)
    (hv : valid_port s)
    (hh : (inp.joypad_get_buttons s.global_firstport).start = true)
    (hlow : s.global_readyprog + deltatime < 1) :
    ∃ s', setup_loop m s inp deltatime = some s' ∧
      s'.global_curmenu = MENU_GAMESETUP ∧
      s'.global_cursoractive = true ∧
      s'.global_readyprog = s.global_readyprog + deltatime ∧
      s'.global_firstport = s.global_firstport := by
  obtain ⟨s', hs', -, -, e3, e4, -, e6, e7, -⟩ :=
    setup_loop_gamesetup m s inp deltatime hm hact hv
  rw [gamesetup_hold_hold _ inp deltatime (by simpa using hh) (by simpa using hlow)] at e4 e6 e7
  simp only [gamesetup_edit_frame, gamesetup_gate_frame] at e4 e6 e7
  exact ⟨s', hs', by rw [e4, hm], by rw [e7]; exact gamesetup_gate_cursor s hact, e6, e3⟩

/-- A frame of `MENU_GAMESETUP` with Start not held. -/
theorem setup_loop_gamesetup_release (m : Libm) (s : State) (inp : Input) (deltatime : ℚ)
    (hm : s.global_curmenu = MENU_GAMESETUP) (hact : s.global_cursoractive = true)
    (hv : valid_port s)
    (hh : (inp.joypad_get_buttons s.global_firstport).start = false) :
    ∃ s', setup_loop m s inp deltatime = some s' ∧
      s'.global_curmenu = MENU_GAMESETUP ∧
      s'.global_cursoractive = true ∧
      s'.global_readyprog = 0 ∧
      s'.global_firstport = s.global_firstport := by
  obtain ⟨s', hs', -, -, e3, e4, -, e6, e7, -⟩ :=
    setup_loop_gamesetup m s inp deltatime hm hact hv
  rw [gamesetup_hold_release _ inp deltatime (by simpa using hh)] at e4 e6 e7
  simp only [gamesetup_edit_frame, gamesetup_gate_frame] at e4 e6 e7
  exact ⟨s', hs', by rw [e4, hm], by rw [e7]; exact gamesetup_gate_cursor s hact, e6, e3⟩

/-- Frames of `MENU_DONE` with the cursor inactive return and keep the menu,
the transition, the cursor flag and the progress. -/
theorem run_done (m : Libm) (frames : List Frame) (s : State)
    (hm : s.global_curmenu = MENU_DONE) (hact : s.global_cursoractive = false) :
    ∃ s', run m s frames = some s' ∧
      s'.global_curmenu = MENU_DONE ∧
      s'.global_transition = s.global_transition ∧
      s'.global_cursoractive = false ∧
      s'.global_readyprog = s.global_readyprog := by
  induction frames generalizing s with
  | nil => exact ⟨s, rfl, hm, rfl, hact, rfl⟩
  | cons f fs ih =>
    obtain ⟨s1, h1, e1, e2, e3, e4, -⟩ := setup_loop_done m s f.input f.deltatime hm hact
    obtain ⟨s', h', g1, g2, g3, g4⟩ := ih s1 e1 e3
    exact ⟨s', by simp [run, h1, h'], g1, by rw [g2, e2], g3, by rw [g4, e4]⟩

/-- The Start-hold of `MENU_GAMESETUP` over frames of `1 / n` seconds, from
progress `j / n`: still held after fewer than `n - j` frames, fired on frame
`n - j`, and done ever after. -/
theorem run_gamesetup_hold (m : Libm) (n : Nat) (fp : Int) (frames : List Frame) :
    ∀ (s : State) (j : Nat), j < n →
      s.global_curmenu = MENU_GAMESETUP → s.global_cursoractive = true → valid_port s →
      s.global_firstport = fp → s.global_readyprog = (j : ℚ) / (n : ℚ) →
      (∀ f ∈ frames, f.deltatime = 1 / (n : ℚ) ∧
        (f.input.joypad_get_buttons fp).start = true) →
      ∃ s', run m s frames = some s' ∧
        (j + frames.length < n →
          s'.global_curmenu = MENU_GAMESETUP ∧ s'.global_cursoractive = true ∧
            s'.global_readyprog = ((j + frames.length : Nat) : ℚ) / (n : ℚ)) ∧
        (n ≤ j + frames.length →
          s'.global_curmenu = MENU_DONE ∧ s'.global_transition = TRANS_FORWARD ∧
            s'.global_cursoractive = false ∧ s'.global_readyprog = 0) := by
  induction frames with
  | nil =>
    intro s j hj hm hact _ _ hrp _
    refine ⟨s, rfl, fun _ => ⟨hm, hact, by simpa using hrp⟩, fun h => ?_⟩
    simp only [List.length_nil, Nat.add_zero] at h
    omega
  | cons f fs ih =>
    intro s j hj hm hact hv hfp hrp hfr
    have hf := hfr f (List.mem_cons_self f fs)
    have hrest : ∀ g ∈ fs, g.deltatime = 1 / (n : ℚ) ∧
        (g.input.joypad_get_buttons fp).start = true :=
      fun g hg => hfr g (List.mem_cons_of_mem f hg)
    have hnpos : (0 : ℚ) < (n : ℚ) := by
      have : 0 < n := by omega
      exact_mod_cast this
    have hsum : s.global_readyprog + f.deltatime = ((j + 1 : Nat) : ℚ) / (n : ℚ) := by
      rw [hrp, hf.1]
      push_cast
      ring
    by_cases hlast : j + 1 < n
    · have hlow : s.global_readyprog + f.deltatime < 1 := by
        rw [hsum, div_lt_one hnpos]
        exact_mod_cast hlast
      obtain ⟨s1, h1, e1, e2, e3, e4⟩ :=
        setup_loop_gamesetup_hold m s f.input f.deltatime hm hact hv (by rw [hfp]; exact hf.2) hlow
      obtain ⟨s', h', g1, g2⟩ := ih s1 (j + 1) hlast e1 e2 (by simpa [valid_port, e4] using hv)
        (by rw [e4, hfp]) (by rw [e3, hsum]) hrest
      refine ⟨s', by simp [run, h1, h'], fun hlt => ?_, fun hge => ?_⟩
      · have := g1 (by simp only [List.length_cons] at hlt; omega)
        simpa [List.length_cons, Nat.add_assoc, Nat.add_comm 1] using this
      · exact g2 (by simp only [List.length_cons] at hge; omega)
    · have hfire : s.global_readyprog + f.deltatime ≥ 1 := by
        rw [hsum, ge_iff_le, one_le_div hnpos]
        have : n ≤ j + 1 := by omega
        exact_mod_cast this
      obtain ⟨s1, h1, e1, e2, e3, e4, -⟩ :=
        setup_loop_gamesetup_fire m s f.input f.deltatime hm hact hv
          (by rw [hfp]; exact hf.2) hfire
      obtain ⟨s', h', g1, g2, g3, g4⟩ := run_done m fs s1 e1 e3
      refine ⟨s', by simp [run, h1, h'], fun hlt => ?_, fun _ => ?_⟩
      · simp only [List.length_cons] at hlt
        omega
      · exact ⟨g1, by rw [g2, e2], g3, by rw [g4, e4]⟩

theorem run_append (m : Libm) (a b : List Frame) (s : State) :
    run m s (a ++ b) = (run m s a).bind fun s1 => run m s1 b := by
  induction a generalizing s with
  | nil => simp [run]
  | cons f fs ih =>
    simp only [List.cons_append, run]
    cases setup_loop m s f.input f.deltatime with
    | none => rfl
    | some s1 => simp [ih]

/-- The controlling port of a state past `MENU_START` is inside `btns` when
the state is reachable. -/
theorem port_of_reachable_or_valid (m : Libm) (s : State) (h : Reachable m s ∨ valid_port s)
    (hne : s.global_curmenu ≠ MENU_START) : valid_port s :=
  h.elim (fun hr => (Inv_of_reachable m s hr).port hne) id

/-! ### The loop of `actor_draw` -/

/-- From counter `i`, with enough fuel and `ACTOR_COUNT` within `uint8_t`, the
loop appends the display lists of the living actors from index `i` on. -/
theorem actor_draw_loop_eq (ACTOR_COUNT : Nat) (actor : List Actor)
    (hc : ACTOR_COUNT ≤ 255) (hlen : actor.length = ACTOR_COUNT) :
    ∀ (fuel i : Nat) (calls : List Nat), i ≤ ACTOR_COUNT → ACTOR_COUNT - i < fuel →
      actor_draw_loop ACTOR_COUNT actor fuel i calls =
        some (calls ++ ((actor.drop i).filter fun a => decide (a.state ≠ 9)).map Actor.dl) := by
  intro fuel
  induction fuel with
  | zero =>
    intro i calls _ hf
    omega
  | succ fuel ih =>
    intro i calls hi hf
    rw [actor_draw_loop]
    by_cases hlt : i < ACTOR_COUNT
    · rw [if_pos hlt]
      have hget : actor.get? i = some (actor.get ⟨i, by omega⟩) := List.get?_eq_get (by omega)
      have hmod : (i + 1) % 256 = i + 1 := Nat.mod_eq_of_lt (by omega)
      have hdrop : actor.drop i = actor.get ⟨i, by omega⟩ :: actor.drop (i + 1) :=
        List.drop_eq_getElem_cons (by omega)
      rw [hget]
      simp only [hmod]
      by_cases h9 : (actor.get ⟨i, by omega⟩).state = 9
      · rw [if_pos h9, ih (i + 1) calls (by omega) (by omega), hdrop,
          List.filter_cons_of_neg (by simpa using h9)]
      · rw [if_neg h9, ih (i + 1) _ (by omega) (by omega), hdrop,
          List.filter_cons_of_pos (by simpa using h9), List.map_cons, List.append_assoc]
        rfl
    · rw [if_neg hlt]
      have : i = actor.length := by omega
      simp [this]

/-! ### What one frame does to the sinks, the join set and the controlling port -/

/-- The outcomes of the body of the `MENU_PLAYERS` case. -/
theorem players_active_cases (s s1 : State) (inp : Input) (deltatime : ℚ)
    (h : players_active s inp deltatime = some s1) :
    (s.global_showsecond = false ∧
      firstcont_of (toggle_joined inp s.global_playerjoined) ≠ -1 ∧
      s.global_readyprog + deltatime ≥ 1 ∧
      s1.global_playerjoined = toggle_joined inp s.global_playerjoined ∧
      s1.global_firstport = firstcont_of (toggle_joined inp s.global_playerjoined) ∧
      s1.sink_calls = s.sink_calls ++ [SinkCall.core_set_playercount
        (count_joined (toggle_joined inp s.global_playerjoined))] ∧
      ((s1.global_curmenu = s.global_curmenu ∧ s1.global_showsecond = true ∧
          s1.global_selection = 1 ∧ s1.global_cursoractive = false ∧
          s1.global_transition = s.global_transition) ∨
        (s1.global_curmenu = MENU_GAMESETUP ∧ s1.global_showsecond = false ∧
          s1.global_cursoractive = false ∧ s1.global_transition = TRANS_FORWARD))) ∨
    (s.global_showsecond = false ∧
      s1.global_curmenu = s.global_curmenu ∧ s1.global_showsecond = false ∧
      s1.global_firstport = s.global_firstport ∧ s1.sink_calls = s.sink_calls ∧
      s1.global_selection = s.global_selection ∧
      s1.global_cursoractive = s.global_cursoractive ∧
      s1.global_transition = s.global_transition ∧
      s1.bdef_backbox_aidiff = s.bdef_backbox_aidiff) ∨
    (s.global_showsecond = true ∧ s1 = s) ∨
    (s.global_showsecond = true ∧ valid_port s ∧
      s1.global_curmenu = MENU_GAMESETUP ∧ s1.global_showsecond = true ∧
      s1.global_cursoractive = false ∧ s1.global_transition = TRANS_FORWARD ∧
      s1.global_firstport = s.global_firstport ∧
      s1.global_playerjoined = s.global_playerjoined ∧
      s1.sink_calls = s.sink_calls ++ [SinkCall.core_set_aidifficulty s.global_selection]) := by
  by_cases hs : s.global_showsecond = false
  · by_cases hh : firstcont_of (toggle_joined inp s.global_playerjoined) ≠ -1 ∧
        (inp.joypad_get_buttons
          (firstcont_of (toggle_joined inp s.global_playerjoined))).a = true
    · by_cases hfire : s.global_readyprog + deltatime ≥ 1
      · left
        by_cases hlast : toggle_joined inp s.global_playerjoined (MAXPLAYERS - 1) = false
        · rw [players_active_fire_free s inp deltatime hs hh.1 hh.2 hfire hlast] at h
          cases h
          exact ⟨hs, hh.1, hfire, rfl, rfl, rfl, Or.inl ⟨rfl, rfl, rfl, rfl, rfl⟩⟩
        · rw [players_active_fire_full s inp deltatime hs hh.1 hh.2 hfire
            (by simpa using hlast)] at h
          cases h
          exact ⟨hs, hh.1, hfire, rfl, rfl, rfl, Or.inr ⟨rfl, hs, rfl, rfl⟩⟩
      · right
        left
        rw [players_active_hold s inp deltatime hs hh.1 hh.2 (not_le.mp hfire)] at h
        cases h
        exact ⟨hs, rfl, hs, rfl, rfl, rfl, rfl, rfl, rfl⟩
    · right
      left
      rw [players_active_release s inp deltatime hs hh] at h
      cases h
      exact ⟨hs, rfl, hs, rfl, rfl, rfl, rfl, rfl, rfl⟩
  · have hs' : s.global_showsecond = true := by simpa using hs
    right
    right
    simp only [players_active, if_neg hs] at h
    obtain ⟨b, hb, hb2⟩ := Option.map_eq_some'.mp h
    have hv : valid_port s := by
      simp only [btns] at hb
      split_ifs at hb with hv
      exact hv
    by_cases ha : b.a = true
    · right
      rw [if_pos ha] at hb2
      subst hb2
      exact ⟨hs', hv, rfl, hs', rfl, rfl, rfl, rfl, rfl⟩
    · left
      rw [if_neg ha] at hb2
      subst hb2
      exact ⟨hs', rfl⟩

/-- The outcomes of the switch, as far as the sinks, the join set, the
controlling port and the menu go: a quiet frame, the firing of the phase-1
hold, or the A press of phase 2. -/
theorem handle_controls_cases (s : State) (inp : Input) (deltatime : ℚ) (r : State × Int)
    (h : handle_controls s inp deltatime = some r) :
    (r.1.sink_calls = s.sink_calls ∧ r.1.global_firstport = s.global_firstport ∧
      (confirmed r.1 ↔ confirmed s) ∧
      (confirmed s → r.1.global_playerjoined = s.global_playerjoined) ∧
      (s.global_curmenu = MENU_PLAYERS → r.1.global_curmenu = MENU_PLAYERS)) ∨
    (s.global_curmenu = MENU_PLAYERS ∧ s.global_showsecond = false ∧
      firstcont_of (toggle_joined inp s.global_playerjoined) ≠ -1 ∧
      r.1.global_playerjoined = toggle_joined inp s.global_playerjoined ∧
      r.1.global_firstport = firstcont_of (toggle_joined inp s.global_playerjoined) ∧
      r.1.sink_calls = s.sink_calls ++ [SinkCall.core_set_playercount
        (count_joined (toggle_joined inp s.global_playerjoined))] ∧
      ((r.1.global_curmenu = MENU_PLAYERS ∧ r.1.global_showsecond = true) ∨
        r.1.global_curmenu = MENU_GAMESETUP)) ∨
    (s.global_curmenu = MENU_PLAYERS ∧ s.global_showsecond = true ∧ valid_port s ∧
      r.1.global_curmenu = MENU_GAMESETUP ∧
      r.1.global_firstport = s.global_firstport ∧
      r.1.global_playerjoined = s.global_playerjoined ∧
      r.1.sink_calls = s.sink_calls ++ [SinkCall.core_set_aidifficulty s.global_selection]) := by
  unfold handle_controls at h
  cases hm : s.global_curmenu <;> simp only [hm] at h
  · left
    split_ifs at h <;> (cases h; simp [confirmed, hm])
  · left
    split_ifs at h
    · obtain ⟨b, -, hb⟩ := Option.map_eq_some'.mp h
      subst hb
      simp only [mode_press]
      split_ifs <;> simp [confirmed, hm]
    · cases h
      simp [confirmed, hm]
  · obtain ⟨s1, h1, hb⟩ := Option.map_eq_some'.mp h
    subst hb
    simp only [menu_players] at h1
    split_ifs at h1
    · rcases players_active_cases _ _ _ _ h1 with
        ⟨c1, c2, -, c4, c5, c6, c7⟩ | ⟨c1, c2, c3, c4, c5, -⟩ | ⟨c1, c2⟩ |
        ⟨c1, c2, c3, c4, -, -, c7, c8, c9⟩
      · right
        left
        simp only [players_gate_frame] at c1 c2 c4 c5 c6 c7
        refine ⟨rfl, c1, c2, c4, c5, c6, ?_⟩
        rcases c7 with ⟨d1, d2, -⟩ | ⟨d1, -⟩
        · exact Or.inl ⟨by rw [d1, hm], d2⟩
        · exact Or.inr d1
      · left
        simp only [players_gate_frame] at c1 c2 c4 c5
        refine ⟨c5, c4, ?_, ?_, fun _ => by rw [c2, hm]⟩
        · simp [confirmed, c2, c3, hm, c1]
        · intro hc
          simp [confirmed, hm, c1] at hc
      · left
        subst c2
        simp [confirmed, hm]
      · right
        right
        simp only [players_gate_frame] at c1 c7 c8 c9
        exact ⟨rfl, c1, by simpa [valid_port] using c2, c3, c7, c8, c9⟩
    · left
      cases h1
      simp [confirmed, hm]
  · left
    obtain ⟨s1, h1, hb⟩ := Option.map_eq_some'.mp h
    subst hb
    simp only [menu_gamesetup] at h1
    split_ifs at h1
    · obtain ⟨b, -, hb⟩ := Option.map_eq_some'.mp h1
      subst hb
      rcases gamesetup_hold_menu (gamesetup_edit (gamesetup_gate s) b) inp deltatime with e | e
      · simp [confirmed, e, hm]
      · simp [confirmed, e, hm]
    · cases h1
      simp [confirmed, hm]
  · left
    cases h
    simp [confirmed, hm]

/-- The outcomes of a frame, as far as the sinks, the join set, the controlling
port and the menu go. -/
theorem setup_loop_cases (m : Libm) (s s' : State) (inp : Input) (deltatime : ℚ)
    (h : setup_loop m s inp deltatime = some s') :
    (s'.sink_calls = s.sink_calls ∧ s'.global_firstport = s.global_firstport ∧
      (confirmed s' ↔ confirmed s) ∧
      (confirmed s → s'.global_playerjoined = s.global_playerjoined) ∧
      (s.global_curmenu = MENU_PLAYERS → s'.global_curmenu = MENU_PLAYERS)) ∨
    (s.global_curmenu = MENU_PLAYERS ∧ s.global_showsecond = false ∧
      firstcont_of (toggle_joined inp s.global_playerjoined) ≠ -1 ∧
      s'.global_playerjoined = toggle_joined inp s.global_playerjoined ∧
      s'.global_firstport = firstcont_of (toggle_joined inp s.global_playerjoined) ∧
      s'.sink_calls = s.sink_calls ++ [SinkCall.core_set_playercount
        (count_joined (toggle_joined inp s.global_playerjoined))] ∧
      ((s'.global_curmenu = MENU_PLAYERS ∧ s'.global_showsecond = true) ∨
        s'.global_curmenu = MENU_GAMESETUP)) ∨
    (s.global_curmenu = MENU_PLAYERS ∧ s.global_showsecond = true ∧ valid_port s ∧
      s'.global_curmenu = MENU_GAMESETUP ∧
      s'.global_firstport = s.global_firstport ∧
      s'.global_playerjoined = s.global_playerjoined ∧
      s'.sink_calls = s.sink_calls ++ [SinkCall.core_set_aidifficulty s.global_selection]) := by
  obtain ⟨s1, ms, hc, -, f2, f3, f4, -, f6, -, -, f9, -⟩ :=
    setup_loop_frame m s s' inp deltatime h
  have hconf : confirmed s' ↔ confirmed s1 := by simp only [confirmed, f2, f6]
  have := handle_controls_cases s inp deltatime (s1, ms) hc
  simp only [← f2, ← f3, ← f4, ← f6, ← f9, ← hconf] at this
  exact this

/-! ### The first joined slot and the count of the join set -/

/-- The result of the `firstcont` loop is the lowest joined index. -/
theorem firstcont_of_spec (joined : Nat → Bool) (h : firstcont_of joined ≠ -1) :
    0 ≤ firstcont_of joined ∧ firstcont_of joined < (MAXPLAYERS : Int) ∧
      joined (firstcont_of joined).toNat = true ∧
      ∀ i : Nat, i < (firstcont_of joined).toNat → joined i = false := by
  revert h
  simp only [firstcont_of, MAXPLAYERS, List.range_succ, List.range_zero, List.nil_append,
    List.cons_append, List.foldl_cons, List.foldl_nil]
  cases h0 : joined 0 <;> cases h1 : joined 1 <;> cases h2 : joined 2 <;> cases h3 : joined 3 <;>
    simp [h0, h1, h2, h3] <;> (try (intro i hi; interval_cases i <;> assumption))

/-- The result of the `count` loop is the number of joined slots. -/
theorem count_joined_eq (joined : Nat → Bool) :
    count_joined joined = ((joined_slots joined).length : Int) := by
  simp only [count_joined, joined_slots, MAXPLAYERS, List.range_succ, List.range_zero,
    List.nil_append, List.cons_append, List.foldl_cons, List.foldl_nil, List.filter_cons,
    List.filter_nil]
  cases h0 : joined 0 <;> cases h1 : joined 1 <;> cases h2 : joined 2 <;> cases h3 : joined 3 <;>
    simp

/-- With a first joined slot the count is between 1 and `MAXPLAYERS`. -/
theorem count_joined_range (joined : Nat → Bool) (h : firstcont_of joined ≠ -1) :
    1 ≤ count_joined joined ∧ count_joined joined ≤ (MAXPLAYERS : Int) := by
  revert h
  simp only [count_joined, firstcont_of, MAXPLAYERS, List.range_succ, List.range_zero,
    List.nil_append, List.cons_append, List.foldl_cons, List.foldl_nil]
  cases h0 : joined 0 <;> cases h1 : joined 1 <;> cases h2 : joined 2 <;> cases h3 : joined 3 <;>
    simp

/-! ### The invariant on the sinks -/

/-- One frame keeps the invariant on the sinks. -/
theorem SinkInv_setup_loop (m : Libm) (s s' : State) (inp : Input) (deltatime : ℚ)
    (hi : SinkInv s) (h : setup_loop m s inp deltatime = some s') : SinkInv s' := by
  have hmono : menu_index s'.global_curmenu = menu_index s.global_curmenu ∨
      menu_index s'.global_curmenu = menu_index s.global_curmenu + 1 := by
    obtain ⟨s1, ms, hc, -, hm, -⟩ := setup_loop_frame m s s' inp deltatime h
    rw [hm]
    exact handle_controls_menu s inp deltatime (s1, ms) hc
  rcases setup_loop_cases m s s' inp deltatime h with
    ⟨q1, q2, q3, q4, q5⟩ | ⟨f1, f2, f3, f4, f5, f6, f7⟩ | ⟨p1, p2, -, p4, p5, p6, p7⟩
  · refine ⟨fun hn => ?_, fun hc => ?_, fun hc => ?_, fun hm hs => ?_⟩
    · rw [q1]
      exact hi.before (fun hc => hn (q3.mpr hc))
    · have hc' := q3.mp hc
      rw [q4 hc', q2]
      exact hi.port hc'
    · have hc' := q3.mp hc
      rw [q4 hc', q1]
      exact hi.after hc'
    · have hc' : confirmed s := q3.mp (Or.inl ⟨hm, hs⟩)
      have hsm : s.global_curmenu = MENU_PLAYERS := by
        rw [hm] at hmono
        rcases hc' with ⟨c, -⟩ | c | c
        · exact c
        · rw [c] at hmono
          simp [menu_index] at hmono
        · rw [c] at hmono
          simp [menu_index] at hmono
      have hss : s.global_showsecond = true := by
        rcases hc' with ⟨-, c⟩ | c | c
        · exact c
        · rw [c] at hsm
          cases hsm
        · rw [c] at hsm
          cases hsm
      rw [q4 hc', q1]
      exact hi.phase2 hsm hss
  · have hb : s.sink_calls = [] := hi.before (by simp [confirmed, f1, f2])
    rw [hb, List.nil_append, ← f4] at f6
    rw [← f4] at f3 f5
    exact ⟨fun hn => absurd (by
        rcases f7 with ⟨a, b⟩ | a
        · exact Or.inl ⟨a, b⟩
        · exact Or.inr (Or.inl a)) hn,
      fun _ => ⟨f3, f5⟩, fun _ => Or.inl f6, fun _ _ => f6⟩
  · have hp := hi.phase2 p1 p2
    have hport := hi.port (Or.inl ⟨p1, p2⟩)
    rw [hp] at p7
    refine ⟨fun hn => absurd (Or.inr (Or.inl p4)) hn, fun _ => ?_, fun _ => ?_, fun hm _ => ?_⟩
    · rw [p6, p5]
      exact hport
    · rw [p6]
      exact Or.inr ⟨_, p7⟩
    · rw [p4] at hm
      cases hm

/-- The state left by `setup_init` satisfies the invariant on the sinks. -/
theorem SinkInv_setup_init (c : Int → Bool) (b : Bool) (fx fy cx cy : Int) :
    SinkInv (setup_init c b fx fy cx cy) :=
  ⟨fun _ => rfl, fun h => by simp [confirmed, setup_init] at h,
    fun h => by simp [confirmed, setup_init] at h, fun h => by simp [setup_init] at h⟩

/-- A run keeps the invariant on the sinks. -/
theorem SinkInv_run (m : Libm) (frames : List Frame) (s s' : State) (hi : SinkInv s)
    (h : run m s frames = some s') : SinkInv s' := by
  induction frames generalizing s with
  | nil =>
    simp only [run] at h
    cases h
    exact hi
  | cons f fs ih =>
    simp only [run] at h
    obtain ⟨s1, h1, h2⟩ := Option.bind_eq_some.mp h
    exact ih s1 (SinkInv_setup_loop m s s1 f.input f.deltatime hi h1) h2

/-- Every reachable state satisfies the invariant on the sinks. -/
theorem SinkInv_of_reachable (m : Libm) (s : State) (h : Reachable m s) : SinkInv s := by
  obtain ⟨c, b, fx, fy, cx, cy, frames, hr⟩ := h
  exact SinkInv_run m frames _ s (SinkInv_setup_init c b fx fy cx cy) hr

/-- Once the phase-1 hold has fired, a frame keeps the controlling port and the
join set. -/
theorem confirmed_setup_loop (m : Libm) (s s' : State) (inp : Input) (deltatime : ℚ)
    (hc : confirmed s) (h : setup_loop m s inp deltatime = some s') :
    confirmed s' ∧ s'.global_firstport = s.global_firstport ∧
      s'.global_playerjoined = s.global_playerjoined := by
  rcases setup_loop_cases m s s' inp deltatime h with
    ⟨-, q2, q3, q4, -⟩ | ⟨f1, f2, -⟩ | ⟨-, -, -, p4, p5, p6, -⟩
  · exact ⟨q3.mpr hc, q2, q4 hc⟩
  · simp [confirmed, f1, f2] at hc
  · exact ⟨Or.inr (Or.inl p4), p5, p6⟩

/-- Once the phase-1 hold has fired, a run keeps the controlling port and the
join set. -/
theorem confirmed_run (m : Libm) (frames : List Frame) (s s' : State)
    (hc : confirmed s) (h : run m s frames = some s') :
    confirmed s' ∧ s'.global_firstport = s.global_firstport ∧
      s'.global_playerjoined = s.global_playerjoined := by
  induction frames generalizing s with
  | nil =>
    simp only [run] at h
    cases h
    exact ⟨hc, rfl, rfl⟩
  | cons f fs ih =>
    simp only [run] at h
    obtain ⟨s1, h1, h2⟩ := Option.bind_eq_some.mp h
    obtain ⟨c1, c2, c3⟩ := confirmed_setup_loop m s s1 f.input f.deltatime hc h1
    obtain ⟨d1, d2, d3⟩ := ih s1 c1 h2
    exact ⟨d1, by rw [d2, c2], by rw [d3, c3]⟩

/-! ### The opening gates -/

/-- What the opening gate of `MENU_PLAYERS` does. -/
theorem players_gate_eq (s : State) :
    (s.global_transition = TRANS_FORWARD ∧ s.bdef_backbox_plycount.x ≤ 170 →
      (players_gate s).global_transition = TRANS_NONE ∧
        (players_gate s).global_cursoractive = true) ∧
    (¬ (s.global_transition = TRANS_FORWARD ∧ s.bdef_backbox_plycount.x ≤ 170) →
      players_gate s = s) := by
  simp only [players_gate]
  constructor <;> intro hg
  · rw [if_pos hg]
    exact ⟨rfl, rfl⟩
  · rw [if_neg hg]

/-- On a non-negative value the conversion to `int` is the floor. -/
theorem f2i_of_nonneg (q : ℚ) (h : 0 ≤ q) : f2i q = Rat.floor q := by
  rw [f2i, Rat.floor_def', Int.tdiv_eq_ediv (Rat.num_nonneg.mpr h) (by exact_mod_cast Nat.zero_le _)]

theorem le_f2i (n : Int) (q : ℚ) (h0 : 0 ≤ q) (h : (n : ℚ) ≤ q) : n ≤ f2i q := by
  rw [f2i_of_nonneg q h0]
  exact Rat.le_floor.mpr h

theorem f2i_le (n : Int) (q : ℚ) (h0 : 0 ≤ q) (h : q ≤ (n : ℚ)) : f2i q ≤ n := by
  rw [f2i_of_nonneg q h0]
  have h1 : ((Rat.floor q : Int) : ℚ) ≤ q := by
    have := (Rat.le_floor (z := Rat.floor q) (r := q)).mp le_rfl
    exact this
  have h2 : ((Rat.floor q : Int) : ℚ) ≤ (n : ℚ) := le_trans h1 h
  exact_mod_cast h2

/-- One step of the width toward 128 at rate `k` in `[0, 1]`: the new width is
between the old one and 128. -/
theorem f2i_lerp_width (w : Int) (k : ℚ) (hk0 : 0 ≤ k) (hk1 : k ≤ 1) (hw0 : 0 ≤ w)
    (hw : w ≤ 128) :
    w ≤ f2i (lerp w 128 k) ∧ f2i (lerp w 128 k) ≤ 128 := by
  have hwq : (w : ℚ) ≤ 128 := by exact_mod_cast hw
  have hw0q : (0 : ℚ) ≤ (w : ℚ) := by exact_mod_cast hw0
  have h1 : (w : ℚ) ≤ lerp w 128 k := by
    simp only [lerp]
    nlinarith
  have h2 : lerp w 128 k ≤ ((128 : Int) : ℚ) := by
    simp only [lerp]
    push_cast
    nlinarith
  exact ⟨le_f2i w _ (le_trans hw0q h1) h1, f2i_le 128 _ (le_trans hw0q h1) h2⟩

theorem is_menuvisible_congr (s t : State) (menu : CurrentMenu)
    (h1 : t.global_curmenu = s.global_curmenu) (h2 : t.global_transition = s.global_transition) :
    is_menuvisible t menu = is_menuvisible s menu := by
  cases menu <;> simp [is_menuvisible, h1, h2]

theorem players_active_aidiff (s s1 : State) (inp : Input) (deltatime : ℚ)
    (h : players_active s inp deltatime = some s1) :
    s1.bdef_backbox_aidiff = s.bdef_backbox_aidiff := by
  simp only [players_active, players_gotonext] at h
  split_ifs at h
  all_goals first
    | (cases h; rfl)
    | (obtain ⟨b, -, hb⟩ := Option.map_eq_some'.mp h
       split_ifs at hb <;> (subst hb; rfl))

theorem players_gate_aidiff (s : State) :
    (players_gate s).bdef_backbox_aidiff = s.bdef_backbox_aidiff := by
  simp only [players_gate]
  split_ifs <;> rfl

theorem gamesetup_gate_aidiff (s : State) :
    (gamesetup_gate s).bdef_backbox_aidiff = s.bdef_backbox_aidiff := by
  simp only [gamesetup_gate]
  split_ifs <;> rfl

theorem gamesetup_edit_aidiff (s : State) (b : joypad_buttons_t) :
    (gamesetup_edit s b).bdef_backbox_aidiff = s.bdef_backbox_aidiff := by
  simp only [gamesetup_edit, gamesetup_increment, gamesetup_decrement]
  split_ifs <;> rfl

theorem gamesetup_hold_aidiff (s : State) (inp : Input) (deltatime : ℚ) :
    (gamesetup_hold s inp deltatime).bdef_backbox_aidiff = s.bdef_backbox_aidiff := by
  simp only [gamesetup_hold]
  split_ifs <;> rfl

/-- The switch never writes the AI-difficulty box. -/
theorem handle_controls_aidiff (s : State) (inp : Input) (deltatime : ℚ) (r : State × Int)
    (h : handle_controls s inp deltatime = some r) :
    r.1.bdef_backbox_aidiff = s.bdef_backbox_aidiff := by
  unfold handle_controls at h
  cases hm : s.global_curmenu <;> simp only [hm] at h
  · split_ifs at h <;> (cases h; rfl)
  · split_ifs at h
    · obtain ⟨b, -, hb⟩ := Option.map_eq_some'.mp h
      subst hb
      simp only [mode_press]
      split_ifs <;> rfl
    · cases h; rfl
  · obtain ⟨s1, h1, hb⟩ := Option.map_eq_some'.mp h
    subst hb
    simp only [menu_players] at h1
    split_ifs at h1
    · rw [players_active_aidiff _ _ _ _ h1, players_gate_aidiff]
    · cases h1
      exact players_gate_aidiff s
  · obtain ⟨s1, h1, hb⟩ := Option.map_eq_some'.mp h
    subst hb
    simp only [menu_gamesetup] at h1
    split_ifs at h1
    · obtain ⟨b, -, hb⟩ := Option.map_eq_some'.mp h1
      subst hb
      rw [gamesetup_hold_aidiff, gamesetup_edit_aidiff, gamesetup_gate_aidiff]
    · cases h1
      exact gamesetup_gate_aidiff s
  · cases h; rfl

/-- The width of the AI-difficulty box after the animation block. -/
theorem handle_animations_aidiff_w (m : Libm) (s : State) (maxselect : Int) (deltatime : ℚ) :
    (handle_animations m s maxselect deltatime).1.bdef_backbox_aidiff.w =
      if is_menuvisible s MENU_PLAYERS = true ∧ s.global_showsecond = true then
        f2i (lerp s.bdef_backbox_aidiff.w 128 (10 * deltatime))
      else s.bdef_backbox_aidiff.w := by
  have hw : (animate_mode m s deltatime).bdef_backbox_aidiff = s.bdef_backbox_aidiff := by
    simp only [animate_mode]
    split_ifs <;> rfl
  have hv : is_menuvisible (animate_mode m s deltatime) MENU_PLAYERS =
      is_menuvisible s MENU_PLAYERS :=
    is_menuvisible_congr _ _ _ (by simp) (by simp)
  have hg : ∀ t : State, (animate_gamesetup t deltatime).bdef_backbox_aidiff =
      t.bdef_backbox_aidiff := by
    intro t
    simp only [animate_gamesetup]
    split_ifs <;> rfl
  have hp : ∀ t : State, (handle_parenting t).bdef_backbox_aidiff.w =
      t.bdef_backbox_aidiff.w := by
    intro t
    simp [handle_parenting]
  simp only [handle_animations, hp, hg]
  simp only [animate_players, hv, hw, animate_mode_frame]
  split_ifs <;> simp_all

theorem cursor_move_aidiff (s : State) (b : joypad_buttons_t) (maxselect : Int) :
    (cursor_move s b maxselect).bdef_backbox_aidiff = s.bdef_backbox_aidiff := by
  simp only [cursor_move]
  split_ifs <;> rfl

theorem handle_cursor_aidiff (s s2 : State) (inp : Input) (maxselect : Int)
    (h : handle_cursor s inp maxselect = some s2) :
    s2.bdef_backbox_aidiff = s.bdef_backbox_aidiff := by
  simp only [handle_cursor] at h
  split_ifs at h
  · obtain ⟨b, -, hb⟩ := Option.map_eq_some'.mp h
    subst hb
    exact cursor_move_aidiff _ _ _
  · cases h
    rfl

theorem drawbox_w (bd : BoxDef) : (drawbox bd).w = if bd.w < 32 then 32 else bd.w := by
  simp only [drawbox]
  split_ifs <;> rfl

/-- The function `setup_draw` is its four blocks in order, after the clock. -/
theorem setup_draw_blocks (m : Libm) (s : State) (deltatime : ℚ) :
    setup_draw m s deltatime =
      draw_pointer m (draw_gamesetup (draw_players (draw_mode
        { s with global_backtime := s.global_backtime + deltatime }))) deltatime := rfl

/-- The width of the AI-difficulty box after `setup_draw`. -/
theorem setup_draw_aidiff_w (m : Libm) (s : State) (deltatime : ℚ) :
    (setup_draw m s deltatime).bdef_backbox_aidiff.w =
      if is_menuvisible s MENU_PLAYERS = true ∧ s.global_showsecond = true then
        (if s.bdef_backbox_aidiff.w < 32 then 32 else s.bdef_backbox_aidiff.w)
      else s.bdef_backbox_aidiff.w := by
  have h4 : ∀ t : State, (draw_pointer m t deltatime).bdef_backbox_aidiff =
      t.bdef_backbox_aidiff := by
    intro t
    simp only [draw_pointer]
    split_ifs <;> rfl
  have h3 : ∀ t : State, (draw_gamesetup t).bdef_backbox_aidiff = t.bdef_backbox_aidiff := by
    intro t
    simp only [draw_gamesetup]
    split_ifs <;> rfl
  have h2 : ∀ t : State, (draw_players t).bdef_backbox_aidiff.w =
      if is_menuvisible t MENU_PLAYERS = true ∧ t.global_showsecond = true then
        (if t.bdef_backbox_aidiff.w < 32 then 32 else t.bdef_backbox_aidiff.w)
      else t.bdef_backbox_aidiff.w := by
    intro t
    simp only [draw_players]
    by_cases hv : is_menuvisible t MENU_PLAYERS = true
    · by_cases hs : t.global_showsecond = true
      · simp [hv, hs, drawbox_w]
      · simp [hv, hs]
    · simp [hv]
  have h1 : ∀ t : State, (draw_mode t).bdef_backbox_aidiff = t.bdef_backbox_aidiff ∧
      (draw_mode t).global_showsecond = t.global_showsecond ∧
      is_menuvisible (draw_mode t) MENU_PLAYERS = is_menuvisible t MENU_PLAYERS := by
    intro t
    simp only [draw_mode]
    split_ifs
    · exact ⟨rfl, rfl, is_menuvisible_congr _ _ _ rfl rfl⟩
    · exact ⟨rfl, rfl, rfl⟩
  rw [setup_draw_blocks, h4, h3, h2, (h1 _).1, (h1 _).2.1, (h1 _).2.2,
    is_menuvisible_congr { s with global_backtime := s.global_backtime + deltatime } s _ rfl rfl]

/-- The width of the AI-difficulty box after a whole frame: it moves only
while the `MENU_PLAYERS` box is visible and `global_showsecond` is set, by
one step toward 128 followed by the clamp of `drawbox`. -/
theorem setup_loop_aidiff_w (m : Libm) (s s' : State) (inp : Input) (deltatime : ℚ)
    (h : setup_loop m s inp deltatime = some s') :
    ∃ s1 maxselect, handle_controls s inp deltatime = some (s1, maxselect) ∧
      s'.bdef_backbox_aidiff.w =
        if is_menuvisible s1 MENU_PLAYERS = true ∧ s1.global_showsecond = true then
          (if f2i (lerp s.bdef_backbox_aidiff.w 128 (10 * deltatime)) < 32 then 32
            else f2i (lerp s.bdef_backbox_aidiff.w 128 (10 * deltatime)))
        else s.bdef_backbox_aidiff.w := by
  simp only [setup_loop] at h
  obtain ⟨r, hr, h2⟩ := Option.bind_eq_some.mp h
  obtain ⟨s2, hs2, hd⟩ := Option.map_eq_some'.mp h2
  subst hd
  obtain ⟨a1, a2, a3, a4, a5, a6, a7, a8, a9, a10⟩ := handle_cursor_frame _ _ _ _ hs2
  refine ⟨r.1, r.2, hr, ?_⟩
  have hv : is_menuvisible s2 MENU_PLAYERS = is_menuvisible r.1 MENU_PLAYERS :=
    is_menuvisible_congr _ _ _ (by rw [a2]; simp) (by rw [a1]; simp)
  have hs : s2.global_showsecond = r.1.global_showsecond := by rw [a7]; simp
  rw [setup_draw_aidiff_w, hv, hs, handle_cursor_aidiff _ _ _ _ hs2,
    handle_animations_aidiff_w, handle_controls_aidiff _ _ _ _ hr]
  split_ifs <;> rfl

/-! ### Phase 2 of `MENU_PLAYERS` under frames with `10*deltatime` in `[0, 1]` -/

/-- When the switch leaves the menu in phase 2 of `MENU_PLAYERS`, either this
frame's hold fired in phase 1 (the selection is then 1 and the cursor
inactive), or the menu was in phase 2 already and nothing but the opening
gate ran. -/
theorem handle_controls_phase2 (s s1 : State) (inp : Input) (deltatime : ℚ) (maxselect : Int)
    (h : handle_controls s inp deltatime = some (s1, maxselect))
    (hm : s1.global_curmenu = MENU_PLAYERS) (hs : s1.global_showsecond = true) :
    s.global_curmenu = MENU_PLAYERS ∧ maxselect = 0 ∧
    ((s.global_showsecond = false ∧ (players_gate s).global_cursoractive = true ∧
        s1.global_selection = 1 ∧ s1.global_cursoractive = false ∧
        s1.global_transition = (players_gate s).global_transition) ∨
      (s.global_showsecond = true ∧ s1 = players_gate s)) := by
  have hmenu := handle_controls_menu s inp deltatime (s1, maxselect) h
  unfold handle_controls at h
  cases hm0 : s.global_curmenu <;> simp only [hm0] at h
  · rw [hm0] at hmenu
    simp only [hm, menu_index] at hmenu
    omega
  · split_ifs at h
    · obtain ⟨b, -, hb⟩ := Option.map_eq_some'.mp h
      cases hb
      simp only [mode_press] at hm hs
      split_ifs at hm hs
      rw [hm0] at hm
      cases hm
    · cases h
      rw [hm0] at hm
      cases hm
  · obtain ⟨s2, h1, hb⟩ := Option.map_eq_some'.mp h
    cases hb
    refine ⟨rfl, rfl, ?_⟩
    simp only [menu_players] at h1
    split_ifs at h1 with hact
    · rcases players_active_cases _ _ _ _ h1 with
        ⟨a1, -, -, -, -, -, a7⟩ | ⟨-, -, b3, -⟩ | ⟨c1, c2⟩ | ⟨-, -, d3, -⟩
      · rcases a7 with ⟨-, -, e3, e4, e5⟩ | ⟨e1, -⟩
        · refine Or.inl ⟨?_, hact, e3, e4, e5⟩
          simpa using a1
        · rw [e1] at hm
          cases hm
      · rw [b3] at hs
        cases hs
      · refine Or.inr ⟨?_, c2⟩
        simpa using c1
      · rw [d3] at hm
        cases hm
    · cases h1
      refine Or.inr ⟨?_, rfl⟩
      simpa using hs
  · rw [hm0] at hmenu
    simp only [hm, menu_index] at hmenu
    omega
  · rw [hm0] at hmenu
    simp only [hm, menu_index] at hmenu
    omega

/-- The selection a whole frame leaves: that of the cursor block when the
cursor is active there, else that of the switch. -/
theorem setup_loop_selection (m : Libm) (s s' : State) (inp : Input) (deltatime : ℚ)
    (h : setup_loop m s inp deltatime = some s') :
    ∃ s1 maxselect, handle_controls s inp deltatime = some (s1, maxselect) ∧
      s'.global_selection =
        (if (handle_animations m s1 maxselect deltatime).1.global_cursoractive = true then
          (cursor_move (handle_animations m s1 maxselect deltatime).1
            (inp.joypad_get_buttons_pressed s1.global_firstport)
            (handle_animations m s1 maxselect deltatime).2).global_selection
        else s1.global_selection) := by
  obtain ⟨s1, ms, hc, -, -, -, -, -, -, -, -, -, -, hv⟩ := setup_loop_frame m s s' inp deltatime h
  have hok : valid_port s1 ∨
      (handle_animations m s1 ms deltatime).1.global_cursoractive = false := by
    by_cases hact : (handle_animations m s1 ms deltatime).1.global_cursoractive = true
    · exact Or.inl (hv hact)
    · exact Or.inr (by simpa using hact)
  obtain ⟨s'', h'', -, -, -, -, -, -, -, -, -, -, hsel⟩ :=
    setup_loop_of_controls m s s1 inp deltatime ms hc hok
  rw [h] at h''
  cases h''
  exact ⟨s1, ms, hc, hsel⟩

/-- Under a frame with `10*deltatime` in `[0, 1]`, the width of the
AI-difficulty box stays in `0..128` and does not decrease. -/
theorem setup_loop_aidiff_mono (m : Libm) (s s' : State) (inp : Input) (deltatime : ℚ)
    (hd : slow_frame deltatime)
    (hw : 0 ≤ s.bdef_backbox_aidiff.w ∧ s.bdef_backbox_aidiff.w ≤ 128)
    (h : setup_loop m s inp deltatime = some s') :
    s.bdef_backbox_aidiff.w ≤ s'.bdef_backbox_aidiff.w ∧ s'.bdef_backbox_aidiff.w ≤ 128 := by
  obtain ⟨s1, ms, -, e⟩ := setup_loop_aidiff_w m s s' inp deltatime h
  have hb := f2i_lerp_width s.bdef_backbox_aidiff.w (10 * deltatime) hd.1 hd.2 hw.1 hw.2
  rw [e]
  split_ifs <;> omega

theorem aidifficulty_args_playercount (l : List SinkCall) (c : Int) :
    aidifficulty_args (l ++ [SinkCall.core_set_playercount c]) = aidifficulty_args l := by
  simp [aidifficulty_args, List.filterMap_append]

theorem aidifficulty_args_aidifficulty (l : List SinkCall) (c : Int) :
    aidifficulty_args (l ++ [SinkCall.core_set_aidifficulty c]) = aidifficulty_args l ++ [c] := by
  simp [aidifficulty_args, List.filterMap_append]

/-- A frame with `10*deltatime` in `[0, 1]` keeps the invariant. -/
theorem AiInv_setup_loop (m : Libm) (s s' : State) (inp : Input) (deltatime : ℚ)
    (hinv : Inv s) (hi : AiInv s) (hd : slow_frame deltatime)
    (h : setup_loop m s inp deltatime = some s') : AiInv s' := by
  obtain ⟨s1, ms, hc, f1, f2, -, -, -, f6, -, -, f9, f10, -⟩ :=
    setup_loop_frame m s s' inp deltatime h
  obtain ⟨s1', ms', hc', hsel⟩ := setup_loop_selection m s s' inp deltatime h
  rw [hc] at hc'
  cases hc'
  obtain ⟨s1', ms', hc', hwid⟩ := setup_loop_aidiff_w m s s' inp deltatime h
  rw [hc] at hc'
  cases hc'
  have hmono := setup_loop_aidiff_mono m s s' inp deltatime hd hi.width h
  have hb := f2i_lerp_width s.bdef_backbox_aidiff.w (10 * deltatime) hd.1 hd.2
    hi.width.1 hi.width.2
  have hphase : s1.global_curmenu = MENU_PLAYERS → s1.global_showsecond = true →
      ms = 0 ∧ s1.global_transition = TRANS_NONE ∧
      (0 ≤ s1.global_selection ∧ s1.global_selection ≤ 2) ∧
      (s1.global_cursoractive = true → 100 < s.bdef_backbox_aidiff.w) := by
    intro hm hs
    obtain ⟨hm0, hms, hcase | hcase⟩ := handle_controls_phase2 s s1 inp deltatime ms hc hm hs
    · obtain ⟨-, g2, g3, g4, g5⟩ := hcase
      refine ⟨hms, ?_, ?_, ?_⟩
      · rw [g5]
        exact (gate_inv s hinv.cursor_none).1 g2
      · rw [g3]
        exact ⟨by decide, by decide⟩
      · intro hcur
        rw [g4] at hcur
        cases hcur
    · obtain ⟨g1, g2⟩ := hcase
      have hidle := hi.idle hm0 g1
      have hgate : players_gate s = s := by
        apply (players_gate_eq s).2
        intro hx
        rw [hidle] at hx
        cases hx.1
      rw [hgate] at g2
      subst g2
      exact ⟨hms, hidle, hi.selection hm0 g1, hi.wide hm0 g1⟩
  refine ⟨?_, ⟨le_trans hi.width.1 hmono.1, hmono.2⟩, ?_, ?_, ?_⟩
  · rw [f9]
    intro l hl
    rcases handle_controls_cases s inp deltatime (s1, ms) hc with
      ⟨q1, -⟩ | ⟨-, -, -, -, -, q6, -⟩ | ⟨p1, p2, -, -, -, -, p7⟩
    · rw [show s1.sink_calls = s.sink_calls from q1] at hl
      exact hi.levels l hl
    · rw [show s1.sink_calls = _ from q6, aidifficulty_args_playercount] at hl
      exact hi.levels l hl
    · rw [show s1.sink_calls = _ from p7, aidifficulty_args_aidifficulty,
        List.mem_append, List.mem_singleton] at hl
      rcases hl with hl | hl
      · exact hi.levels l hl
      · rw [hl]
        exact hi.selection p1 p2
  · intro hm hs
    rw [f2] at hm
    rw [f6] at hs
    rw [f1]
    exact (hphase hm hs).2.1
  · intro hm hs
    rw [f2] at hm
    rw [f6] at hs
    obtain ⟨hms, htr, hs1, hwide⟩ := hphase hm hs
    obtain ⟨c1, c2⟩ := handle_animations_cursor m s1 ms deltatime
    rw [handle_controls_aidiff s inp deltatime (s1, ms) hc] at c1 c2
    rw [hsel, cursor_move_selection]
    simp only [handle_animations_frame]
    by_cases hK : f2i (lerp s.bdef_backbox_aidiff.w 128 (10 * deltatime)) > 100
    · have h3 : (handle_animations m s1 ms deltatime).2 = 3 := by
        rw [c2]
        exact if_pos ⟨hm, hs, hK, htr⟩
      rw [h3]
      split_ifs <;> omega
    · have hcur : (handle_animations m s1 ms deltatime).1.global_cursoractive =
          s1.global_cursoractive := by
        rw [c1, if_neg (fun hx => hK hx.2.2.1)]
      rw [hcur]
      by_cases hact : s1.global_cursoractive = true
      · have := hwide hact
        omega
      · rw [if_neg hact]
        exact hs1
  · intro hm hs hact
    rw [f2] at hm
    rw [f6] at hs
    obtain ⟨hms, htr, hs1, hwide⟩ := hphase hm hs
    obtain ⟨c1, -⟩ := handle_animations_cursor m s1 ms deltatime
    rw [handle_controls_aidiff s inp deltatime (s1, ms) hc] at c1
    have hvis : is_menuvisible s1 MENU_PLAYERS = true := by simp [is_menuvisible, hm]
    rw [hwid, if_pos ⟨hvis, hs⟩]
    have hK : f2i (lerp s.bdef_backbox_aidiff.w 128 (10 * deltatime)) > 100 := by
      by_contra hK
      rw [f10, c1, if_neg (fun hx => hK hx.2.2.1)] at hact
      have := hwide hact
      omega
    split_ifs <;> omega

/-- The state left by `setup_init` satisfies the invariant. -/
theorem AiInv_setup_init (c : Int → Bool) (b : Bool) (fx fy cx cy : Int) :
    AiInv (setup_init c b fx fy cx cy) :=
  ⟨by simp [setup_init, aidifficulty_args], by simp [setup_init], by simp [setup_init],
    by simp [setup_init], by simp [setup_init]⟩

/-- A run of frames with `10*deltatime` in `[0, 1]` keeps the invariant. -/
theorem AiInv_run (m : Libm) (frames : List Frame) (s s' : State) (hinv : Inv s) (hi : AiInv s)
    (hd : ∀ f ∈ frames, slow_frame f.deltatime)
    (h : run m s frames = some s') : AiInv s' := by
  induction frames generalizing s with
  | nil =>
    simp only [run] at h
    cases h
    exact hi
  | cons f fs ih =>
    simp only [run] at h
    obtain ⟨s1, h1, h2⟩ := Option.bind_eq_some.mp h
    exact ih s1 (Inv_setup_loop m s s1 f.input f.deltatime hinv h1)
      (AiInv_setup_loop m s s1 f.input f.deltatime hinv hi
        (hd f (List.mem_cons_self _ _)) h1)
      (fun g hg => hd g (List.mem_cons_of_mem _ hg)) h2

/-- The switch of the frame that enters phase 2 sets the selection to 1 and
leaves the cursor inactive. -/
theorem phase2_entry (s s1 : State) (inp : Input) (deltatime : ℚ) (maxselect : Int)
    (hc : handle_controls s inp deltatime = some (s1, maxselect))
    (hs : s.global_showsecond = false)
    (hm1 : s1.global_curmenu = MENU_PLAYERS) (hs1 : s1.global_showsecond = true) :
    s1.global_selection = 1 ∧ s1.global_cursoractive = false := by
  obtain ⟨-, -, hcase | hcase⟩ := handle_controls_phase2 s s1 inp deltatime maxselect hc hm1 hs1
  · exact ⟨hcase.2.2.1, hcase.2.2.2.1⟩
  · rw [hs] at hcase
    cases hcase.1

/-- Once the cursor is active in phase 2, a frame with `10*deltatime` in
`[0, 1]` that stays in phase 2 reaches the cursor block with the cursor active
and `maxselect` equal to 3. -/
theorem phase2_maxselect (m : Libm) (s s1 : State) (inp : Input) (deltatime : ℚ)
    (maxselect : Int) (hi : AiInv s) (hd : slow_frame deltatime)
    (hc : handle_controls s inp deltatime = some (s1, maxselect))
    (hm : s.global_curmenu = MENU_PLAYERS) (hs : s.global_showsecond = true)
    (hact : s.global_cursoractive = true)
    (hm1 : s1.global_curmenu = MENU_PLAYERS) (hs1 : s1.global_showsecond = true) :
    (handle_animations m s1 maxselect deltatime).1.global_cursoractive = true ∧
      (handle_animations m s1 maxselect deltatime).2 = 3 := by
  have hb := f2i_lerp_width s.bdef_backbox_aidiff.w (10 * deltatime) hd.1 hd.2
    hi.width.1 hi.width.2
  have hwide := hi.wide hm hs hact
  have hidle := hi.idle hm hs
  obtain ⟨-, -, hcase | hcase⟩ := handle_controls_phase2 s s1 inp deltatime maxselect hc hm1 hs1
  · rw [hs] at hcase
    cases hcase.1
  · have hgate : players_gate s = s := by
      apply (players_gate_eq s).2
      intro hx
      rw [hidle] at hx
      cases hx.1
    obtain ⟨-, g2⟩ := hcase
    rw [hgate] at g2
    subst g2
    obtain ⟨c1, c2⟩ := handle_animations_cursor m s1 maxselect deltatime
    have hK : f2i (lerp s1.bdef_backbox_aidiff.w 128 (10 * deltatime)) > 100 := by omega
    rw [c1, c2, if_pos ⟨hm, hs, hK, hidle⟩, if_pos ⟨hm, hs, hK, hidle⟩]
    exact ⟨rfl, rfl⟩

/-- The switch of the phase-2 frame that leaves for `MENU_GAMESETUP` passes
the selection to `core_set_aidifficulty`. -/
theorem phase2_press (s s1 : State) (inp : Input) (deltatime : ℚ) (maxselect : Int)
    (hc : handle_controls s inp deltatime = some (s1, maxselect))
    (hm : s.global_curmenu = MENU_PLAYERS) (hs : s.global_showsecond = true)
    (hm1 : s1.global_curmenu = MENU_GAMESETUP) :
    s1.sink_calls = s.sink_calls ++ [SinkCall.core_set_aidifficulty s.global_selection] := by
  rcases handle_controls_cases s inp deltatime (s1, maxselect) hc with
    ⟨-, -, -, -, q5⟩ | ⟨-, q2, -⟩ | ⟨-, -, -, -, -, -, p7⟩
  · have := q5 hm
    rw [show s1.global_curmenu = MENU_GAMESETUP from hm1] at this
    cases this
  · rw [hs] at q2
    cases q2
  · exact p7

/-! ### A concrete run through phase 2 -/

theorem run_frames_slow : run libm_example state_init frames_slow = some state_slow := by
  have h : (run libm_example state_init frames_slow).isSome = true := by decide!
  obtain ⟨s, hs⟩ := Option.isSome_iff_exists.mp h
  simp only [state_slow, hs, Option.getD_some]

theorem frames_slow_slow : ∀ f ∈ frames_slow, slow_frame f.deltatime := by decide!

/-! ### The divisor of `drawfade` -/

/-- The difference of the two clamped times of `drawfade`: it rises from 0 to
1/2 on `[0, 1/2]`, falls back to 0 on `[1/2, 1]`, and is 0 elsewhere. -/
theorem clamp_diff (time : ℚ) :
    clamp time 0 (1 / 2) - clamp (time - 1 / 2) 0 (1 / 2) =
      if time < 0 then 0
      else if time ≤ 1 / 2 then time
      else if time ≤ 1 then 1 - time
      else 0 := by
  simp only [clamp]
  split_ifs <;> linarith

/-- The argument of `sqrt` is the square of that difference, scaled. -/
theorem drawfade_squares_eq (time : ℚ) :
    drawfade_squares time =
      640000 * (clamp time 0 (1 / 2) - clamp (time - 1 / 2) 0 (1 / 2)) ^ 2 := by
  simp only [drawfade_squares, perpendicularx1, perpendicularx2, perpendiculary1,
    perpendiculary2]
  ring

/-- The argument of `sqrt` is positive exactly strictly inside `(0, 1)`. -/
theorem drawfade_squares_pos_iff (time : ℚ) :
    0 < drawfade_squares time ↔ 0 < time ∧ time < 1 := by
  rw [drawfade_squares_eq, clamp_diff]
  split_ifs with h1 h2 h3
  · constructor
    · intro h
      norm_num at h
    · intro h
      linarith [h.1]
  · constructor
    · intro h
      have hne : time ≠ 0 := by
        intro h0
        rw [h0] at h
        norm_num at h
      exact ⟨lt_of_le_of_ne (not_lt.mp h1) (Ne.symm hne), by linarith⟩
    · intro h
      have := pow_pos h.1 2
      linarith
  · constructor
    · intro h
      have hne : time ≠ 1 := by
        intro h0
        rw [h0] at h
        norm_num at h
      exact ⟨by linarith, lt_of_le_of_ne h3 hne⟩
    · intro h
      have : 0 < (1 - time) ^ 2 := pow_pos (by linarith [h.2]) 2
      linarith
  · constructor
    · intro h
      norm_num at h
    · intro h
      linarith [h.2]

/-- At both ends of `[0, 1]` the argument of `sqrt` is 0. -/
theorem drawfade_squares_ends : drawfade_squares 0 = 0 ∧ drawfade_squares 1 = 0 := by
  constructor <;>
    (rw [drawfade_squares_eq, clamp_diff]
     norm_num)

/-- A block faults exactly when the divisor is 0. -/
theorem drawfade_block_none_iff (m : Libm) (time : ℚ) (x y : Int) :
    drawfade_block m time x y = none ↔ m.sqrt (drawfade_squares time) = 0 := by
  simp only [drawfade_block]
  split_ifs with h1 h2
  · exact ⟨fun _ => h1, fun _ => rfl⟩
  · exact ⟨fun h => False.elim h, fun h => absurd h h1⟩
  · exact ⟨fun h => False.elim h, fun h => absurd h h1⟩

/-- The block loop faults exactly when there is a block and the divisor is 0. -/
theorem drawfade_blocks_none_iff (m : Libm) (time : ℚ) (l : List (Nat × Nat)) :
    drawfade_blocks m time l = none ↔ l ≠ [] ∧ m.sqrt (drawfade_squares time) = 0 := by
  induction l with
  | nil => simp [drawfade_blocks]
  | cons p rest ih =>
    obtain ⟨x, y⟩ := p
    by_cases hz : m.sqrt (drawfade_squares time) = 0
    · have hb := (drawfade_block_none_iff m time (x : Int) (y : Int)).mpr hz
      simp [drawfade_blocks, hb, hz]
    · have hb : drawfade_block m time (x : Int) (y : Int) ≠ none :=
        fun h => hz ((drawfade_block_none_iff m time (x : Int) (y : Int)).mp h)
      obtain ⟨r, hr⟩ := Option.ne_none_iff_exists'.mp hb
      have hrest : drawfade_blocks m time rest ≠ none := fun h => hz (ih.mp h).2
      obtain ⟨q, hq⟩ := Option.ne_none_iff_exists'.mp hrest
      simp [drawfade_blocks, hr, hq, hz]

/-- For a time in `[0, 1]`, which the two early returns let through,
`drawfade` faults exactly when the divisor is 0. -/
theorem drawfade_none_iff (m : Libm) (time : ℚ) (h0 : 0 ≤ time) (h1 : time ≤ 1) :
    drawfade m time = none ↔ m.sqrt (drawfade_squares time) = 0 := by
  have hne : drawfade_order ≠ [] := by decide
  simp only [drawfade, not_lt.mpr h1, not_lt.mpr h0, if_false, drawfade_blocks_none_iff, hne,
    ne_eq, not_false_eq_true, true_and]

/-! ### Conversions of `float` values in `hsv2rgb` -/

/-- Truncation of a non-negative value with integer part `k`. -/
theorem f2i_sector (k : Int) (f : ℚ) (hk : 0 ≤ k) (hf0 : 0 ≤ f) (hf1 : f < 1) :
    f2i ((k : ℚ) + f) = k := by
  have hkq : (0 : ℚ) ≤ (k : ℚ) := by exact_mod_cast hk
  rw [f2i_of_nonneg _ (by linarith)]
  show ⌊(k : ℚ) + f⌋ = k
  rw [Int.floor_eq_iff]
  constructor <;> linarith

/-- A channel value converts back to the `uint8_t` it came from. -/
theorem f2u8_channel (R : Int) (h0 : 0 ≤ R) (h1 : R ≤ 255) (x : ℚ) (hx : x = (R : ℚ) / 255) :
    f2u8 (x * 255) = R := by
  have hx2 : x * 255 = (R : ℚ) + 0 := by
    rw [hx]
    field_simp
  rw [f2u8, hx2, f2i_sector R 0 h0 le_rfl (by norm_num)]
  exact Int.emod_eq_of_lt h0 (by omega)

theorem rgb2hsv_eq (rgb : color_t) :
    rgb2hsv rgb = rgb2hsv_float ((rgb.r : ℚ) / 255) ((rgb.g : ℚ) / 255) ((rgb.b : ℚ) / 255) :=
  rfl

theorem hsv2rgb_eq (hsv : hsv_t) :
    hsv2rgb hsv =
      ⟨f2u8 ((hsv2rgb_float hsv (f2i (hsv.h / 360 * 6))
          (hsv.h / 360 * 6 - ((f2i (hsv.h / 360 * 6) : Int) : ℚ))).1 * 255),
        f2u8 ((hsv2rgb_float hsv (f2i (hsv.h / 360 * 6))
          (hsv.h / 360 * 6 - ((f2i (hsv.h / 360 * 6) : Int) : ℚ))).2.1 * 255),
        f2u8 ((hsv2rgb_float hsv (f2i (hsv.h / 360 * 6))
          (hsv.h / 360 * 6 - ((f2i (hsv.h / 360 * 6) : Int) : ℚ))).2.2 * 255), 255⟩ :=
  rfl

/-- When the hue is `60 * (k + f)` with `k` a non-negative integer and `f` in
`[0, 1)`, the locals `i` and `f` of `hsv2rgb` are `k` and `f`. -/
theorem hsv2rgb_sector (hsv : hsv_t) (k : Int) (f : ℚ) (hk : 0 ≤ k) (hf0 : 0 ≤ f) (hf1 : f < 1)
    (hh : hsv.h = 60 * ((k : ℚ) + f)) :
    hsv2rgb hsv =
      ⟨f2u8 ((hsv2rgb_float hsv k f).1 * 255), f2u8 ((hsv2rgb_float hsv k f).2.1 * 255),
        f2u8 ((hsv2rgb_float hsv k f).2.2 * 255), 255⟩ := by
  have h6 : hsv.h / 360 * 6 = (k : ℚ) + f := by
    rw [hh]
    ring
  rw [hsv2rgb_eq, h6, f2i_sector k f hk hf0 hf1]
  have : (k : ℚ) + f - (k : ℚ) = f := by ring
  rw [this]

/-- The `switch` of `hsv2rgb` sees `i` modulo 6. -/
theorem hsv2rgb_float_add_six (hsv : hsv_t) (k : Int) (f : ℚ) (hk : 0 ≤ k) :
    hsv2rgb_float hsv (k + 6) f = hsv2rgb_float hsv k f := by
  have : Int.tmod (k + 6) 6 = Int.tmod k 6 := by
    rw [Int.tmod_eq_emod (by omega) (by norm_num), Int.tmod_eq_emod hk (by norm_num)]
    omega
  simp only [hsv2rgb_float, this]

/-! ### The six sectors of the hue -/

/-- A grey colour has hue 0 and comes back through sector 0. -/
theorem rgb2hsv_float_grey (v : ℚ) :
    (rgb2hsv_float v v v).h = 60 * (((0 : Int) : ℚ) + 0) ∧
      hsv2rgb_float (rgb2hsv_float v v v) 0 0 = (v, v, v) := by
  simp [rgb2hsv_float, hsv2rgb_float]

/-- Red is the maximum, blue the minimum, green below red: sector 0. -/
theorem rgb2hsv_float_sector0 (r g b : ℚ) (hb : 0 ≤ b) (hbg : b ≤ g) (hgr : g < r) :
    (0 ≤ (g - b) / (r - b) ∧ (g - b) / (r - b) < 1) ∧
      (rgb2hsv_float r g b).h = 60 * (((0 : Int) : ℚ) + ((g - b) / (r - b))) ∧
      hsv2rgb_float (rgb2hsv_float r g b) 0 ((g - b) / (r - b)) = (r, g, b) := by
  have hM : Max.max (Max.max r g) b = r :=
    le_antisymm (max_le (max_le (by linarith) (by linarith)) (by linarith))
      (le_max_of_le_left (le_max_left _ _))
  have hm : Min.min (Min.min r g) b = b :=
    le_antisymm (min_le_right _ _)
      (le_min (le_min (by linarith) (by linarith)) (by linarith))
  have hcp : 0 < r - b := by linarith
  have hc : r - b ≠ 0 := ne_of_gt hcp
  have hM0 : r ≠ 0 := by
    intro h
    linarith
  have hq0 : 0 ≤ (g - b) / (r - b) := by
    rw [le_div_iff₀ hcp]
    linarith
  have hq1 : (g - b) / (r - b) < 1 := by
    rw [div_lt_iff₀ hcp]
    linarith
  have hsign : ¬ ((g - b) / (r - b) + 0) * 60 < 0 := by
    intro h
    linarith
  refine ⟨⟨by linarith, by linarith⟩, ?_, ?_⟩
  · simp only [rgb2hsv_float, hM, hm]
    simp only [ne_eq, hc, not_false_eq_true, if_true, hM0, hsign, if_false]
    push_cast
    ring
  · simp only [rgb2hsv_float, hsv2rgb_float, hM, hm]
    simp only [ne_eq, hc, not_false_eq_true, if_true, hM0, hsign, if_false]
    rw [if_pos (show Int.tmod 0 6 = 0 by decide)]
    refine Prod.ext ?_ (Prod.ext ?_ ?_) <;> simp only [] <;>
      first
        | rfl
        | field_simp

/-- Red and green are the maximum, blue below: the start of sector 1. -/
theorem rgb2hsv_float_sector1_top (r b : ℚ) (hb : 0 ≤ b) (hbr : b < r) :
    ((0 : ℚ) ≤ 0 ∧ (0 : ℚ) < 1) ∧
      (rgb2hsv_float r r b).h = 60 * (((1 : Int) : ℚ) + (0)) ∧
      hsv2rgb_float (rgb2hsv_float r r b) 1 (0) = (r, r, b) := by
  have hM : Max.max (Max.max r r) b = r :=
    le_antisymm (max_le (max_le (by linarith) (by linarith)) (by linarith))
      (le_max_of_le_left (le_max_left _ _))
  have hm : Min.min (Min.min r r) b = b :=
    le_antisymm (min_le_right _ _)
      (le_min (le_min (by linarith) (by linarith)) (by linarith))
  have hcp : 0 < r - b := by linarith
  have hc : r - b ≠ 0 := ne_of_gt hcp
  have hM0 : r ≠ 0 := by
    intro h
    linarith
  have hq : (r - b) / (r - b) = 1 := div_self hc
  have hsign : ¬ ((r - b) / (r - b) + 0) * 60 < 0 := by
    rw [hq]
    norm_num
  refine ⟨⟨le_refl 0, by norm_num⟩, ?_, ?_⟩
  · simp only [rgb2hsv_float, hM, hm]
    simp only [ne_eq, hc, not_false_eq_true, if_true, hM0, hsign, if_false]
    rw [hq]
    push_cast
    ring
  · simp only [rgb2hsv_float, hsv2rgb_float, hM, hm]
    simp only [ne_eq, hc, not_false_eq_true, if_true, hM0, hsign, if_false]
    rw [if_neg (show ¬ Int.tmod 1 6 = 0 by decide), if_pos (show Int.tmod 1 6 = 1 by decide)]
    refine Prod.ext ?_ (Prod.ext ?_ ?_) <;> simp only [] <;>
      first
        | rfl
        | field_simp

/-- Red is the maximum, green the minimum, blue above green: sector 5. -/
theorem rgb2hsv_float_sector5 (r g b : ℚ) (hg : 0 ≤ g) (hgb : g < b) (hbr : b ≤ r) :
    (0 ≤ (g - b) / (r - g) + 1 ∧ (g - b) / (r - g) + 1 < 1) ∧
      (rgb2hsv_float r g b).h = 60 * (((5 : Int) : ℚ) + ((g - b) / (r - g) + 1)) ∧
      hsv2rgb_float (rgb2hsv_float r g b) 5 ((g - b) / (r - g) + 1) = (r, g, b) := by
  have hM : Max.max (Max.max r g) b = r :=
    le_antisymm (max_le (max_le (by linarith) (by linarith)) (by linarith))
      (le_max_of_le_left (le_max_left _ _))
  have hm : Min.min (Min.min r g) b = g :=
    le_antisymm (min_le_of_left_le (min_le_right _ _))
      (le_min (le_min (by linarith) (by linarith)) (by linarith))
  have hcp : 0 < r - g := by linarith
  have hc : r - g ≠ 0 := ne_of_gt hcp
  have hM0 : r ≠ 0 := by
    intro h
    linarith
  have hq0 : -1 ≤ (g - b) / (r - g) := by
    rw [le_div_iff₀ hcp]
    linarith
  have hq1 : (g - b) / (r - g) < 0 := by
    rw [div_lt_iff₀ hcp]
    linarith
  have hsign : ((g - b) / (r - g) + 0) * 60 < 0 := by
    linarith
  refine ⟨⟨by linarith, by linarith⟩, ?_, ?_⟩
  · simp only [rgb2hsv_float, hM, hm]
    simp only [ne_eq, hc, not_false_eq_true, if_true, hM0, hsign, if_false]
    push_cast
    ring
  · simp only [rgb2hsv_float, hsv2rgb_float, hM, hm]
    simp only [ne_eq, hc, not_false_eq_true, if_true, hM0, hsign, if_false]
    rw [if_neg (show ¬ Int.tmod 5 6 = 0 by decide), if_neg (show ¬ Int.tmod 5 6 = 1 by decide), if_neg (show ¬ Int.tmod 5 6 = 2 by decide), if_neg (show ¬ Int.tmod 5 6 = 3 by decide), if_neg (show ¬ Int.tmod 5 6 = 4 by decide)]
    refine Prod.ext ?_ (Prod.ext ?_ ?_) <;> simp only [] <;>
      first
        | rfl
        | field_simp

/-- Green is the maximum, red the minimum, blue below green: sector 2. -/
theorem rgb2hsv_float_sector2 (r g b : ℚ) (hr : 0 ≤ r) (hrb : r ≤ b) (hbg : b < g) :
    (0 ≤ (b - r) / (g - r) ∧ (b - r) / (g - r) < 1) ∧
      (rgb2hsv_float r g b).h = 60 * (((2 : Int) : ℚ) + ((b - r) / (g - r))) ∧
      hsv2rgb_float (rgb2hsv_float r g b) 2 ((b - r) / (g - r)) = (r, g, b) := by
  have hM : Max.max (Max.max r g) b = g :=
    le_antisymm (max_le (max_le (by linarith) (by linarith)) (by linarith))
      (le_max_of_le_left (le_max_right _ _))
  have hm : Min.min (Min.min r g) b = r :=
    le_antisymm (min_le_of_left_le (min_le_left _ _))
      (le_min (le_min (by linarith) (by linarith)) (by linarith))
  have hcp : 0 < g - r := by linarith
  have hc : g - r ≠ 0 := ne_of_gt hcp
  have hM0 : g ≠ 0 := by
    intro h
    linarith
  have hne0 : ¬ g = r := by
    intro h
    linarith
  have hq0 : 0 ≤ (b - r) / (g - r) := by
    rw [le_div_iff₀ hcp]
    linarith
  have hq1 : (b - r) / (g - r) < 1 := by
    rw [div_lt_iff₀ hcp]
    linarith
  have hsign : ¬ ((b - r) / (g - r) + 2) * 60 < 0 := by
    intro h
    linarith
  refine ⟨⟨by linarith, by linarith⟩, ?_, ?_⟩
  · simp only [rgb2hsv_float, hM, hm]
    simp only [ne_eq, hc, not_false_eq_true, if_true, hM0, hsign, if_false, hne0]
    push_cast
    ring
  · simp only [rgb2hsv_float, hsv2rgb_float, hM, hm]
    simp only [ne_eq, hc, not_false_eq_true, if_true, hM0, hsign, if_false, hne0]
    rw [if_neg (show ¬ Int.tmod 2 6 = 0 by decide), if_neg (show ¬ Int.tmod 2 6 = 1 by decide), if_pos (show Int.tmod 2 6 = 2 by decide)]
    refine Prod.ext ?_ (Prod.ext ?_ ?_) <;> simp only [] <;>
      first
        | rfl
        | field_simp

/-- Green and blue are the maximum, red below: the start of sector 3. -/
theorem rgb2hsv_float_sector3_top (r g : ℚ) (hr : 0 ≤ r) (hrg : r < g) :
    ((0 : ℚ) ≤ 0 ∧ (0 : ℚ) < 1) ∧
      (rgb2hsv_float r g g).h = 60 * (((3 : Int) : ℚ) + (0)) ∧
      hsv2rgb_float (rgb2hsv_float r g g) 3 (0) = (r, g, g) := by
  have hM : Max.max (Max.max r g) g = g :=
    le_antisymm (max_le (max_le (by linarith) (by linarith)) (by linarith))
      (le_max_of_le_left (le_max_right _ _))
  have hm : Min.min (Min.min r g) g = r :=
    le_antisymm (min_le_of_left_le (min_le_left _ _))
      (le_min (le_min (by linarith) (by linarith)) (by linarith))
  have hcp : 0 < g - r := by linarith
  have hc : g - r ≠ 0 := ne_of_gt hcp
  have hM0 : g ≠ 0 := by
    intro h
    linarith
  have hne0 : ¬ g = r := by
    intro h
    linarith
  have hq : (g - r) / (g - r) = 1 := div_self hc
  have hsign : ¬ ((g - r) / (g - r) + 2) * 60 < 0 := by
    rw [hq]
    norm_num
  refine ⟨⟨le_refl 0, by norm_num⟩, ?_, ?_⟩
  · simp only [rgb2hsv_float, hM, hm]
    simp only [ne_eq, hc, not_false_eq_true, if_true, hM0, hsign, if_false, hne0]
    rw [hq]
    push_cast
    ring
  · simp only [rgb2hsv_float, hsv2rgb_float, hM, hm]
    simp only [ne_eq, hc, not_false_eq_true, if_true, hM0, hsign, if_false, hne0]
    rw [if_neg (show ¬ Int.tmod 3 6 = 0 by decide), if_neg (show ¬ Int.tmod 3 6 = 1 by decide), if_neg (show ¬ Int.tmod 3 6 = 2 by decide), if_pos (show Int.tmod 3 6 = 3 by decide)]
    refine Prod.ext ?_ (Prod.ext ?_ ?_) <;> simp only [] <;>
      first
        | rfl
        | field_simp

/-- Green is the maximum, blue the minimum, red between: sector 1. -/
theorem rgb2hsv_float_sector1 (r g b : ℚ) (hb : 0 ≤ b) (hbr : b < r) (hrg : r < g) :
    (0 ≤ (b - r) / (g - b) + 1 ∧ (b - r) / (g - b) + 1 < 1) ∧
      (rgb2hsv_float r g b).h = 60 * (((1 : Int) : ℚ) + ((b - r) / (g - b) + 1)) ∧
      hsv2rgb_float (rgb2hsv_float r g b) 1 ((b - r) / (g - b) + 1) = (r, g, b) := by
  have hM : Max.max (Max.max r g) b = g :=
    le_antisymm (max_le (max_le (by linarith) (by linarith)) (by linarith))
      (le_max_of_le_left (le_max_right _ _))
  have hm : Min.min (Min.min r g) b = b :=
    le_antisymm (min_le_right _ _)
      (le_min (le_min (by linarith) (by linarith)) (by linarith))
  have hcp : 0 < g - b := by linarith
  have hc : g - b ≠ 0 := ne_of_gt hcp
  have hM0 : g ≠ 0 := by
    intro h
    linarith
  have hne0 : ¬ g = r := by
    intro h
    linarith
  have hq0 : -1 ≤ (b - r) / (g - b) := by
    rw [le_div_iff₀ hcp]
    linarith
  have hq1 : (b - r) / (g - b) < 0 := by
    rw [div_lt_iff₀ hcp]
    linarith
  have hsign : ¬ ((b - r) / (g - b) + 2) * 60 < 0 := by
    intro h
    linarith
  refine ⟨⟨by linarith, by linarith⟩, ?_, ?_⟩
  · simp only [rgb2hsv_float, hM, hm]
    simp only [ne_eq, hc, not_false_eq_true, if_true, hM0, hsign, if_false, hne0]
    push_cast
    ring
  · simp only [rgb2hsv_float, hsv2rgb_float, hM, hm]
    simp only [ne_eq, hc, not_false_eq_true, if_true, hM0, hsign, if_false, hne0]
    rw [if_neg (show ¬ Int.tmod 1 6 = 0 by decide), if_pos (show Int.tmod 1 6 = 1 by decide)]
    refine Prod.ext ?_ (Prod.ext ?_ ?_) <;> simp only [] <;>
      first
        | rfl
        | field_simp

/-- Blue is the maximum, green the minimum, red below blue: sector 4. -/
theorem rgb2hsv_float_sector4 (r g b : ℚ) (hg : 0 ≤ g) (hgr : g ≤ r) (hrb : r < b) :
    (0 ≤ (r - g) / (b - g) ∧ (r - g) / (b - g) < 1) ∧
      (rgb2hsv_float r g b).h = 60 * (((4 : Int) : ℚ) + ((r - g) / (b - g))) ∧
      hsv2rgb_float (rgb2hsv_float r g b) 4 ((r - g) / (b - g)) = (r, g, b) := by
  have hM : Max.max (Max.max r g) b = b :=
    le_antisymm (max_le (max_le (by linarith) (by linarith)) (by linarith))
      (le_max_right _ _)
  have hm : Min.min (Min.min r g) b = g :=
    le_antisymm (min_le_of_left_le (min_le_right _ _))
      (le_min (le_min (by linarith) (by linarith)) (by linarith))
  have hcp : 0 < b - g := by linarith
  have hc : b - g ≠ 0 := ne_of_gt hcp
  have hM0 : b ≠ 0 := by
    intro h
    linarith
  have hne0 : ¬ b = r := by
    intro h
    linarith
  have hne1 : ¬ b = g := by
    intro h
    linarith
  have hq0 : 0 ≤ (r - g) / (b - g) := by
    rw [le_div_iff₀ hcp]
    linarith
  have hq1 : (r - g) / (b - g) < 1 := by
    rw [div_lt_iff₀ hcp]
    linarith
  have hsign : ¬ ((r - g) / (b - g) + 4) * 60 < 0 := by
    intro h
    linarith
  refine ⟨⟨by linarith, by linarith⟩, ?_, ?_⟩
  · simp only [rgb2hsv_float, hM, hm]
    simp only [ne_eq, hc, not_false_eq_true, if_true, hM0, hsign, if_false, hne0, hne1]
    push_cast
    ring
  · simp only [rgb2hsv_float, hsv2rgb_float, hM, hm]
    simp only [ne_eq, hc, not_false_eq_true, if_true, hM0, hsign, if_false, hne0, hne1]
    rw [if_neg (show ¬ Int.tmod 4 6 = 0 by decide), if_neg (show ¬ Int.tmod 4 6 = 1 by decide), if_neg (show ¬ Int.tmod 4 6 = 2 by decide), if_neg (show ¬ Int.tmod 4 6 = 3 by decide), if_pos (show Int.tmod 4 6 = 4 by decide)]
    refine Prod.ext ?_ (Prod.ext ?_ ?_) <;> simp only [] <;>
      first
        | rfl
        | field_simp

/-- Blue is the maximum, red the minimum, green between: sector 3. -/
theorem rgb2hsv_float_sector3 (r g b : ℚ) (hr : 0 ≤ r) (hrg : r < g) (hgb : g < b) :
    (0 ≤ (r - g) / (b - r) + 1 ∧ (r - g) / (b - r) + 1 < 1) ∧
      (rgb2hsv_float r g b).h = 60 * (((3 : Int) : ℚ) + ((r - g) / (b - r) + 1)) ∧
      hsv2rgb_float (rgb2hsv_float r g b) 3 ((r - g) / (b - r) + 1) = (r, g, b) := by
  have hM : Max.max (Max.max r g) b = b :=
    le_antisymm (max_le (max_le (by linarith) (by linarith)) (by linarith))
      (le_max_right _ _)
  have hm : Min.min (Min.min r g) b = r :=
    le_antisymm (min_le_of_left_le (min_le_left _ _))
      (le_min (le_min (by linarith) (by linarith)) (by linarith))
  have hcp : 0 < b - r := by linarith
  have hc : b - r ≠ 0 := ne_of_gt hcp
  have hM0 : b ≠ 0 := by
    intro h
    linarith
  have hne0 : ¬ b = r := by
    intro h
    linarith
  have hne1 : ¬ b = g := by
    intro h
    linarith
  have hq0 : -1 ≤ (r - g) / (b - r) := by
    rw [le_div_iff₀ hcp]
    linarith
  have hq1 : (r - g) / (b - r) < 0 := by
    rw [div_lt_iff₀ hcp]
    linarith
  have hsign : ¬ ((r - g) / (b - r) + 4) * 60 < 0 := by
    intro h
    linarith
  refine ⟨⟨by linarith, by linarith⟩, ?_, ?_⟩
  · simp only [rgb2hsv_float, hM, hm]
    simp only [ne_eq, hc, not_false_eq_true, if_true, hM0, hsign, if_false, hne0, hne1]
    push_cast
    ring
  · simp only [rgb2hsv_float, hsv2rgb_float, hM, hm]
    simp only [ne_eq, hc, not_false_eq_true, if_true, hM0, hsign, if_false, hne0, hne1]
    rw [if_neg (show ¬ Int.tmod 3 6 = 0 by decide), if_neg (show ¬ Int.tmod 3 6 = 1 by decide), if_neg (show ¬ Int.tmod 3 6 = 2 by decide), if_pos (show Int.tmod 3 6 = 3 by decide)]
    refine Prod.ext ?_ (Prod.ext ?_ ?_) <;> simp only [] <;>
      first
        | rfl
        | field_simp

/-! ### The round trip through hue, saturation and value -/

/-- Every colour falls in one of the six sectors: the hue is `60 * (k + f)`
with `k` in `0..5` and `f` in `[0, 1)`, and the `switch` of `hsv2rgb` for that
`k` and `f` gives back the three channels. -/
theorem rgb2hsv_float_sector (r g b : ℚ) (hr : 0 ≤ r) (hg : 0 ≤ g) (hb : 0 ≤ b) :
    ∃ (k : Int) (f : ℚ), (0 ≤ k ∧ k ≤ 5) ∧ (0 ≤ f ∧ f < 1) ∧
      (rgb2hsv_float r g b).h = 60 * ((k : ℚ) + f) ∧
      hsv2rgb_float (rgb2hsv_float r g b) k f = (r, g, b) := by
  rcases lt_trichotomy g r with hgr | hgr | hgr
  · by_cases hbg : b ≤ g
    · exact ⟨0, _, by decide, rgb2hsv_float_sector0 r g b hb hbg hgr⟩
    · by_cases hbr : b ≤ r
      · exact ⟨5, _, by decide, rgb2hsv_float_sector5 r g b hg (lt_of_not_le hbg) hbr⟩
      · exact ⟨4, _, by decide, rgb2hsv_float_sector4 r g b hg hgr.le (lt_of_not_le hbr)⟩
  · subst hgr
    rcases lt_trichotomy b g with hbg | hbg | hbg
    · exact ⟨1, _, by decide, rgb2hsv_float_sector1_top g b hb hbg⟩
    · subst hbg
      exact ⟨0, 0, by decide, by norm_num, rgb2hsv_float_grey b⟩
    · exact ⟨4, _, by decide, rgb2hsv_float_sector4 g g b hg le_rfl hbg⟩
  · rcases lt_trichotomy b g with hbg | hbg | hbg
    · by_cases hrb : r ≤ b
      · exact ⟨2, _, by decide, rgb2hsv_float_sector2 r g b hr hrb hbg⟩
      · exact ⟨1, _, by decide, rgb2hsv_float_sector1 r g b hb (lt_of_not_le hrb) hgr⟩
    · subst hbg
      exact ⟨3, _, by decide, rgb2hsv_float_sector3_top r b hr hgr⟩
    · exact ⟨3, _, by decide, rgb2hsv_float_sector3 r g b hr hgr hbg⟩

/-- Saturation and value of channels in `[0, 1]` are in `[0, 1]`. -/
theorem rgb2hsv_float_range (r g b : ℚ) (hr : 0 ≤ r ∧ r ≤ 1) (hg : 0 ≤ g ∧ g ≤ 1)
    (hb : 0 ≤ b ∧ b ≤ 1) :
    (0 ≤ (rgb2hsv_float r g b).s ∧ (rgb2hsv_float r g b).s ≤ 1) ∧
      (0 ≤ (rgb2hsv_float r g b).v ∧ (rgb2hsv_float r g b).v ≤ 1) := by
  have hM0 : 0 ≤ Max.max (Max.max r g) b := le_max_of_le_right hb.1
  have hM1 : Max.max (Max.max r g) b ≤ 1 := max_le (max_le hr.2 hg.2) hb.2
  have hm0 : 0 ≤ Min.min (Min.min r g) b := le_min (le_min hr.1 hg.1) hb.1
  have hmM : Min.min (Min.min r g) b ≤ Max.max (Max.max r g) b :=
    le_trans (min_le_right _ _) (le_max_right _ _)
  refine ⟨?_, hM0, hM1⟩
  simp only [rgb2hsv_float]
  split_ifs with hz
  · have hpos : 0 < Max.max (Max.max r g) b := lt_of_le_of_ne hM0 (Ne.symm hz)
    constructor
    · exact div_nonneg (by linarith) hM0
    · rw [div_le_one hpos]
      linarith
  · exact ⟨le_rfl, by norm_num⟩

/-- The channels of a valid colour, divided by 255, are in `[0, 1]`. -/
theorem channel_range (R : Int) (h : 0 ≤ R ∧ R ≤ 255) :
    0 ≤ (R : ℚ) / 255 ∧ (R : ℚ) / 255 ≤ 1 := by
  have h0 : (0 : ℚ) ≤ (R : ℚ) := by exact_mod_cast h.1
  have h1 : (R : ℚ) ≤ 255 := by exact_mod_cast h.2
  constructor
  · positivity
  · rw [div_le_one (by norm_num)]
    exact h1

/-- The hue, the saturation and the value of a valid colour are in range. -/
theorem rgb2hsv_range (c : color_t) (hv : c.valid) :
    (0 ≤ (rgb2hsv c).h ∧ (rgb2hsv c).h < 360) ∧
      (0 ≤ (rgb2hsv c).s ∧ (rgb2hsv c).s ≤ 1) ∧
      (0 ≤ (rgb2hsv c).v ∧ (rgb2hsv c).v ≤ 1) := by
  obtain ⟨hr, hg, hb⟩ := hv
  have qr := channel_range c.r hr
  have qg := channel_range c.g hg
  have qb := channel_range c.b hb
  rw [rgb2hsv_eq]
  obtain ⟨k, f, ⟨hk0, hk5⟩, ⟨hf0, hf1⟩, hh, -⟩ := rgb2hsv_float_sector _ _ _ qr.1 qg.1 qb.1
  refine ⟨?_, rgb2hsv_float_range _ _ _ qr qg qb⟩
  have hk0q : (0 : ℚ) ≤ (k : ℚ) := by exact_mod_cast hk0
  have hk5q : (k : ℚ) ≤ 5 := by exact_mod_cast hk5
  rw [hh]
  constructor <;> linarith

/-- With the saturation and the value of a valid colour `c`, and a hue that is
the hue of `c` or a whole turn more, `hsv2rgb` gives the channels of `c`. -/
theorem hsv2rgb_of_hue (c : color_t) (hv : c.valid) (h : ℚ)
    (hh : h = (rgb2hsv c).h ∨ h = (rgb2hsv c).h + 360) :
    hsv2rgb ⟨h, (rgb2hsv c).s, (rgb2hsv c).v⟩ = ⟨c.r, c.g, c.b, 255⟩ := by
  obtain ⟨hr, hg, hb⟩ := hv
  have qr := channel_range c.r hr
  have qg := channel_range c.g hg
  have qb := channel_range c.b hb
  obtain ⟨k, f, ⟨hk0, hk5⟩, ⟨hf0, hf1⟩, hk, hrgb⟩ :=
    rgb2hsv_float_sector _ _ _ qr.1 qg.1 qb.1
  rw [← rgb2hsv_eq] at hk hrgb
  have hsame : ∀ (h' : ℚ) (i : Int),
      hsv2rgb_float ⟨h', (rgb2hsv c).s, (rgb2hsv c).v⟩ i f = hsv2rgb_float (rgb2hsv c) i f :=
    fun _ _ => rfl
  have hfin : ∀ x : ℚ × ℚ × ℚ, x = ((c.r : ℚ) / 255, (c.g : ℚ) / 255, (c.b : ℚ) / 255) →
      (⟨f2u8 (x.1 * 255), f2u8 (x.2.1 * 255), f2u8 (x.2.2 * 255), 255⟩ : color_t) =
        ⟨c.r, c.g, c.b, 255⟩ := by
    intro x hx
    rw [hx, f2u8_channel c.r hr.1 hr.2 _ rfl, f2u8_channel c.g hg.1 hg.2 _ rfl,
      f2u8_channel c.b hb.1 hb.2 _ rfl]
  rcases hh with hh | hh
  · rw [hsv2rgb_sector ⟨h, _, _⟩ k f hk0 hf0 hf1 (by rw [hh, hk])]
    exact hfin _ (by rw [hsame, hrgb])
  · rw [hsv2rgb_sector ⟨h, _, _⟩ (k + 6) f (by omega) hf0 hf1
      (by rw [hh, hk]; push_cast; ring)]
    exact hfin _ (by rw [hsv2rgb_float_add_six _ k f hk0, hsame, hrgb])

/-- Converting a valid colour to hue, saturation and value and back gives its
three channels, with alpha 255. -/
theorem hsv2rgb_rgb2hsv (c : color_t) (hv : c.valid) :
    hsv2rgb (rgb2hsv c) = ⟨c.r, c.g, c.b, 255⟩ :=
  hsv2rgb_of_hue c hv (rgb2hsv c).h (Or.inl rfl)

/-- At `frac = 0` the blend of two angles is the first one, or the first one
plus a whole turn. -/
theorem deglerp_zero (from_ to_ : ℚ) (h0 : 0 ≤ from_) (h1 : from_ < 360) :
    deglerp from_ to_ 0 = from_ ∨ deglerp from_ to_ 0 = from_ + 360 := by
  simp only [deglerp, lerp, mul_zero, add_zero]
  split_ifs <;>
    first
      | (left; linarith)
      | (right; linarith)

/-- At `frac = 1` the blend of two angles is the second one, when it is not
negative. -/
theorem deglerp_one (from_ to_ : ℚ) (h0 : 0 ≤ to_) : deglerp from_ to_ 1 = to_ := by
  simp only [deglerp, lerp]
  split_ifs <;> linarith

/-- At `frac = 0`, `lerpcolor` gives the channels of its first colour. -/
theorem lerpcolor_zero (from_ to_ : color_t) (hv : from_.valid) :
    lerpcolor from_ to_ 0 = ⟨from_.r, from_.g, from_.b, 255⟩ := by
  obtain ⟨⟨hh0, hh1⟩, -⟩ := rgb2hsv_range from_ hv
  have hs : ∀ x y : ℚ, lerp x y 0 = x := by
    intro x y
    simp [lerp]
  simp only [lerpcolor, hs]
  exact hsv2rgb_of_hue from_ hv _ (deglerp_zero _ _ hh0 hh1)

/-- At `frac = 1`, `lerpcolor` gives the channels of its second colour. -/
theorem lerpcolor_one (from_ to_ : color_t) (hv : to_.valid) :
    lerpcolor from_ to_ 1 = ⟨to_.r, to_.g, to_.b, 255⟩ := by
  obtain ⟨⟨hh0, -⟩, -⟩ := rgb2hsv_range to_ hv
  have hs : ∀ x y : ℚ, lerp x y 1 = y := by
    intro x y
    simp [lerp]
  simp only [lerpcolor, hs, deglerp_one _ _ hh0]
  exact hsv2rgb_of_hue to_ hv _ (Or.inl rfl)

/-! ## The claims -/

/-- C1. One `setup_loop` frame leaves `global_curmenu` unchanged or moves it to
its immediate successor in the order MENU_START, MENU_MODE, MENU_PLAYERS,
MENU_GAMESETUP, MENU_DONE (never backwards, never skipping), `MENU_DONE` is
absorbing, and with a controlling port inside `btns` the frame does return. -/
theorem C1_menu_moves_one_forward (m : Libm) (s : State) (inp : Input) (deltatime : ℚ) :
    (∀ s', setup_loop m s inp deltatime = some s' →
      (menu_index s'.global_curmenu = menu_index s.global_curmenu ∨
        menu_index s'.global_curmenu = menu_index s.global_curmenu + 1) ∧
      (s.global_curmenu = MENU_DONE → s'.global_curmenu = MENU_DONE)) ∧
    (valid_port s → ∃ s', setup_loop m s inp deltatime = some s') := by
  refine ⟨fun s' h => ?_, fun hv => ?_⟩
  · obtain ⟨s1, ms, hc, -, hm, -⟩ := setup_loop_frame m s s' inp deltatime h
    have := handle_controls_menu s inp deltatime (s1, ms) hc
    rw [hm]
    refine ⟨this, fun hd => ?_⟩
    rw [hd] at this
    revert this
    cases s1.global_curmenu <;> simp [menu_index]
  · obtain ⟨s', h, -⟩ := setup_loop_total m s inp deltatime hv
    exact ⟨s', h⟩

/-- C1 at the initial state with port 0 connected: the frame returns. -/
theorem C1_menu_moves_one_forward_witness :
    valid_port state_init ∧ ∃ s', setup_loop libm_example state_init input_idle 1 = some s' :=
  ⟨by decide, (C1_menu_moves_one_forward libm_example state_init input_idle 1).2 (by decide)⟩

/-- C2. In the cursor block of `setup_loop`, with `maxselect ≥ 1`,
`0 ≤ selection < maxselect`, the cursor active and a controlling port inside
`btns`: a cursor-down press (`d_down` or `c_down`) makes the selection
`(selection + 1) mod maxselect`, and a cursor-up press (`d_up` or `c_up`)
without a cursor-down press makes it `(selection - 1 + maxselect) mod maxselect`. -/
theorem C2_cursor_wraps (s : State) (inp : Input) (maxselect : Int)
    (hmax : 1 ≤ maxselect) (h0 : 0 ≤ s.global_selection) (hlt : s.global_selection < maxselect)
    (hact : s.global_cursoractive = true) (hv : valid_port s) :
    (((inp.joypad_get_buttons_pressed s.global_firstport).d_down = true ∨
        (inp.joypad_get_buttons_pressed s.global_firstport).c_down = true) →
      ∃ s', handle_cursor s inp maxselect = some s' ∧
        s'.global_selection = (s.global_selection + 1) % maxselect) ∧
    (((inp.joypad_get_buttons_pressed s.global_firstport).d_up = true ∨
        (inp.joypad_get_buttons_pressed s.global_firstport).c_up = true) →
      ¬ ((inp.joypad_get_buttons_pressed s.global_firstport).d_down = true ∨
        (inp.joypad_get_buttons_pressed s.global_firstport).c_down = true) →
      ∃ s', handle_cursor s inp maxselect = some s' ∧
        s'.global_selection = (s.global_selection - 1 + maxselect) % maxselect) := by
  simp only [handle_cursor, hact, if_true, btns_firstport inp s hv, Option.map_some']
  constructor
  · intro hd
    refine ⟨_, rfl, ?_⟩
    rw [cursor_move_selection, if_pos hd]
    by_cases hw : s.global_selection + 1 ≥ maxselect
    · have he : s.global_selection + 1 = maxselect := by omega
      simp [he]
    · rw [if_neg hw]
      exact (Int.emod_eq_of_lt (by omega) (by omega)).symm
  · intro hu hnd
    refine ⟨_, rfl, ?_⟩
    rw [cursor_move_selection, if_neg hnd, if_pos hu]
    by_cases hw : s.global_selection - 1 < 0
    · have he : s.global_selection = 0 := by omega
      rw [if_pos hw, he, show (0 : Int) - 1 + maxselect = maxselect - 1 by ring]
      exact (Int.emod_eq_of_lt (by omega) (by omega)).symm
    · rw [if_neg hw]
      have he : s.global_selection - 1 + maxselect = (s.global_selection - 1) + maxselect * 1 := by
        ring
      rw [he, Int.add_mul_emod_self_left]
      exact (Int.emod_eq_of_lt (by omega) (by omega)).symm

/-- C2 for `maxselect = 3`: cursor-up from 0 yields 2, cursor-down from 2
yields 0. -/
theorem C2_cursor_wraps_witness :
    (∃ s', handle_cursor { state_init with global_cursoractive := true }
        (input_all btn_d_up joypad_buttons_t.zero) 3 = some s' ∧
      s'.global_selection = 2) ∧
    (∃ s', handle_cursor { state_init with global_cursoractive := true, global_selection := 2 }
        (input_all btn_d_down joypad_buttons_t.zero) 3 = some s' ∧
      s'.global_selection = 0) :=
  ⟨(C2_cursor_wraps { state_init with global_cursoractive := true }
      (input_all btn_d_up joypad_buttons_t.zero) 3 (by decide) (by decide) (by decide) rfl
      (by decide)).2 (by decide) (by decide),
   (C2_cursor_wraps { state_init with global_cursoractive := true, global_selection := 2 }
      (input_all btn_d_down joypad_buttons_t.zero) 3 (by decide) (by decide) (by decide) rfl
      (by decide)).1 (by decide)⟩

/-- C4, evaluated on a run from `setup_init`.  `frames_to_phase2` reaches
phase 1 of `MENU_PLAYERS` with port 0 joined and the last slot free, and holds
A on port 0 for two frames of half a second: the progress goes 1/2, then 1,
the gesture fires (phase 2 is shown), and `global_readyprog` is 1, not 0,
after that frame.  The branch that enters phase 2 does not run the reset that
the `gotonext` block and the `MENU_DONE` block run on their firing frames
(`setup_loop_fire_full`, `setup_loop_gamesetup_fire`). -/
theorem C4_progress_kept_on_phase2_entry :
    ∃ s', run libm_example state_init frames_to_phase2 = some s' ∧
      s'.global_curmenu = MENU_PLAYERS ∧ s'.global_showsecond = true ∧
      s'.global_readyprog = 1 ∧ s'.global_readyprog ≠ 0 := by
  have h : (run libm_example state_init frames_to_phase2).isSome = true := by decide!
  have hf : ((run libm_example state_init frames_to_phase2).getD state_init).global_curmenu =
        MENU_PLAYERS ∧
      ((run libm_example state_init frames_to_phase2).getD state_init).global_showsecond =
        true ∧
      ((run libm_example state_init frames_to_phase2).getD state_init).global_readyprog = 1 ∧
      ((run libm_example state_init frames_to_phase2).getD state_init).global_readyprog ≠ 0 := by
    decide!
  obtain ⟨s', hs'⟩ := Option.isSome_iff_exists.mp h
  rw [hs', Option.getD_some] at hf
  exact ⟨s', hs', hf⟩

/-- C5, evaluated with no controller connected: `setup_init` leaves
`global_firstport` at -1, two idle frames of two seconds return, and the third
frame (the cursor becomes active in `MENU_MODE`) reads `btns[-1]`: a fault. -/
theorem C5_no_controller_reads_outside_btns :
    (setup_init (fun _ => false) false 0 0 0 0).global_firstport = -1 ∧
    (run libm_example (setup_init (fun _ => false) false 0 0 0 0)
      [frame_idle 2, frame_idle 2]).isSome = true ∧
    btns input_idle (-1) = none ∧
    run libm_example (setup_init (fun _ => false) false 0 0 0 0)
      [frame_idle 2, frame_idle 2, frame_idle 2] = none :=
  ⟨by decide, by decide!, by decide, Option.isNone_iff_eq_none.mp (by decide!)⟩

/-- C6. In `MENU_GAMESETUP` with the cursor active, selection 0 and
`global_cfg_points` in 1..10 (the state being a reachable one, or any one
whose controlling port is inside `btns`), the frame returns and: an
increment press yields `points + 1` below 10 and 1 at 10; a decrement press
yields `points - 1` above 1 and 10 at 1; in every case the value stays in
1..10; and a decrement press on a following frame in the same situation
restores the value an increment press replaced. -/
theorem C6_points_cycle (m : Libm) (s : State) (inp : Input) (deltatime : ℚ)
    (hm : s.global_curmenu = MENU_GAMESETUP) (hact : s.global_cursoractive = true)
    (hsel : s.global_selection = 0) (hv : Reachable m s ∨ valid_port s)
    (hp : 1 ≤ s.global_cfg_points ∧ s.global_cfg_points ≤ 10) :
    ∃ s', setup_loop m s inp deltatime = some s' ∧
      (increment_press (inp.joypad_get_buttons_pressed s.global_firstport) →
        s'.global_cfg_points =
          if s.global_cfg_points < 10 then s.global_cfg_points + 1 else 1) ∧
      (decrement_press (inp.joypad_get_buttons_pressed s.global_firstport) →
        s'.global_cfg_points =
          if s.global_cfg_points > 1 then s.global_cfg_points - 1 else 10) ∧
      (1 ≤ s'.global_cfg_points ∧ s'.global_cfg_points ≤ 10) ∧
      (increment_press (inp.joypad_get_buttons_pressed s.global_firstport) →
        s'.global_curmenu = MENU_GAMESETUP → s'.global_cursoractive = true →
        s'.global_selection = 0 →
        ∀ (inp2 : Input) (deltatime2 : ℚ),
          decrement_press (inp2.joypad_get_buttons_pressed s'.global_firstport) →
          ∃ s2, setup_loop m s' inp2 deltatime2 = some s2 ∧
            s2.global_cfg_points = s.global_cfg_points) := by
  have hv := port_of_reachable_or_valid m s hv (by rw [hm]; simp)
  obtain ⟨s', hs', e1, -, e3, -⟩ := setup_loop_gamesetup m s inp deltatime hm hact hv
  have hg : (gamesetup_gate s).global_selection = 0 := by
    rw [gamesetup_gate_selection, hsel]
    simp
  rw [gamesetup_edit_points, hg] at e1
  simp only [gamesetup_gate_frame, if_true] at e1
  refine ⟨s', hs', ?_, ?_, ?_, ?_⟩
  · intro hi
    rw [e1, if_pos (show _ ∨ _ ∨ _ from hi)]
    split_ifs <;> omega
  · intro hd
    rw [e1, if_neg (show ¬ (_ ∨ _ ∨ _) from hd.1), if_pos hd.2]
    split_ifs <;> omega
  · rw [e1]
    constructor <;> split_ifs <;> omega
  · intro hi hm' hact' hsel' inp2 deltatime2 hd
    have hv' : valid_port s' := by simpa [valid_port, e3] using hv
    obtain ⟨s2, hs2, g1, -⟩ := setup_loop_gamesetup m s' inp2 deltatime2 hm' hact' hv'
    have hg' : (gamesetup_gate s').global_selection = 0 := by
      rw [gamesetup_gate_selection, hsel']
      simp
    rw [gamesetup_edit_points, hg'] at g1
    simp only [gamesetup_gate_frame, if_true] at g1
    refine ⟨s2, hs2, ?_⟩
    rw [g1, if_neg (show ¬ (_ ∨ _ ∨ _) from hd.1), if_pos hd.2, e1, if_pos (show _ ∨ _ ∨ _ from hi)]
    split_ifs <;> omega

/-- C6 at the wrap-around: from 10 points an increment press yields 1. -/
theorem C6_points_cycle_witness :
    ∃ s', setup_loop libm_example { state_gamesetup with global_cfg_points := 10 }
        (input_all btn_d_right joypad_buttons_t.zero) 0 = some s' ∧
      s'.global_cfg_points = 1 := by
  obtain ⟨s', h, hinc, -⟩ :=
    C6_points_cycle libm_example { state_gamesetup with global_cfg_points := 10 }
      (input_all btn_d_right joypad_buttons_t.zero) 0 rfl rfl rfl (Or.inr (by decide))
      (by decide)
  exact ⟨s', h, hinc (by decide)⟩

/-- C7. In every reachable state the round-selection policy
`global_cfg_nextround` is in 0..3 and the read `options[global_cfg_nextround]`
of `setup_draw` is inside the table.  In a reachable state of
`MENU_GAMESETUP` with the cursor active and selection 1 the frame returns, an
increment press yields `(n + 1) mod 4`, a decrement press yields
`(n + 3) mod 4`, and the value after the frame is in 0..3 again. -/
theorem C7_nextround_cycle (m : Libm) (s : State) (hr : Reachable m s) :
    (0 ≤ s.global_cfg_nextround ∧ s.global_cfg_nextround ≤ 3 ∧
      (options_read s.global_cfg_nextround).isSome = true) ∧
    (s.global_curmenu = MENU_GAMESETUP → s.global_cursoractive = true →
      s.global_selection = 1 →
      ∀ (inp : Input) (deltatime : ℚ),
        ∃ s', setup_loop m s inp deltatime = some s' ∧
          (increment_press (inp.joypad_get_buttons_pressed s.global_firstport) →
            s'.global_cfg_nextround = (s.global_cfg_nextround + 1) % 4) ∧
          (decrement_press (inp.joypad_get_buttons_pressed s.global_firstport) →
            s'.global_cfg_nextround = (s.global_cfg_nextround + 3) % 4) ∧
          (0 ≤ s'.global_cfg_nextround ∧ s'.global_cfg_nextround ≤ 3 ∧
            (options_read s'.global_cfg_nextround).isSome = true)) := by
  have hi := Inv_of_reachable m s hr
  refine ⟨⟨hi.nextround.1, hi.nextround.2, options_read_isSome _ hi.nextround.1 hi.nextround.2⟩,
    fun hm hact hsel inp deltatime => ?_⟩
  have hv : valid_port s := hi.port (by rw [hm]; simp)
  obtain ⟨s', hs', -, e2, -⟩ := setup_loop_gamesetup m s inp deltatime hm hact hv
  have hg : (gamesetup_gate s).global_selection = 1 := by
    rw [gamesetup_gate_selection, hsel, hi.cursor_none hact]
    simp
  rw [gamesetup_edit_nextround, hg] at e2
  simp only [gamesetup_gate_frame, if_true] at e2
  have hn := hi.nextround
  have hrange : 0 ≤ s'.global_cfg_nextround ∧ s'.global_cfg_nextround ≤ 3 := by
    rw [e2]
    constructor <;> split_ifs <;> omega
  refine ⟨s', hs', ?_, ?_, hrange.1, hrange.2, options_read_isSome _ hrange.1 hrange.2⟩
  · intro hinc
    rw [e2, if_pos (show _ ∨ _ ∨ _ from hinc)]
    split_ifs <;> omega
  · intro hd
    rw [e2, if_neg (show ¬ (_ ∨ _ ∨ _) from hd.1), if_pos hd.2]
    split_ifs <;> omega

/-- C7 on the state reached by `frames_to_gamesetup` (policy 0, selection 1): a
decrement press wraps the policy to 3. -/
theorem C7_nextround_cycle_witness :
    Reachable libm_example state_reached ∧
    ∃ s', setup_loop libm_example state_reached
        (input_all btn_d_left joypad_buttons_t.zero) 0 = some s' ∧
      s'.global_cfg_nextround = 3 := by
  obtain ⟨s', h, -, hdec, -⟩ :=
    (C7_nextround_cycle libm_example state_reached state_reached_reachable).2
      state_reached_fields.1 state_reached_fields.2.1 state_reached_fields.2.2.1
      (input_all btn_d_left joypad_buttons_t.zero) 0
  refine ⟨state_reached_reachable, s', h, ?_⟩
  rw [hdec (by decide), state_reached_fields.2.2.2.2.2.2.1]
  decide

/-- C8. In a reachable state of `MENU_GAMESETUP` with the cursor active the
frame returns and, whatever is pressed: with selection 2 neither
`global_cfg_points` nor `global_cfg_nextround` changes, with selection 0
`global_cfg_nextround` does not change, with selection 1 `global_cfg_points`
does not change.  Selection 2 is reached by the cursor (`maxselect` is 3):
while the cursor stays active, cursor-down from 1 and cursor-up from 0 both
yield 2. -/
theorem C8_edit_touches_selected_field_only (m : Libm) (s : State) (inp : Input)
    (deltatime : ℚ) (hr : Reachable m s)
    (hm : s.global_curmenu = MENU_GAMESETUP) (hact : s.global_cursoractive = true) :
    ∃ s', setup_loop m s inp deltatime = some s' ∧
      (s.global_selection = 2 →
        s'.global_cfg_points = s.global_cfg_points ∧
          s'.global_cfg_nextround = s.global_cfg_nextround) ∧
      (s.global_selection = 0 → s'.global_cfg_nextround = s.global_cfg_nextround) ∧
      (s.global_selection = 1 → s'.global_cfg_points = s.global_cfg_points) ∧
      (s.global_selection = 1 → s'.global_cursoractive = true →
        ((inp.joypad_get_buttons_pressed s.global_firstport).d_down = true ∨
          (inp.joypad_get_buttons_pressed s.global_firstport).c_down = true) →
        s'.global_selection = 2) ∧
      (s.global_selection = 0 → s'.global_cursoractive = true →
        ¬ ((inp.joypad_get_buttons_pressed s.global_firstport).d_down = true ∨
          (inp.joypad_get_buttons_pressed s.global_firstport).c_down = true) →
        ((inp.joypad_get_buttons_pressed s.global_firstport).d_up = true ∨
          (inp.joypad_get_buttons_pressed s.global_firstport).c_up = true) →
        s'.global_selection = 2) := by
  have hi := Inv_of_reachable m s hr
  have hv : valid_port s := hi.port (by rw [hm]; simp)
  obtain ⟨s', hs', e1, e2, -, -, -, -, -, e8, -⟩ :=
    setup_loop_gamesetup m s inp deltatime hm hact hv
  have hg : (gamesetup_gate s).global_selection = s.global_selection := by
    rw [gamesetup_gate_selection, hi.cursor_none hact]
    simp
  rw [gamesetup_edit_points, hg] at e1
  rw [gamesetup_edit_nextround, hg] at e2
  rw [hg] at e8
  simp only [gamesetup_gate_frame] at e1 e2
  refine ⟨s', hs', ?_, ?_, ?_, ?_, ?_⟩
  · intro h2
    rw [e1, e2, h2]
    simp
  · intro h0
    rw [e2, h0]
    simp
  · intro h1
    rw [e1, h1]
    simp
  · intro h1 hact' hd
    rw [e8, if_pos hact', if_pos hd, h1]
    simp
  · intro h0 hact' hnd hu
    rw [e8, if_pos hact', if_neg hnd, if_pos hu, h0]
    simp

/-- C8 on the state reached by `frames_to_gamesetup` (selection 1): a
cursor-down press selects the third option and changes no field. -/
theorem C8_edit_touches_selected_field_only_witness :
    ∃ s', setup_loop libm_example state_reached
        (input_all btn_d_down joypad_buttons_t.zero) 0 = some s' ∧
      s'.global_cfg_points = state_reached.global_cfg_points ∧
      s'.global_selection = 2 := by
  obtain ⟨s', h, -, -, hp, hdown, -⟩ :=
    C8_edit_touches_selected_field_only libm_example state_reached
      (input_all btn_d_down joypad_buttons_t.zero) 0 state_reached_reachable
      state_reached_fields.1 state_reached_fields.2.1
  have hsel := state_reached_fields.2.2.1
  obtain ⟨s2, h2, -, -, -, -, -, -, hc, -⟩ :=
    setup_loop_gamesetup libm_example state_reached
      (input_all btn_d_down joypad_buttons_t.zero) 0 state_reached_fields.1
      state_reached_fields.2.1 (by rw [valid_port, state_reached_fields.2.2.2.2.1]; decide)
  rw [h] at h2
  cases h2
  have hact' : s'.global_cursoractive = true := by
    rw [hc, gamesetup_hold_release _ _ _ (by rfl)]
    simp
    exact gamesetup_gate_cursor _ state_reached_fields.2.1
  exact ⟨s', h, hp hsel, hdown hsel hact' (Or.inl (by rfl))⟩

/-- C9. From a state of `MENU_GAMESETUP` with the cursor active and
`global_readyprog = 0` (a reachable state, or any one whose controlling port
is inside `btns`), run frames of `1 / n` seconds
(`n ≥ 1`, exact arithmetic) with Start held on the controlling port.  After
`k < n` such frames the menu is still `MENU_GAMESETUP` with progress `k / n`;
after exactly `n` the menu is `MENU_DONE` with `TRANS_FORWARD`, the cursor
inactive and the progress 0; and whatever frames follow the `n`-th, the run
returns in that same situation, so the hold fires once, on frame `n`. -/
theorem C9_start_hold_fires_on_frame_n (m : Libm) (s : State) (n : Nat) (frames : List Frame)
    (hn : 1 ≤ n) (hm : s.global_curmenu = MENU_GAMESETUP)
    (hact : s.global_cursoractive = true) (hv : Reachable m s ∨ valid_port s)
    (hrp : s.global_readyprog = 0)
    (hfr : ∀ f ∈ frames, f.deltatime = 1 / (n : ℚ) ∧
      (f.input.joypad_get_buttons s.global_firstport).start = true) :
    ∃ s', run m s frames = some s' ∧
      (frames.length < n →
        s'.global_curmenu = MENU_GAMESETUP ∧
          s'.global_readyprog = (frames.length : ℚ) / (n : ℚ)) ∧
      (frames.length = n →
        s'.global_curmenu = MENU_DONE ∧ s'.global_transition = TRANS_FORWARD ∧
          s'.global_cursoractive = false ∧ s'.global_readyprog = 0) ∧
      (frames.length = n → ∀ later : List Frame,
        ∃ s'', run m s (frames ++ later) = some s'' ∧
          s''.global_curmenu = MENU_DONE ∧ s''.global_transition = TRANS_FORWARD ∧
          s''.global_cursoractive = false ∧ s''.global_readyprog = 0) := by
  have hv := port_of_reachable_or_valid m s hv (by rw [hm]; simp)
  obtain ⟨s', h, g1, g2⟩ := run_gamesetup_hold m n s.global_firstport frames s 0 (by omega)
    hm hact hv rfl (by simp [hrp]) hfr
  simp only [Nat.zero_add] at g1 g2
  refine ⟨s', h, fun hlt => ⟨(g1 hlt).1, (g1 hlt).2.2⟩, fun he => g2 (by omega),
    fun he later => ?_⟩
  obtain ⟨d1, d2, d3, d4⟩ := g2 (by omega)
  obtain ⟨s'', h'', e1, e2, e3, e4⟩ := run_done m later s' d1 d3
  refine ⟨s'', ?_, e1, by rw [e2, d2], e3, by rw [e4, d4]⟩
  rw [run_append, h]
  exact h''

/-- C9 for `n = 2`: two half-second frames with Start held end in `MENU_DONE`
with the progress at 0. -/
theorem C9_start_hold_fires_on_frame_n_witness :
    ∃ s', run libm_example state_gamesetup [frame_hold_start (1 / 2), frame_hold_start (1 / 2)] =
        some s' ∧
      s'.global_curmenu = MENU_DONE ∧ s'.global_transition = TRANS_FORWARD ∧
      s'.global_cursoractive = false ∧ s'.global_readyprog = 0 := by
  obtain ⟨s', h, -, hfire, -⟩ :=
    C9_start_hold_fires_on_frame_n libm_example state_gamesetup 2
      [frame_hold_start (1 / 2), frame_hold_start (1 / 2)] (by decide) rfl rfl
      (Or.inr (by decide)) rfl
      (by
        intro f hf
        simp only [List.mem_cons, List.mem_singleton, List.not_mem_nil, or_false, or_self] at hf
        subst hf
        exact ⟨by simp [frame_hold_start], rfl⟩)
  exact ⟨s', h, hfire rfl⟩

/-- C10. While a hold gesture is sampled with the cursor active (in a
reachable state, or any one whose controlling port is inside `btns`): in
phase 1 of `MENU_PLAYERS` a frame on which
nobody is joined or the first joined port does not hold A ends with
`global_readyprog = 0`, and a frame on which it holds A with
`readyprog + deltatime < 1` ends with `global_readyprog = readyprog + deltatime`
and the menu unchanged; in `MENU_GAMESETUP` the same holds for Start on the
controlling port. -/
theorem C10_release_resets_hold_accumulates (m : Libm) (s : State) (inp : Input)
    (deltatime : ℚ) (hact : s.global_cursoractive = true)
    (hv : Reachable m s ∨ valid_port s) :
    (s.global_curmenu = MENU_PLAYERS → s.global_showsecond = false →
      (¬ (firstcont_of (toggle_joined inp s.global_playerjoined) ≠ -1 ∧
          (inp.joypad_get_buttons
            (firstcont_of (toggle_joined inp s.global_playerjoined))).a = true) →
        ∃ s', setup_loop m s inp deltatime = some s' ∧ s'.global_readyprog = 0 ∧
          s'.global_curmenu = MENU_PLAYERS) ∧
      (firstcont_of (toggle_joined inp s.global_playerjoined) ≠ -1 →
        (inp.joypad_get_buttons
          (firstcont_of (toggle_joined inp s.global_playerjoined))).a = true →
        s.global_readyprog + deltatime < 1 →
        ∃ s', setup_loop m s inp deltatime = some s' ∧
          s'.global_readyprog = s.global_readyprog + deltatime ∧
          s'.global_curmenu = MENU_PLAYERS ∧ s'.global_showsecond = false)) ∧
    (s.global_curmenu = MENU_GAMESETUP →
      ((inp.joypad_get_buttons s.global_firstport).start = false →
        ∃ s', setup_loop m s inp deltatime = some s' ∧ s'.global_readyprog = 0 ∧
          s'.global_curmenu = MENU_GAMESETUP) ∧
      ((inp.joypad_get_buttons s.global_firstport).start = true →
        s.global_readyprog + deltatime < 1 →
        ∃ s', setup_loop m s inp deltatime = some s' ∧
          s'.global_readyprog = s.global_readyprog + deltatime ∧
          s'.global_curmenu = MENU_GAMESETUP)) := by
  have hport : s.global_curmenu ≠ MENU_START → valid_port s :=
    port_of_reachable_or_valid m s hv
  refine ⟨fun hm hs => ⟨fun hrel => ?_, fun hfc ha hlow => ?_⟩,
    fun hm => ⟨fun hh => ?_, fun hh hlow => ?_⟩⟩
  all_goals have hv := hport (by rw [hm]; simp)
  · obtain ⟨s', h, e1, -, -, e4, -⟩ :=
      setup_loop_players_quiet m s inp deltatime 0 hm hs hact hv
        (players_active_release (players_gate s) inp deltatime (by simpa using hs)
          (by simpa using hrel))
    exact ⟨s', h, e4, e1⟩
  · obtain ⟨s', h, e1, e2, -, e4, -⟩ :=
      setup_loop_players_quiet m s inp deltatime (s.global_readyprog + deltatime) hm hs hact hv
        (by
          have := players_active_hold (players_gate s) inp deltatime (by simpa using hs)
            (by simpa using hfc) (by simpa using ha) (by simpa using hlow)
          simpa using this)
    exact ⟨s', h, e4, e1, e2⟩
  · obtain ⟨s', h, e1, -, e3, -⟩ := setup_loop_gamesetup_release m s inp deltatime hm hact hv hh
    exact ⟨s', h, e3, e1⟩
  · obtain ⟨s', h, e1, -, e3, -⟩ :=
      setup_loop_gamesetup_hold m s inp deltatime hm hact hv hh hlow
    exact ⟨s', h, e3, e1⟩

/-- C10 on concrete frames: in phase 1 a quarter-second frame with A held on
the joined port takes the progress from 0 to 1/4, and in `MENU_GAMESETUP` an
idle frame resets a progress of 1/2 to 0. -/
theorem C10_release_resets_hold_accumulates_witness :
    (∃ s', setup_loop libm_example state_players (input_all joypad_buttons_t.zero btn_a)
        (1 / 4) = some s' ∧
      s'.global_readyprog = 0 + 1 / 4 ∧ s'.global_curmenu = MENU_PLAYERS ∧
      s'.global_showsecond = false) ∧
    (∃ s', setup_loop libm_example { state_gamesetup with global_readyprog := 1 / 2 }
        input_idle (1 / 4) = some s' ∧
      s'.global_readyprog = 0 ∧ s'.global_curmenu = MENU_GAMESETUP) :=
  ⟨((C10_release_resets_hold_accumulates libm_example state_players
      (input_all joypad_buttons_t.zero btn_a) (1 / 4) rfl (Or.inr (by decide))).1 rfl rfl).2
      (by decide) (by decide) (by decide!),
   ((C10_release_resets_hold_accumulates libm_example
      { state_gamesetup with global_readyprog := 1 / 2 } input_idle (1 / 4) rfl
      (Or.inr (by decide))).2 rfl).1 rfl⟩

/-- C11, evaluated at `from = 0`, `to = 200`, `frac = 0`: `to - from > 180`, so
`from` is shifted to 360, the blend at `frac = 0` returns it, and the only
re-normalisation (`if (from < 0) from += 360`) does not apply: the result is
360, outside `[0, 360)`. -/
theorem C11_deglerp_returns_360 :
    deglerp 0 200 0 = 360 ∧ ¬ (deglerp 0 200 0 < 360) := by
  have h : deglerp 0 200 0 = 360 := by
    simp only [deglerp, lerp]
    norm_num
  exact ⟨h, by rw [h]; norm_num⟩

/-- C12 as stated fails in binary32.  The angles `2252463/8192`
(274.9588623046875) and `12035667/131072` (91.8248519897461) are binary32
values in `[0, 360)`.  With `frac = 1`, `from` becomes `from - 360` and the
difference `to - from` is rounded, so `deglerp` returns `3008917/32768`
(91.82485961914062), the binary32 neighbour of `to`, where the exact result is
`to`.  The example `deglerp(350, 10, 0.5) = 0` is exact in binary32 as well. -/
theorem C12_deglerp_binary32_misses_to :
    (f32 (2252463 / 8192) = 2252463 / 8192 ∧ f32 (12035667 / 131072) = 12035667 / 131072) ∧
    ((0 : ℚ) ≤ 2252463 / 8192 ∧ (2252463 / 8192 : ℚ) < 360) ∧
    ((0 : ℚ) ≤ 12035667 / 131072 ∧ (12035667 / 131072 : ℚ) < 360) ∧
    deglerp_f32 (2252463 / 8192) (12035667 / 131072) 1 = 3008917 / 32768 ∧
    deglerp_f32 (2252463 / 8192) (12035667 / 131072) 1 ≠ 12035667 / 131072 ∧
    deglerp (2252463 / 8192) (12035667 / 131072) 1 = 12035667 / 131072 ∧
    deglerp_f32 350 10 (1 / 2) = 0 := by
  decide!

/-- C12, amended: over exact arithmetic.  For `from`, `to` in `[0, 360)` and
`frac` in `[0, 1]`, `deglerp` blends along the shortest arc: there is a signed
difference `d`, congruent to `to - from` modulo 360 with `|d| ≤ 180`, such
that the result is congruent to `from + frac * d` modulo 360.  At `frac = 1`
the result is `to`, and `deglerp 350 10 (1/2) = 0`. -/
theorem C12_deglerp_shortest_arc (from_ to_ frac : ℚ)
    (hf0 : 0 ≤ from_) (hf1 : from_ < 360) (ht0 : 0 ≤ to_) (ht1 : to_ < 360)
    (hk0 : 0 ≤ frac) (hk1 : frac ≤ 1) :
    (∃ (d : ℚ) (j k : ℤ), d = to_ - from_ + 360 * (j : ℚ) ∧ |d| ≤ 180 ∧
      deglerp from_ to_ frac = from_ + frac * d + 360 * (k : ℚ)) ∧
    deglerp from_ to_ 1 = to_ ∧
    deglerp 350 10 (1 / 2) = 0 := by
  refine ⟨?_, ?_, ?_⟩
  · simp only [deglerp, lerp]
    by_cases h1 : to_ - from_ > 180
    · simp only [h1, if_true]
      have hd : to_ - from_ - 360 < 0 := by linarith
      have hpos : ¬ (from_ + 360 + (to_ - (from_ + 360)) * frac < 0) := by
        have : (to_ - (from_ + 360)) * frac ≥ (to_ - (from_ + 360)) := by nlinarith
        intro hc
        linarith
      rw [if_neg hpos]
      refine ⟨to_ - from_ - 360, -1, 1, by push_cast; ring, ?_, by push_cast; ring⟩
      rw [abs_le]
      constructor <;> linarith
    · rw [if_neg h1]
      by_cases h2 : to_ - from_ < -180
      · rw [if_pos h2]
        have habs : |to_ - from_ + 360| ≤ 180 := by
          rw [abs_le]
          constructor <;> linarith
        split_ifs
        · exact ⟨to_ - from_ + 360, 1, 0, by push_cast; ring, habs, by push_cast; ring⟩
        · exact ⟨to_ - from_ + 360, 1, -1, by push_cast; ring, habs, by push_cast; ring⟩
      · rw [if_neg h2]
        have habs : |to_ - from_| ≤ 180 := by
          rw [abs_le]
          constructor <;> linarith
        have hpos : ¬ (from_ + (to_ - from_) * frac < 0) := by
          intro hc
          nlinarith
        rw [if_neg hpos]
        exact ⟨to_ - from_, 0, 0, by push_cast; ring, habs, by push_cast; ring⟩
  · simp only [deglerp, lerp]
    split_ifs <;> linarith
  · simp only [deglerp, lerp]
    norm_num

/-- C12, amended, at `from = 350`, `to = 10`: the blend at `frac = 1` is 10. -/
theorem C12_deglerp_shortest_arc_witness : deglerp 350 10 1 = 10 :=
  (C12_deglerp_shortest_arc 350 10 1 (by norm_num) (by norm_num) (by norm_num) (by norm_num)
    (by norm_num) (by norm_num)).2.1

/-- C13. For `0 ≤ k ≤ 1` (exact arithmetic) `lerp v target k` lies between `v`
and `target` inclusive and its distance to `target` is `(1 - k) * |target - v|`;
iterating `v := lerp v target k`, every iterate lies between `v` and `target`,
the distance to `target` does not increase from one step to the next, and
after `n` steps it is `(1 - k) ^ n` times the initial distance. -/
theorem C13_lerp_approaches_target (v target k : ℚ) (hk0 : 0 ≤ k) (hk1 : k ≤ 1) :
    (min v target ≤ lerp v target k ∧ lerp v target k ≤ max v target) ∧
    |target - lerp v target k| = (1 - k) * |target - v| ∧
    ∀ n : ℕ,
      (min v target ≤ (fun x => lerp x target k)^[n] v ∧
        (fun x => lerp x target k)^[n] v ≤ max v target) ∧
      |target - (fun x => lerp x target k)^[n + 1] v| ≤
        |target - (fun x => lerp x target k)^[n] v| ∧
      |target - (fun x => lerp x target k)^[n] v| = (1 - k) ^ n * |target - v| := by
  have hk : (0 : ℚ) ≤ 1 - k := by linarith
  have hsigned : ∀ n : ℕ,
      target - (fun x => lerp x target k)^[n] v = (1 - k) ^ n * (target - v) := by
    intro n
    induction n with
    | zero => simp
    | succ n ih =>
      rw [Function.iterate_succ_apply']
      have : target - lerp ((fun x => lerp x target k)^[n] v) target k =
          (1 - k) * (target - (fun x => lerp x target k)^[n] v) := by
        simp only [lerp]
        ring
      rw [this, ih]
      ring
  have hpow : ∀ n : ℕ, (0 : ℚ) ≤ (1 - k) ^ n ∧ (1 - k) ^ n ≤ 1 := fun n =>
    ⟨pow_nonneg hk n, pow_le_one₀ hk (by linarith)⟩
  have hdist : ∀ n : ℕ,
      |target - (fun x => lerp x target k)^[n] v| = (1 - k) ^ n * |target - v| := by
    intro n
    rw [hsigned, abs_mul, abs_of_nonneg (hpow n).1]
  have hbetween : ∀ n : ℕ, min v target ≤ (fun x => lerp x target k)^[n] v ∧
      (fun x => lerp x target k)^[n] v ≤ max v target := by
    intro n
    have hs := hsigned n
    obtain ⟨hp0, hp1⟩ := hpow n
    rcases le_total v target with hvt | hvt
    · rw [min_eq_left hvt, max_eq_right hvt]
      constructor <;> nlinarith
    · rw [min_eq_right hvt, max_eq_left hvt]
      constructor <;> nlinarith
  have h1 := hbetween 1
  have d1 := hdist 1
  simp only [Function.iterate_one, pow_one] at h1 d1
  refine ⟨h1, d1, fun n => ⟨hbetween n, ?_, hdist n⟩⟩
  rw [hdist (n + 1), hdist n, pow_succ]
  have := (hpow n).1
  have habs : (0 : ℚ) ≤ |target - v| := abs_nonneg _
  nlinarith [mul_nonneg this habs]

/-- C13 for `v = 0`, `target = 128`, `k = 1/6`: the first step is `64/3`, at
distance `(5/6) * 128` from the target. -/
theorem C13_lerp_approaches_target_witness :
    |128 - lerp 0 128 (1 / 6)| = (1 - 1 / 6) * |128 - 0| :=
  (C13_lerp_approaches_target 0 128 (1 / 6) (by norm_num) (by norm_num)).2.1

/-- C14. For every `from` and `to`, `elasticlerp` returns exactly `from` for
every `t ≤ 0` and exactly `to` for every `t ≥ 1`, whatever `pow` and `sin`
are: the damped-sine formula is not evaluated there. -/
theorem C14_elasticlerp_ends (m : Libm) (from_ to_ t : ℚ) :
    (t ≤ 0 → elasticlerp m from_ to_ t = from_) ∧
    (t ≥ 1 → elasticlerp m from_ to_ t = to_) := by
  constructor
  · intro h
    simp [elasticlerp, h]
  · intro h
    have h0 : ¬ t ≤ 0 := by linarith
    simp [elasticlerp, h0, h]

/-- C14 at `t = -2/5` and `t = 8/5` for the mode box width: 0 and 280. -/
theorem C14_elasticlerp_ends_witness :
    elasticlerp libm_example 0 280 (-2 / 5) = 0 ∧ elasticlerp libm_example 0 280 (8 / 5) = 280 :=
  ⟨(C14_elasticlerp_ends libm_example 0 280 (-2 / 5)).1 (by norm_num),
    (C14_elasticlerp_ends libm_example 0 280 (8 / 5)).2 (by norm_num)⟩

/-- C15. For an actor whose state is 9 (Death) `actor_updateMat` returns the
actor unchanged, whatever the library computes.  For an array of
`ACTOR_COUNT` actors (`ACTOR_COUNT` within the `uint8_t` counter) `actor_draw`
terminates and runs exactly the display lists of the actors whose state is
not 9, in index order; so no display list is run for an array whose actors
are all in state 9. -/
theorem C15_death_actor_is_skipped (lib : T3D) (ACTOR_COUNT : Nat) (actor : List Actor)
    (fuel : Nat) (hc : ACTOR_COUNT ≤ 255) (hlen : actor.length = ACTOR_COUNT)
    (hfuel : ACTOR_COUNT < fuel) :
    (∀ a : Actor, a.state = 9 → actor_updateMat lib a = a) ∧
    actor_draw ACTOR_COUNT actor fuel =
      some ((actor.filter fun a => decide (a.state ≠ 9)).map Actor.dl) ∧
    ((∀ a ∈ actor, a.state = 9) → actor_draw ACTOR_COUNT actor fuel = some []) := by
  have hd : actor_draw ACTOR_COUNT actor fuel =
      some ((actor.filter fun a => decide (a.state ≠ 9)).map Actor.dl) := by
    rw [actor_draw, actor_draw_loop_eq ACTOR_COUNT actor hc hlen fuel 0 [] (by omega) (by omega)]
    simp
  refine ⟨fun a h9 => by simp [actor_updateMat, h9], hd, fun hall => ?_⟩
  rw [hd]
  have : (actor.filter fun a => decide (a.state ≠ 9)) = [] := by
    rw [List.filter_eq_nil_iff]
    intro a ha
    simp [hall a ha]
  rw [this]
  rfl

/-- C15 on three actors with display lists 10, 11, 12, the second in state 9:
the display lists 10 and 12 are run, in that order. -/
theorem C15_death_actor_is_skipped_witness :
    actor_draw 3 [actor_example 10 1, actor_example 11 9, actor_example 12 1] 4 =
      some [10, 12] :=
  (C15_death_actor_is_skipped t3d_example 3
    [actor_example 10 1, actor_example 11 9, actor_example 12 1] 4 (by decide) rfl
    (by decide)).2.1

/-- C16. In every state reachable from `setup_init`: `core_set_playercount` and
`core_set_aidifficulty` have each been called at most once; nothing has been
called before the phase-1 hold fires; and in `MENU_GAMESETUP` and `MENU_DONE`
the trace starts with the one `core_set_playercount` call, whose argument is
the number of joined slots, between 1 and `MAXPLAYERS`.  A frame that makes
the `core_set_playercount` call makes it on an empty trace, with the number of
slots joined on that frame. -/
theorem C16_sinks_called_once (m : Libm) (s : State) (hr : Reachable m s) :
    (playercount_args s.sink_calls).length ≤ 1 ∧
    (aidifficulty_args s.sink_calls).length ≤ 1 ∧
    (¬ confirmed s → s.sink_calls = []) ∧
    (s.global_curmenu = MENU_GAMESETUP ∨ s.global_curmenu = MENU_DONE →
      (∃ rest, s.sink_calls =
        SinkCall.core_set_playercount ((joined_slots s.global_playerjoined).length : Int) ::
          rest) ∧
      playercount_args s.sink_calls = [((joined_slots s.global_playerjoined).length : Int)] ∧
      1 ≤ (joined_slots s.global_playerjoined).length ∧
      (joined_slots s.global_playerjoined).length ≤ MAXPLAYERS) ∧
    (∀ (inp : Input) (deltatime : ℚ) (s' : State), setup_loop m s inp deltatime = some s' →
      playercount_args s'.sink_calls = playercount_args s.sink_calls ∨
      (s.sink_calls = [] ∧ s'.sink_calls =
        [SinkCall.core_set_playercount ((joined_slots s'.global_playerjoined).length : Int)])) := by
  have hi := SinkInv_of_reachable m s hr
  have hshape : ¬ confirmed s ∨ (confirmed s ∧
      (s.sink_calls = [SinkCall.core_set_playercount (count_joined s.global_playerjoined)] ∨
        ∃ l, s.sink_calls = [SinkCall.core_set_playercount (count_joined s.global_playerjoined),
          SinkCall.core_set_aidifficulty l])) := by
    by_cases hc : confirmed s
    · exact Or.inr ⟨hc, hi.after hc⟩
    · exact Or.inl hc
  refine ⟨?_, ?_, hi.before, fun hmenu => ?_, fun inp deltatime s' h => ?_⟩
  · rcases hshape with hc | ⟨-, e | ⟨l, e⟩⟩
    · simp [hi.before hc, playercount_args]
    · simp [e, playercount_args]
    · simp [e, playercount_args]
  · rcases hshape with hc | ⟨-, e | ⟨l, e⟩⟩
    · simp [hi.before hc, aidifficulty_args]
    · simp [e, aidifficulty_args]
    · simp [e, aidifficulty_args]
  · have hc : confirmed s := Or.inr hmenu
    have hrange := count_joined_range s.global_playerjoined (hi.port hc).1
    rw [count_joined_eq] at hrange
    have hlen : 1 ≤ (joined_slots s.global_playerjoined).length ∧
        (joined_slots s.global_playerjoined).length ≤ MAXPLAYERS := by
      constructor
      · exact_mod_cast hrange.1
      · exact_mod_cast hrange.2
    rcases hi.after hc with e | ⟨l, e⟩
    · rw [count_joined_eq] at e
      exact ⟨⟨[], e⟩, by simp [e, playercount_args], hlen⟩
    · rw [count_joined_eq] at e
      exact ⟨⟨_, e⟩, by simp [e, playercount_args], hlen⟩
  · rcases setup_loop_cases m s s' inp deltatime h with
      ⟨q1, -⟩ | ⟨f1, f2, -, f4, -, f6, -⟩ | ⟨-, -, -, -, -, -, p7⟩
    · left
      rw [q1]
    · right
      have hb : s.sink_calls = [] := hi.before (by simp [confirmed, f1, f2])
      rw [hb, List.nil_append, ← f4, count_joined_eq] at f6
      exact ⟨hb, f6⟩
    · left
      rw [p7]
      simp [playercount_args]

/-- C16 on the state reached by `frames_to_gamesetup`, where all four slots
joined: the trace starts with `core_set_playercount(4)`. -/
theorem C16_sinks_called_once_witness :
    Reachable libm_example state_reached ∧
    playercount_args state_reached.sink_calls =
      [((joined_slots state_reached.global_playerjoined).length : Int)] ∧
    (aidifficulty_args state_reached.sink_calls).length ≤ 1 :=
  ⟨state_reached_reachable,
    ((C16_sinks_called_once libm_example state_reached state_reached_reachable).2.2.2.1
      (Or.inl state_reached_fields.1)).2.1,
    (C16_sinks_called_once libm_example state_reached state_reached_reachable).2.1⟩

/-- C17. On the frame of phase 1 on which the hold fires, `global_firstport`
becomes the lowest-index joined slot of that frame, the port whose A-hold
confirmed: it is in `0..MAXPLAYERS-1`, that slot is joined and no lower one
is.  No later frame changes it, so every later read `btns[global_firstport]`
is the pressed sample of that port. -/
theorem C17_firstport_is_first_joined (m : Libm) (s : State) (inp : Input) (deltatime : ℚ)
    (hm : s.global_curmenu = MENU_PLAYERS) (hs : s.global_showsecond = false)
    (hact : s.global_cursoractive = true)
    (hfc : firstcont_of (toggle_joined inp s.global_playerjoined) ≠ -1)
    (ha : (inp.joypad_get_buttons
      (firstcont_of (toggle_joined inp s.global_playerjoined))).a = true)
    (hfire : s.global_readyprog + deltatime ≥ 1) :
    ∃ s', setup_loop m s inp deltatime = some s' ∧
      s'.global_firstport = firstcont_of s'.global_playerjoined ∧
      s'.global_playerjoined = toggle_joined inp s.global_playerjoined ∧
      (0 ≤ s'.global_firstport ∧ s'.global_firstport < (MAXPLAYERS : Int)) ∧
      s'.global_playerjoined s'.global_firstport.toNat = true ∧
      (∀ i : Nat, i < s'.global_firstport.toNat → s'.global_playerjoined i = false) ∧
      (inp.joypad_get_buttons s'.global_firstport).a = true ∧
      ∀ (frames : List Frame) (s'' : State), run m s' frames = some s'' →
        s''.global_firstport = s'.global_firstport ∧
        ∀ inp2 : Input, btns inp2 s''.global_firstport =
          some (inp2.joypad_get_buttons_pressed s'.global_firstport) := by
  have hspec := firstcont_of_spec _ hfc
  have key : ∃ s', setup_loop m s inp deltatime = some s' ∧ confirmed s' ∧
      s'.global_firstport = firstcont_of (toggle_joined inp s.global_playerjoined) ∧
      s'.global_playerjoined = toggle_joined inp s.global_playerjoined := by
    by_cases hlast : toggle_joined inp s.global_playerjoined (MAXPLAYERS - 1) = false
    · obtain ⟨s', h, e1, e2, -, e4, e5, -⟩ :=
        setup_loop_fire_free m s inp deltatime hm hs hact hfc ha hfire hlast
      exact ⟨s', h, Or.inl ⟨e1, e2⟩, e4, e5⟩
    · obtain ⟨s', h, e1, -, -, -, e5, e6, -⟩ :=
        setup_loop_fire_full m s inp deltatime hm hs hact hfc ha hfire (by simpa using hlast)
      exact ⟨s', h, Or.inr (Or.inl e1), e5, e6⟩
  obtain ⟨s', h, hc, e1, e2⟩ := key
  refine ⟨s', h, by rw [e1, e2], e2, by rw [e1]; exact ⟨hspec.1, hspec.2.1⟩,
    by rw [e1, e2]; exact hspec.2.2.1, by rw [e1, e2]; exact hspec.2.2.2, by rw [e1]; exact ha,
    fun frames s'' hrun => ?_⟩
  obtain ⟨-, d2, -⟩ := confirmed_run m frames s' s'' hc hrun
  refine ⟨d2, fun inp2 => ?_⟩
  have hv : valid_port s'' := by
    rw [valid_port, d2, e1]
    have := hspec.2.1
    simp only [MAXPLAYERS] at this
    exact ⟨hspec.1, by exact_mod_cast this⟩
  rw [btns_firstport inp2 s'' hv, d2]

/-- C17 on `state_players` (port 0 joined) with A held for one second: the
controlling port is 0 after the frame. -/
theorem C17_firstport_is_first_joined_witness :
    ∃ s', setup_loop libm_example state_players (input_all joypad_buttons_t.zero btn_a) 1 =
        some s' ∧ s'.global_firstport = 0 := by
  obtain ⟨s', h, e1, e2, -⟩ :=
    C17_firstport_is_first_joined libm_example state_players
      (input_all joypad_buttons_t.zero btn_a) 1 rfl rfl rfl (by decide) (by decide) (by decide!)
  refine ⟨s', h, ?_⟩
  rw [e1, e2]
  decide

/-- C19 (the code leaves the range). The run `frames_cursor_up` from
`state_init`, twelve frames of a tenth of a second with every port connected,
ends in phase 1 of `MENU_PLAYERS` with the cursor active, a controlling port
inside `btns` and `global_selection = -1`: with `maxselect = 0` the cursor-up
branch wraps to `maxselect - 1`, where the cursor-down branch of the same
block wraps to 0. -/
theorem C19_selection_negative_in_phase1 :
    (run libm_example state_init frames_cursor_up).isSome = true ∧
      ((run libm_example state_init frames_cursor_up).getD state_init).global_curmenu =
        MENU_PLAYERS ∧
      ((run libm_example state_init frames_cursor_up).getD state_init).global_showsecond =
        false ∧
      ((run libm_example state_init frames_cursor_up).getD state_init).global_cursoractive =
        true ∧
      ((run libm_example state_init frames_cursor_up).getD state_init).global_firstport = 0 ∧
      ((run libm_example state_init frames_cursor_up).getD state_init).global_selection = -1 ∧
      (cursor_move state_players btn_d_up 0).global_selection = -1 ∧
      (cursor_move state_players btn_d_down 0).global_selection = 0 := by
  decide!

/-- C20. Along every run from `setup_init` whose frames all have
`10*deltatime` in `[0, 1]`: every level passed to `core_set_aidifficulty` is
0, 1 or 2.  The reasons hold as well.  In the state reached, the width of the
AI-difficulty box is in `0..128`, and in phase 2 no transition runs, the
selection is in `0..2` and an active cursor means the box is wider than 100.
For a next frame of that kind: the switch of the frame that enters phase 2
sets the selection to 1 with the cursor inactive; once the cursor is active
in phase 2 a frame staying in phase 2 reaches the cursor block with the
cursor active and `maxselect = 3`; the switch of the frame that leaves
phase 2 passes the selection to `core_set_aidifficulty`; and the width of the
box does not decrease and stays at most 128. -/
theorem C20_aidifficulty_level_in_range (m : Libm) (joypad_is_connected : Int → Bool)
    (showsecond : Bool) (fx fy cx cy : Int) (frames : List Frame) (s : State)
    (hd : ∀ f ∈ frames, slow_frame f.deltatime)
    (hrun : run m (setup_init joypad_is_connected showsecond fx fy cx cy) frames = some s) :
    (∀ l ∈ aidifficulty_args s.sink_calls, l = 0 ∨ l = 1 ∨ l = 2) ∧
    (0 ≤ s.bdef_backbox_aidiff.w ∧ s.bdef_backbox_aidiff.w ≤ 128) ∧
    (s.global_curmenu = MENU_PLAYERS → s.global_showsecond = true →
      s.global_transition = TRANS_NONE ∧
      (0 ≤ s.global_selection ∧ s.global_selection ≤ 2) ∧
      (s.global_cursoractive = true → 100 < s.bdef_backbox_aidiff.w)) ∧
    (∀ (inp : Input) (deltatime : ℚ), slow_frame deltatime →
      (∀ s1 maxselect, handle_controls s inp deltatime = some (s1, maxselect) →
        (s.global_showsecond = false → s1.global_curmenu = MENU_PLAYERS →
          s1.global_showsecond = true →
          s1.global_selection = 1 ∧ s1.global_cursoractive = false) ∧
        (s.global_curmenu = MENU_PLAYERS → s.global_showsecond = true →
          s.global_cursoractive = true → s1.global_curmenu = MENU_PLAYERS →
          s1.global_showsecond = true →
          (handle_animations m s1 maxselect deltatime).1.global_cursoractive = true ∧
            (handle_animations m s1 maxselect deltatime).2 = 3) ∧
        (s.global_curmenu = MENU_PLAYERS → s.global_showsecond = true →
          s1.global_curmenu = MENU_GAMESETUP →
          s1.sink_calls =
            s.sink_calls ++ [SinkCall.core_set_aidifficulty s.global_selection] ∧
          0 ≤ s.global_selection ∧ s.global_selection ≤ 2)) ∧
      (∀ s', setup_loop m s inp deltatime = some s' →
        s.bdef_backbox_aidiff.w ≤ s'.bdef_backbox_aidiff.w ∧
          s'.bdef_backbox_aidiff.w ≤ 128 ∧
        (s'.global_curmenu = MENU_PLAYERS → s'.global_showsecond = true →
          0 ≤ s'.global_selection ∧ s'.global_selection ≤ 2))) := by
  have hinv : Inv s :=
    Inv_run m frames _ s (Inv_setup_init joypad_is_connected showsecond fx fy cx cy) hrun
  have hi : AiInv s :=
    AiInv_run m frames _ s (Inv_setup_init joypad_is_connected showsecond fx fy cx cy)
      (AiInv_setup_init joypad_is_connected showsecond fx fy cx cy) hd hrun
  refine ⟨?_, hi.width, fun hm hs => ⟨hi.idle hm hs, hi.selection hm hs, hi.wide hm hs⟩, ?_⟩
  · intro l hl
    have := hi.levels l hl
    omega
  · intro inp deltatime hdt
    refine ⟨fun s1 maxselect hc => ⟨?_, ?_, ?_⟩, fun s' h => ?_⟩
    · exact fun hs hm1 hs1 => phase2_entry s s1 inp deltatime maxselect hc hs hm1 hs1
    · exact fun hm hs hact hm1 hs1 =>
        phase2_maxselect m s s1 inp deltatime maxselect hi hdt hc hm hs hact hm1 hs1
    · exact fun hm hs hm1 =>
        ⟨phase2_press s s1 inp deltatime maxselect hc hm hs hm1, hi.selection hm hs⟩
    · have hmono := setup_loop_aidiff_mono m s s' inp deltatime hdt hi.width h
      exact ⟨hmono.1, hmono.2, (AiInv_setup_loop m s s' inp deltatime hinv hi hdt h).selection⟩

/-- C20 on the run `frames_slow`, whose frames last a tenth or a twentieth of
a second: the one call is `core_set_aidifficulty(2)`. -/
theorem C20_aidifficulty_level_in_range_witness :
    aidifficulty_args state_slow.sink_calls = [2] ∧
      ∀ l ∈ aidifficulty_args state_slow.sink_calls, l = 0 ∨ l = 1 ∨ l = 2 :=
  ⟨by decide!,
    (C20_aidifficulty_level_in_range libm_example (fun _ => true) false 0 0 0 0 frames_slow
      state_slow frames_slow_slow run_frames_slow).1⟩

/-- C21 (the divisor is 0 at both ends). The argument of `sqrt` in the block
loop of `drawfade` is positive exactly for `0 < time < 1`; at `time = 0` and
`time = 1`, which pass both early returns, it is 0, so the divisor is
`sqrt(0)` and `drawfade` divides by zero whenever `sqrt(0) = 0`.  The value
`time = 1` is what `setup_draw` passes after two frames of half a second. -/
theorem C21_drawfade_divisor_zero_at_ends :
    (∀ time : ℚ, 0 < drawfade_squares time ↔ (0 < time ∧ time < 1)) ∧
    drawfade_squares 0 = 0 ∧ drawfade_squares 1 = 0 ∧
    (∀ m : Libm, (drawfade m 0 = none ↔ m.sqrt 0 = 0) ∧ (drawfade m 1 = none ↔ m.sqrt 0 = 0)) ∧
    (run libm_example state_init [frame_idle (1 / 2), frame_idle (1 / 2)]).map
      State.global_backtime = some 1 := by
  refine ⟨drawfade_squares_pos_iff, drawfade_squares_ends.1, drawfade_squares_ends.2,
    fun m => ⟨?_, ?_⟩, by decide!⟩
  · rw [drawfade_none_iff m 0 le_rfl (by norm_num), drawfade_squares_ends.1]
  · rw [drawfade_none_iff m 1 (by norm_num) le_rfl, drawfade_squares_ends.2]

/-- C22. Over exact arithmetic, for every colour `c` with channels in
`0..255`: `rgb2hsv c` has its hue in `[0, 360)` and its saturation and value
in `[0, 1]`; `hsv2rgb (rgb2hsv c)` has the channels of `c` and alpha 255;
`lerpcolor c to 0` has the channels of `c` for every `to`, and
`lerpcolor from c 1` has the channels of `c` for every `from`. -/
theorem C22_hsv_roundtrip (c : color_t) (hv : c.valid) :
    ((0 ≤ (rgb2hsv c).h ∧ (rgb2hsv c).h < 360) ∧
      (0 ≤ (rgb2hsv c).s ∧ (rgb2hsv c).s ≤ 1) ∧
      (0 ≤ (rgb2hsv c).v ∧ (rgb2hsv c).v ≤ 1)) ∧
    hsv2rgb (rgb2hsv c) = ⟨c.r, c.g, c.b, 255⟩ ∧
    (∀ to_ : color_t, lerpcolor c to_ 0 = ⟨c.r, c.g, c.b, 255⟩) ∧
    (∀ from_ : color_t, lerpcolor from_ c 1 = ⟨c.r, c.g, c.b, 255⟩) :=
  ⟨rgb2hsv_range c hv, hsv2rgb_rgb2hsv c hv, fun to_ => lerpcolor_zero c to_ hv,
    fun from_ => lerpcolor_one from_ c hv⟩

/-- C22 on the first background colour, red, blended toward the fifth, blue,
whose hue is 240 degrees away: the hue of red is 0, and the blend at
`frac = 0` is red, although `deglerp` returns 360 there. -/
theorem C22_hsv_roundtrip_witness :
    color_t.valid ⟨255, 0, 0, 255⟩ ∧ (rgb2hsv ⟨255, 0, 0, 255⟩).h = 0 ∧
      deglerp (rgb2hsv ⟨255, 0, 0, 255⟩).h (rgb2hsv ⟨0, 0, 255, 255⟩).h 0 = 360 ∧
      hsv2rgb (rgb2hsv ⟨255, 0, 0, 255⟩) = ⟨255, 0, 0, 255⟩ ∧
      lerpcolor ⟨255, 0, 0, 255⟩ ⟨0, 0, 255, 255⟩ 0 = ⟨255, 0, 0, 255⟩ :=
  ⟨by decide, by decide!, by decide!,
    (C22_hsv_roundtrip ⟨255, 0, 0, 255⟩ (by decide)).2.1,
    (C22_hsv_roundtrip ⟨255, 0, 0, 255⟩ (by decide)).2.2.1 ⟨0, 0, 255, 255⟩⟩

end Setup
